import Mathlib

/-!
# Asynchronous compute scheduling of `vk_asynchronous_compute`

A shallow embedding of the compute-dispatch core of the sample
(`async_compute/hello_vulkan.cpp` and the frame loop of
`async_compute/main.cpp`) and the properties of its specification.

Layout of the embedding:

* the Vulkan calls a host function issues are collected in a `World.calls`
  trace, in program order, together with the result the device gave;
* the part of the device the host can observe, the job fence, is a `Device`
  record; what the device answers to a call is an input (`Responses`);
* the frame loop of `main` is a step function `frame` over a `Loop` state,
  returning what the iteration did as a list of `Event`s;
* the start-up code (`setup`, the job builder, the helpers of
  `VulkanHelper.cpp`, the scene vectors and the shader binding table) is
  embedded function by function, each with the trace of the calls it makes.
-/

namespace AsyncCompute

/-! ## Vulkan vocabulary -/

/-- Vulkan object handles are opaque numbers. -/
abbrev Handle := Nat

/-- Result codes of the Vulkan calls that occur in the sources. -/
inductive VkResult
  | VK_SUCCESS
  | VK_NOT_READY
  | VK_ERROR_OUT_OF_HOST_MEMORY
  | VK_ERROR_OUT_OF_DEVICE_MEMORY
  | VK_ERROR_DEVICE_LOST
  deriving DecidableEq, Repr

/-- Push constant block `m_PushConstant` of the compute job. The struct is
declared in `hello_vulkan.h`; these are the fields the sources read or
write (`m_threads` in `main.cpp:327`, `use_atomic` in `hello_vulkan.cpp:93`),
both C `int`. -/
structure PushConstant where
  m_threads : Int
  use_atomic : Int
  deriving DecidableEq, Repr

/-- One host-visible buffer of a job: the buffer handle and the address of
its mapping (`buffers[0].buffer`, `buffers[0].data`). -/
structure Buffer where
  buffer : Handle
  data : Handle
  deriving DecidableEq, Repr

/-- The `computeData` job descriptor, with the members the sources use. -/
structure computeData where
  pipeline : Handle
  pipelineLayout : Handle
  descSetLayout : Handle
  descPool : Handle
  descSet : Handle
  buffers : List Buffer
  fence : Handle
  deriving DecidableEq, Repr

/-- Queues a submission can target: the two handles kept by the application
(`m_queue`, `m_queue_comp`) and the queue an `nvvk::CommandPool` built for a
queue family submits to. -/
inductive QueueRef
  | m_queue
  | m_queue_comp
  | poolQueue (familyIndex : Nat)
  deriving DecidableEq, Repr

/-- Pipeline bind points (`vk::PipelineBindPoint`). -/
inductive PipelineBindPoint
  | eGraphics
  | eCompute
  | eRayTracingKHR
  deriving DecidableEq, Repr

/-- Shader stages a push constant range can be visible to
(`vk::ShaderStageFlagBits`). -/
inductive ShaderStage
  | eVertex
  | eFragment
  | eCompute
  | eRaygenKHR
  deriving DecidableEq, Repr

/-- Commands recorded into a command buffer. -/
inductive Cmd
  | beginLabel (label : String)
  | endLabel
  | bindPipeline (bindPoint : PipelineBindPoint) (pipeline : Handle)
  | bindDescriptorSets (bindPoint : PipelineBindPoint) (layout : Handle) (firstSet : Nat)
      (sets : List Handle) (dynamicOffsets : List Nat)
  | pushConstants (layout : Handle) (stage : ShaderStage) (offset : Nat)
      (values : PushConstant)
  | dispatch (groupCountX groupCountY groupCountZ : Nat)
  deriving DecidableEq, Repr

/-- Calls made by the host, in the order they are issued. The flag of
`beginCommandBuffer` is `eOneTimeSubmit`. -/
inductive Call
  | createCommandPool (familyIndex : Nat)
  | createCommandBuffer (cmdBuf : Handle)
  | beginCommandBuffer (cmdBuf : Handle) (oneTimeSubmit : Bool) (result : VkResult)
  | cmd (cmdBuf : Handle) (c : Cmd)
  | endCommandBuffer (cmdBuf : Handle) (result : VkResult)
  | queueSubmit (queue : QueueRef) (cmdBufs : List Handle) (fence : Option Handle)
      (result : VkResult)
  | queueWaitIdle (queue : QueueRef) (result : VkResult)
  | waitForFences (fence : Handle)
  | deviceWaitIdle
  | freeCommandBuffers (cmdBufs : List Handle)
  | getFenceStatus (fence : Handle) (result : VkResult)
  | resetFences (fence : Handle)
  | memcpy (dst : Handle) (bytes : List Nat)
  | updateDescriptorSets (dstSet : Handle) (binding : Nat) (buffer : Handle)
  | printCounter (src : Handle)
  deriving DecidableEq, Repr

/-- Whether a call blocks the host until the device has made progress. -/
def Call.isWait : Call → Bool
  | .queueWaitIdle _ _ => true
  | .waitForFences _ => true
  | .deviceWaitIdle => true
  | _ => false

/-- Whether a call is a queue submission. -/
def Call.isSubmit : Call → Bool
  | .queueSubmit _ _ _ _ => true
  | _ => false

/-! ## The device as the host sees it -/

/-- State of the job fence `m_compDataList[0]->fence` on the device.
`pending` counts the submissions that carry the fence and have not been
retired by the GPU yet. -/
structure Device where
  fenceSignaled : Bool
  pending : Nat
  deriving DecidableEq, Repr

/-- The GPU retires the oldest outstanding submission that carries the
fence: the fence becomes signaled. Nothing happens when none is pending. -/
def Device.retire (d : Device) : Device :=
  match d.pending with
  | 0 => d
  | n + 1 => { d with fenceSignaled := true, pending := n }

/-- The GPU retires up to `k` outstanding submissions. -/
def Device.retireN : Nat → Device → Device
  | 0, d => d
  | k + 1, d => Device.retireN k d.retire

/-- Vulkan `vkGetFenceStatus`: an immediate query, `VK_SUCCESS` for a signaled
fence and `VK_NOT_READY` for an unsignaled one. -/
def Device.vkGetFenceStatus (d : Device) : VkResult :=
  if d.fenceSignaled then .VK_SUCCESS else .VK_NOT_READY

/-- Vulkan `vkResetFences` sets the fence to the unsignaled state. -/
def Device.vkResetFences (d : Device) : Device :=
  { d with fenceSignaled := false }

/-- Vulkan `vkQueueSubmit` with the job fence: an accepted submission is
outstanding until the GPU retires it. -/
def Device.vkQueueSubmit (result : VkResult) (d : Device) : Device :=
  if result = .VK_SUCCESS then { d with pending := d.pending + 1 } else d

/-- The bit `VK_FENCE_CREATE_SIGNALED_BIT`. -/
def VK_FENCE_CREATE_SIGNALED_BIT : Nat := 1

/-- Vulkan `vkCreateFence`: the fence starts signaled exactly when the creation
flags carry `VK_FENCE_CREATE_SIGNALED_BIT`; nothing is pending on it. -/
def Device.vkCreateFence (flags : Nat) : Device :=
  { fenceSignaled := decide (flags / VK_FENCE_CREATE_SIGNALED_BIT % 2 = 1)
    pending := 0 }

/-- What the device answers to the calls of one host function: the results
of the fallible calls and the handle of a freshly allocated command
buffer. -/
structure Responses where
  beginResult : VkResult
  endResult : VkResult
  queueSubmitResult : VkResult
  queueWaitIdleResult : VkResult
  newCmdBuf : Handle
  deriving DecidableEq, Repr

/-- Every call succeeds. -/
def Responses.ok : Responses :=
  { beginResult := .VK_SUCCESS
    endResult := .VK_SUCCESS
    queueSubmitResult := .VK_SUCCESS
    queueWaitIdleResult := .VK_SUCCESS
    newCmdBuf := 100 }

/-- The device together with the trace of calls made so far. -/
structure World where
  dev : Device
  calls : List Call
  deriving DecidableEq, Repr

/-- Append calls to the trace. -/
def World.emit (w : World) (cs : List Call) : World :=
  { w with calls := w.calls ++ cs }

/-- How a host function ends: it returns, a `vulkan.hpp` call throws
`vk::SystemError`, the process exits, or it indexes an empty
`m_compDataList` (undefined behaviour). -/
inductive Outcome
  | returned
  | threw (r : VkResult)
  | exited (code : Int)
  | undefined
  deriving DecidableEq, Repr

/-! ## Workgroup count -/

/-- Number of halvings that bring `n` below `2^24`, the size of a binary32
significand; `fuel` bounds the recursion and `n` itself is always enough. -/
def ulpExponent : Nat → Nat → Nat
  | 0, _ => 0
  | fuel + 1, n => if n < 2 ^ 24 then 0 else ulpExponent fuel (n / 2) + 1

/-- Conversion of a natural number to IEEE-754 binary32 under
round-to-nearest, ties-to-even; the result is again an integer. Below
`2^24` the conversion is exact; above, the value is rounded to a multiple
of `2^e` that has a 24 bit quotient. -/
def roundToFloat (n : Nat) : Nat :=
  let e := ulpExponent n n
  let q := n / 2 ^ e
  let r := n % 2 ^ e
  if 2 * r < 2 ^ e then q * 2 ^ e
  else if 2 * r = 2 ^ e ∧ q % 2 = 0 then q * 2 ^ e
  else (q + 1) * 2 ^ e

/-- The conversion `float(v)` of a C `int`. -/
def floatOfInt (v : Int) : Int :=
  if v < 0 then -(roundToFloat v.natAbs : Int) else (roundToFloat v.natAbs : Int)

/-- The local workgroup size `64.0f` the two dispatch paths divide by. -/
def LOCAL_WORKGROUP_SIZE : Int := 64

/-- The expression `ceil(float(m_PushConstant.m_threads) / 64.0f)`
(`hello_vulkan.cpp:1112` and `:1144`). The division of a binary32 value of
magnitude at most `2^31` by `64 = 2^6` only lowers the exponent and `ceil`
of a binary32 value is a binary32 value, so both are exact: the result is
the integer ceiling of the converted value over 64. -/
def numOfBlocks (m_threads : Int) : Int :=
  -((-(floatOfInt m_threads)) / LOCAL_WORKGROUP_SIZE)

/-- Conversion of the `float` workgroup count to the `uint32_t` parameter of
`dispatch`; exact for `0 ≤ v < 2^32` (C++ leaves other values undefined,
they are reduced modulo `2^32` here). -/
def toUint32 (v : Int) : Nat := (v % 2 ^ 32).toNat

/-- The exact integer ceiling `ceil(threads / 64)` of the specification. -/
def exactWorkgroups (threads : Int) : Int := -((-threads) / 64)

/-! ## The application object and its compute functions -/

/-- The members of `HelloVulkan` the compute path uses. The two flags are
declared in `hello_vulkan.h`; `m_commandBuffer_comp` is allocated in
`setup` (`hello_vulkan.cpp:96`). -/
structure HelloVulkan where
  m_compDataList : List computeData
  m_PushConstant : PushConstant
  m_graphicsQueueIndex : Nat
  m_commandBuffer_comp : Handle
  m_isTestComputeShaderRunning : Bool
  m_waitingComputeShaderFence : Bool
  deriving DecidableEq, Repr

namespace HelloVulkan

/-- The getter `getCompCommandBuffer()`, declared in `hello_vulkan.h`: the
command buffer allocated from the compute pool in `setup`. -/
def getCompCommandBuffer (hv : HelloVulkan) : Handle := hv.m_commandBuffer_comp

/-- Source function `HelloVulkan::submitComputeCommand`
(`hello_vulkan.cpp:1152-1169`): one
`vkQueueSubmit` of the command buffer to `m_queue_comp` with the fence of
job 0; the result of the call is not looked at. -/
def submitComputeCommand (hv : HelloVulkan) (cmdBuf : Handle) (r : Responses)
    (w : World) : World × Outcome :=
  match hv.m_compDataList with
  | [] => (w, .undefined)
  | compData :: _ =>
    ({ dev := w.dev.vkQueueSubmit r.queueSubmitResult
       calls := w.calls ++
         [.queueSubmit .m_queue_comp [cmdBuf] (some compData.fence) r.queueSubmitResult] },
     .returned)

/-- Source function `HelloVulkan::executeComputeShaderPipline`
(`hello_vulkan.cpp:1130-1151`),
the dedicated-queue dispatch. `cmdBuf.begin` and `cmdBuf.end` are
`vulkan.hpp` calls and throw on a result other than success. -/
def executeComputeShaderPipline (hv : HelloVulkan) (cmdBuf : Handle) (r : Responses)
    (w : World) : World × Outcome :=
  let w := w.emit [.cmd cmdBuf (.beginLabel "Compute Shader :)")]
  match hv.m_compDataList with
  | [] => (w, .undefined)
  | compData :: _ =>
    let w := w.emit [.beginCommandBuffer cmdBuf true r.beginResult]
    if r.beginResult ≠ .VK_SUCCESS then (w, .threw r.beginResult)
    else
      let w := w.emit
        [ .cmd cmdBuf (.bindPipeline .eCompute compData.pipeline),
          .cmd cmdBuf
            (.bindDescriptorSets .eCompute compData.pipelineLayout 0 [compData.descSet] []),
          .cmd cmdBuf (.pushConstants compData.pipelineLayout .eCompute 0 hv.m_PushConstant) ]
      let numOfBlocks := numOfBlocks hv.m_PushConstant.m_threads
      let w := w.emit [.cmd cmdBuf (.dispatch (toUint32 numOfBlocks) 1 1)]
      let w := w.emit [.endCommandBuffer cmdBuf r.endResult]
      if r.endResult ≠ .VK_SUCCESS then (w, .threw r.endResult)
      else
        match submitComputeCommand hv cmdBuf r w with
        | (w, .returned) => (w.emit [.cmd cmdBuf .endLabel], .returned)
        | (w, o) => (w, o)

/-- Modelled from the spec: `nvvk::CommandPool::submitAndWait`, the "submit
and wait" primitive of the command recording layer, whose code is not among
the sources. The command buffer is ended and submitted, without a fence,
to the queue of the pool, and the host blocks until that queue is idle
before the call returns. As in the copy `VulkanHelper::submitAndWait` that
is among the sources, a failed wait ends the process with status -1 and
the command buffer is freed after a successful wait. -/
def CommandPool_submitAndWait (familyIndex : Nat) (cmdBuf : Handle) (r : Responses)
    (w : World) : World × Outcome :=
  let w := w.emit
    [ .endCommandBuffer cmdBuf r.endResult,
      .queueSubmit (.poolQueue familyIndex) [cmdBuf] none r.queueSubmitResult,
      .queueWaitIdle (.poolQueue familyIndex) r.queueWaitIdleResult ]
  if r.queueWaitIdleResult ≠ .VK_SUCCESS then (w, .exited (-1))
  else (w.emit [.freeCommandBuffers [cmdBuf]], .returned)

/-- Source function `HelloVulkan::executeComputeShaderPipline_graphicsQueue`
(`hello_vulkan.cpp:1100-1116`), the shared-queue dispatch: a command pool
for the family `m_graphicsQueueIndex`, a command buffer from it, the same
recording, then submit-and-wait on the pool. -/
def executeComputeShaderPipline_graphicsQueue (hv : HelloVulkan) (r : Responses)
    (w : World) : World × Outcome :=
  match hv.m_compDataList with
  | [] => (w, .undefined)
  | compData :: _ =>
    let cmdBuf := r.newCmdBuf
    let w := w.emit [.createCommandPool hv.m_graphicsQueueIndex, .createCommandBuffer cmdBuf]
    let w := w.emit [.beginCommandBuffer cmdBuf true r.beginResult]
    if r.beginResult ≠ .VK_SUCCESS then (w, .threw r.beginResult)
    else
      let w := w.emit
        [ .cmd cmdBuf (.bindPipeline .eCompute compData.pipeline),
          .cmd cmdBuf
            (.bindDescriptorSets .eCompute compData.pipelineLayout 0 [compData.descSet] []),
          .cmd cmdBuf (.pushConstants compData.pipelineLayout .eCompute 0 hv.m_PushConstant) ]
      let numOfBlocks := numOfBlocks hv.m_PushConstant.m_threads
      let w := w.emit [.cmd cmdBuf (.dispatch (toUint32 numOfBlocks) 1 1)]
      CommandPool_submitAndWait hv.m_graphicsQueueIndex cmdBuf r w

/-- Little-endian bytes of a `uint64_t`. -/
def uint64Bytes (v : Nat) : List Nat :=
  (List.range 8).map (fun k => v / 256 ^ k % 256)

/-- Source function `HelloVulkan::updateCompDescriptorSet`
(`hello_vulkan.cpp:1066-1081`):
one write of buffer 0 at binding 0 of the job's descriptor set, handed to
`updateDescriptorSets` twice. -/
def updateCompDescriptorSet (compData : computeData) (w : World) : World × Outcome :=
  match compData.buffers with
  | [] => (w, .undefined)
  | b :: _ =>
    let writes := [Call.updateDescriptorSets compData.descSet 0 b.buffer]
    ((w.emit writes).emit writes, .returned)

/-- Source function `HelloVulkan::prepareComputeShader`
(`hello_vulkan.cpp:1117-1129`): the
mapped counter buffer is overwritten with `nbCounters = 1` zero counters and
the descriptor set is updated. -/
def prepareComputeShader (hv : HelloVulkan) (w : World) : World × Outcome :=
  match hv.m_compDataList with
  | [] => (w, .undefined)
  | compData :: _ =>
    match compData.buffers with
    | [] => (w, .undefined)
    | b :: _ =>
      let nbCounters := 1
      let counters := List.replicate nbCounters 0
      let bufferSize := counters.length * 8
      let w := w.emit [.memcpy b.data ((counters.flatMap uint64Bytes).take bufferSize)]
      updateCompDescriptorSet compData w

/-- Source function `HelloVulkan::printCounter` (`hello_vulkan.cpp:1032-1038`):
reads the
64-bit counter behind `buffers[0].data` and prints it. -/
def printCounter (hv : HelloVulkan) (w : World) : World × Outcome :=
  match hv.m_compDataList with
  | [] => (w, .undefined)
  | compData :: _ =>
    match compData.buffers with
    | [] => (w, .undefined)
    | b :: _ => (w.emit [.printCounter b.data], .returned)

/-- Source function `HelloVulkan::isComputeShaderExecutionDone`
(`hello_vulkan.cpp:1170-1183`):
an immediate status query of the fence of job 0; on `VK_SUCCESS` the fence
is reset and the answer is `true`, otherwise the answer is `false`. The
answer is `none` when `m_compDataList` is empty. -/
def isComputeShaderExecutionDone (hv : HelloVulkan) (w : World) : World × Option Bool :=
  match hv.m_compDataList with
  | [] => (w, none)
  | compData :: _ =>
    let status := w.dev.vkGetFenceStatus
    let w := w.emit [.getFenceStatus compData.fence status]
    if status = .VK_SUCCESS then
      ({ dev := w.dev.vkResetFences
         calls := w.calls ++ [.resetFences compData.fence] }, some true)
    else (w, some false)

end HelloVulkan

/-- The fence-creation step of `HelloVulkan::createComputeShaderPipline`
(`hello_vulkan.cpp:287-300`): `fenceInfo` is value-initialised and only its
`sType` is set, so the creation flags are 0. -/
def createComputeShaderPipline_fenceFlags : Nat := 0

/-- The device right after `createComputeShaderPipline`: the job fence as
created, no call of the compute path made yet. -/
def World.init : World :=
  { dev := Device.vkCreateFence createComputeShaderPipline_fenceFlags
    calls := [] }

/-! ## Reading a call trace -/

/-- The commands recorded into `cmdBuf` while it is in the recording state,
that is between a `beginCommandBuffer` and the next `endCommandBuffer` of
that buffer. `recording` tells whether the buffer is recording at the head
of the trace. -/
def recordedFrom (cmdBuf : Handle) : Bool → List Call → List Cmd
  | _, [] => []
  | recording, c :: cs =>
    match c with
    | .beginCommandBuffer b _ _ =>
      if b = cmdBuf then recordedFrom cmdBuf true cs else recordedFrom cmdBuf recording cs
    | .endCommandBuffer b _ =>
      if b = cmdBuf then recordedFrom cmdBuf false cs else recordedFrom cmdBuf recording cs
    | .cmd b k =>
      if b = cmdBuf ∧ recording then k :: recordedFrom cmdBuf recording cs
      else recordedFrom cmdBuf recording cs
    | _ => recordedFrom cmdBuf recording cs

/-- The commands recorded into `cmdBuf` by a trace that starts with the
buffer not recording. -/
def recorded (cmdBuf : Handle) (cs : List Call) : List Cmd :=
  recordedFrom cmdBuf false cs

/-- The calls a host function adds to the trace of `w`. -/
def issued (w : World) (res : World × Outcome) : List Call :=
  res.1.calls.drop w.calls.length

/-- The workgroup counts of the `dispatch` commands in a trace. -/
def dispatches : List Call → List (Nat × Nat × Nat)
  | [] => []
  | .cmd _ (.dispatch x y z) :: cs => (x, y, z) :: dispatches cs
  | _ :: cs => dispatches cs

/-- The calls a poll adds to the trace of `w`. -/
def polled (w : World) (res : World × Option Bool) : List Call :=
  res.1.calls.drop w.calls.length

/-- Number of submissions with the job fence the device accepted. -/
def submittedCount (cs : List Call) : Nat :=
  (cs.filter (fun c =>
    match c with
    | .queueSubmit _ _ (some _) .VK_SUCCESS => true
    | _ => false)).length

/-- Number of polls that answered `true`: each resets the fence once. -/
def reportedCount (cs : List Call) : Nat :=
  (cs.filter (fun c =>
    match c with
    | .resetFences _ => true
    | _ => false)).length

/-! ## The frame loop of `main` -/

/-- The clear colour as far as the compute path sets it: white, red after
the button, or whatever the colour editor left. -/
inductive ClearColor
  | white
  | red
  | edited
  deriving DecidableEq, Repr

/-- What happens around one iteration of the loop: the user's actions on the
panel, the progress of the GPU, and the answers of the device. -/
structure FrameInput where
  isMinimized : Bool
  showGui : Bool
  colorEdited : Bool
  rayTracerClicked : Bool
  headerOpen : Bool
  t1 : Option Int
  t2 : Option Int
  t3 : Option Int
  oneQueue : Bool
  twoQueues : Bool
  runButton : Bool
  retiredBeforeDispatch : Nat
  retiredBeforePoll : Nat
  vk : Responses
  deriving DecidableEq, Repr

/-- A frame in which the user does nothing and the GPU retires nothing. -/
def FrameInput.idle : FrameInput :=
  { isMinimized := false
    showGui := true
    colorEdited := false
    rayTracerClicked := false
    headerOpen := true
    t1 := none
    t2 := none
    t3 := none
    oneQueue := false
    twoQueues := false
    runButton := false
    retiredBeforeDispatch := 0
    retiredBeforePoll := 0
    vk := Responses.ok }

/-- A frame in which the user presses "Run Compute Shader". -/
def FrameInput.press : FrameInput :=
  { FrameInput.idle with runButton := true }

/-- Whether the button press of this frame reaches the program: the panel
and the "Test Async Compute" header are shown, the window is not minimized
and the button is pressed. -/
def FrameInput.triggers (i : FrameInput) : Bool :=
  !i.isMinimized && i.showGui && i.headerOpen && i.runButton

/-- The variables of `main` that live across iterations, the application
object and the device. `halted` is set once the process has ended. -/
structure Loop where
  helloVk : HelloVulkan
  m_runTestComputeShader : Bool
  m_numberOfUsedQueues : Int
  x : Int
  y : Int
  z : Int
  useRaytracer : Bool
  clearColor : ClearColor
  world : World
  halted : Option Outcome
  deriving DecidableEq, Repr

/-- What one iteration did, at the granularity of the calls of `main`. -/
inductive Event
  | prepareFrame
  | raytrace
  | rasterize
  | drawPost
  | submitFrame
  | prepareComputeShader
  | executeComputeShaderPipline
  | executeComputeShaderPipline_graphicsQueue
  | isComputeShaderExecutionDone (result : Bool)
  | printCounter
  | exit (code : Int)
  deriving DecidableEq, Repr

/-- Wrap-around of an `int` sum to 32 bits. -/
def toInt32 (v : Int) : Int := (v + 2 ^ 31) % 2 ^ 32 - 2 ^ 31

/-- The panel (`main.cpp:312-345`): colour editor, ray tracer checkbox, and
under the "Test Async Compute" header the three sliders, the thread count,
the queue radio buttons and the run button. -/
def renderPanel (i : FrameInput) (s : Loop) : Loop :=
  if i.showGui then
    let s := if i.colorEdited then { s with clearColor := .edited } else s
    let s := if i.rayTracerClicked then { s with useRaytracer := !s.useRaytracer } else s
    if i.headerOpen then
      let s := { s with x := i.t1.getD s.x, y := i.t2.getD s.y, z := i.t3.getD s.z }
      let s := { s with helloVk := { s.helloVk with
        m_PushConstant := { s.helloVk.m_PushConstant with
          m_threads := toInt32 (s.x + s.y + s.z) } } }
      let s := if i.oneQueue then { s with m_numberOfUsedQueues := 1 } else s
      let s := if i.twoQueues then { s with m_numberOfUsedQueues := 2 } else s
      if i.runButton then
        { s with m_runTestComputeShader := true, clearColor := .red }
      else s
    else s
  else s

/-- The graphics part of the iteration (`main.cpp:347-407`). -/
def renderFrame (s : Loop) : List Event :=
  [.prepareFrame, if s.useRaytracer then .raytrace else .rasterize, .drawPost, .submitFrame]

/-- The `catch` clause (`main.cpp:436-441`) and the other ways the dispatch
branch can end the process. -/
def haltWith (s : Loop) (w : World) (o : Outcome) (evs : List Event) : Loop × List Event :=
  match o with
  | .threw _ => ({ s with world := w, halted := some (.exited 1) }, evs ++ [.exit 1])
  | .exited c => ({ s with world := w, halted := some (.exited c) }, evs ++ [.exit c])
  | o => ({ s with world := w, halted := some o }, evs)

/-- The compute-state block (`main.cpp:409-442`). -/
def computeStateBlock (i : FrameInput) (s : Loop) : Loop × List Event :=
  if s.m_runTestComputeShader then
    ({ s with
        helloVk := { s.helloVk with m_isTestComputeShaderRunning := true }
        m_runTestComputeShader := false }, [])
  else if s.helloVk.m_isTestComputeShaderRunning then
    let hv := { s.helloVk with
      m_isTestComputeShaderRunning := false
      m_waitingComputeShaderFence := false }
    let s := { s with helloVk := hv }
    match hv.prepareComputeShader s.world with
    | (w, .returned) =>
      if s.m_numberOfUsedQueues = 2 then
        match hv.executeComputeShaderPipline hv.getCompCommandBuffer i.vk w with
        | (w, .returned) =>
          ({ s with
              helloVk := { hv with m_waitingComputeShaderFence := true }
              world := w },
           [.prepareComputeShader, .executeComputeShaderPipline])
        | (w, o) => haltWith s w o [.prepareComputeShader, .executeComputeShaderPipline]
      else
        match hv.executeComputeShaderPipline_graphicsQueue i.vk w with
        | (w, .returned) =>
          match hv.printCounter w with
          | (w, .returned) =>
            ({ s with clearColor := .white, world := w },
             [.prepareComputeShader, .executeComputeShaderPipline_graphicsQueue,
              .printCounter])
          | (w, o) =>
            haltWith { s with clearColor := .white } w o
              [.prepareComputeShader, .executeComputeShaderPipline_graphicsQueue,
               .printCounter]
        | (w, o) =>
          haltWith s w o [.prepareComputeShader, .executeComputeShaderPipline_graphicsQueue]
    | (w, o) => haltWith s w o [.prepareComputeShader]
  else (s, [])

/-- The poll block (`main.cpp:444-452`). -/
def pollBlock (s : Loop) : Loop × List Event :=
  if s.helloVk.m_waitingComputeShaderFence then
    match s.helloVk.isComputeShaderExecutionDone s.world with
    | (w, some true) =>
      match s.helloVk.printCounter w with
      | (w, .returned) =>
        ({ s with
            clearColor := .white
            helloVk := { s.helloVk with m_waitingComputeShaderFence := false }
            world := w },
         [.isComputeShaderExecutionDone true, .printCounter])
      | (w, o) =>
        haltWith { s with clearColor := .white } w o
          [.isComputeShaderExecutionDone true, .printCounter]
    | (w, some false) => ({ s with world := w }, [.isComputeShaderExecutionDone false])
    | (w, none) => haltWith s w .undefined []
  else (s, [])

/-- The GPU makes progress: it retires up to `k` outstanding submissions. -/
def gpuProgress (k : Nat) (s : Loop) : Loop :=
  { s with world := { s.world with dev := s.world.dev.retireN k } }

/-- One iteration of the `while` loop of `main` (`main.cpp:301-453`). A
minimized window skips the whole body; a halted process does nothing. The
GPU may retire work before the compute-state block and between that block
and the poll. -/
def frame (i : FrameInput) (s : Loop) : Loop × List Event :=
  if s.halted.isSome then (s, [])
  else
    let s := gpuProgress i.retiredBeforeDispatch s
    if i.isMinimized then (gpuProgress i.retiredBeforePoll s, [])
    else
      let s := renderPanel i s
      let evs1 := renderFrame s
      let (s, evs2) := computeStateBlock i s
      if s.halted.isSome then (s, evs1 ++ evs2)
      else
        let s := gpuProgress i.retiredBeforePoll s
        let (s, evs3) := pollBlock s
        (s, evs1 ++ evs2 ++ evs3)

/-- One entry of a run: the state at the start of the iteration, the input of
the iteration and what the iteration did. -/
structure Iteration where
  start : Loop
  input : FrameInput
  events : List Event
  deriving DecidableEq, Repr

/-- The iterations of the loop for a sequence of inputs, from state `s`. -/
def iterations : List FrameInput → Loop → List Iteration
  | [], _ => []
  | i :: is, s => { start := s, input := i, events := (frame i s).2 } :: iterations is (frame i s).1

/-- The state after the iterations for a sequence of inputs. -/
def runLoop : List FrameInput → Loop → Loop
  | [], s => s
  | i :: is, s => runLoop is (frame i s).1

/-- A job descriptor as `createComputeShaderPipline` leaves it: one buffer,
distinct handles. -/
def computeA : computeData :=
  { pipeline := 1
    pipelineLayout := 2
    descSetLayout := 3
    descPool := 4
    descSet := 5
    buffers := [{ buffer := 6, data := 7 }]
    fence := 8 }

/-- The application object when the loop is entered: one job in the list,
`use_atomic = 0` from `setup`, and both flags false (the `IDLE` state of the
specification; their initialisers are in `hello_vulkan.h`). -/
def HelloVulkan.atLoopEntry : HelloVulkan :=
  { m_compDataList := [computeA]
    m_PushConstant := { m_threads := 0, use_atomic := 0 }
    m_graphicsQueueIndex := 0
    m_commandBuffer_comp := 9
    m_isTestComputeShaderRunning := false
    m_waitingComputeShaderFence := false }

/-- The application object while a dedicated-queue dispatch is in flight. -/
def HelloVulkan.inFlight : HelloVulkan :=
  { HelloVulkan.atLoopEntry with m_waitingComputeShaderFence := true }

/-- A device on which one submission carrying the job fence is pending. -/
def World.inFlight : World :=
  { dev := { fenceSignaled := false, pending := 1 }, calls := [] }

/-- The state in which `main` enters the loop (`main.cpp:291-296`, the
statics of `main.cpp:321-323`). -/
def Loop.init : Loop :=
  { helloVk := HelloVulkan.atLoopEntry
    m_runTestComputeShader := false
    m_numberOfUsedQueues := 2
    x := 2
    y := 0
    z := 0
    useRaytracer := true
    clearColor := .white
    world := World.init
    halted := none }

/-! ## Histories of the job fence -/

/-- One thing that can happen to the device and the trace: a call of one of
the compute functions of `HelloVulkan`, in any state of the application
object, or the GPU retiring a submission. -/
inductive HostStep
  | prepareComputeShader (hv : HelloVulkan)
  | executeComputeShaderPipline (hv : HelloVulkan) (cmdBuf : Handle) (r : Responses)
  | executeComputeShaderPipline_graphicsQueue (hv : HelloVulkan) (r : Responses)
  | isComputeShaderExecutionDone (hv : HelloVulkan)
  | printCounter (hv : HelloVulkan)
  | gpuRetire
  deriving DecidableEq, Repr

/-- The effect of one step. -/
def HostStep.run : HostStep → World → World
  | .prepareComputeShader hv, w => (hv.prepareComputeShader w).1
  | .executeComputeShaderPipline hv cmdBuf r, w => (hv.executeComputeShaderPipline cmdBuf r w).1
  | .executeComputeShaderPipline_graphicsQueue hv r, w =>
    (hv.executeComputeShaderPipline_graphicsQueue r w).1
  | .isComputeShaderExecutionDone hv, w => (hv.isComputeShaderExecutionDone w).1
  | .printCounter hv, w => (hv.printCounter w).1
  | .gpuRetire, w => { w with dev := w.dev.retire }

/-- The effect of a sequence of steps. -/
def runSteps : List HostStep → World → World
  | [], w => w
  | s :: ss, w => runSteps ss (s.run w)

/-- The answers of `n` calls of `isComputeShaderExecutionDone` in a row. -/
def pollTimes (hv : HelloVulkan) : Nat → World → List (Option Bool)
  | 0, _ => []
  | n + 1, w =>
    (hv.isComputeShaderExecutionDone w).2 ::
      pollTimes hv n (hv.isComputeShaderExecutionDone w).1

/-- Bookkeeping of the fence: every reported completion, every submission
still pending and a signal not yet consumed is accounted for by an accepted
submission. -/
def fenceBalance (w : World) : Prop :=
  reportedCount w.calls + w.dev.pending + (if w.dev.fenceSignaled then 1 else 0) ≤
    submittedCount w.calls

/-- The loop invariant behind at-most-one-in-flight: the trigger flag is
clear between iterations and the running and waiting flags are not both
set. -/
def flagsExclusive (s : Loop) : Prop :=
  s.m_runTestComputeShader = false ∧
  ¬(s.helloVk.m_isTestComputeShaderRunning = true ∧
    s.helloVk.m_waitingComputeShaderFence = true)

instance (s : Loop) : Decidable (flagsExclusive s) := by
  unfold flagsExclusive
  infer_instance

instance (w : World) : Decidable (fenceBalance w) := by
  unfold fenceBalance
  infer_instance

/-! ## Points inside an iteration -/

/-- The state in which the compute-state block of an iteration is reached:
after the GPU progress that precedes it and after the panel. -/
def atComputeState (i : FrameInput) (s : Loop) : Loop :=
  renderPanel i (gpuProgress i.retiredBeforeDispatch s)

/-- The state the compute-state block of an iteration leaves. -/
def afterComputeState (i : FrameInput) (s : Loop) : Loop :=
  (computeStateBlock i (atComputeState i s)).1

/-- The state in which the poll block of an iteration is reached. -/
def atPollBlock (i : FrameInput) (s : Loop) : Loop :=
  gpuProgress i.retiredBeforePoll (afterComputeState i s)

/-- Whether an iteration gets as far as its poll block: the process is
alive, the window is not minimized and the compute-state block did not end
the process. -/
def reachesPollBlock (i : FrameInput) (s : Loop) : Bool :=
  !s.halted.isSome && !i.isMinimized && !(afterComputeState i s).halted.isSome

/-- The state between the two assignments of the trigger branch
(`main.cpp:412` done, `main.cpp:413` not yet): the running flag is set and
the trigger flag is not cleared yet. -/
def midTrigger (s : Loop) : Loop :=
  { s with helloVk := { s.helloVk with m_isTestComputeShaderRunning := true } }

/-- All three flags of the compute state machine are false. -/
def flagsClear (s : Loop) : Prop :=
  s.m_runTestComputeShader = false ∧
  s.helloVk.m_isTestComputeShaderRunning = false ∧
  s.helloVk.m_waitingComputeShaderFence = false

instance (s : Loop) : Decidable (flagsClear s) := by
  unfold flagsClear
  infer_instance

/-- Nothing is outstanding on the job fence: no submission pending and no
signal waiting to be consumed. -/
def Device.idle (d : Device) : Prop :=
  d.pending = 0 ∧ d.fenceSignaled = false

instance (d : Device) : Decidable d.idle := by
  unfold Device.idle
  infer_instance

/-- At most one submission is outstanding on the job fence, pending or
signaled and not yet consumed. -/
def Device.atMostOne (d : Device) : Prop :=
  d.pending + (if d.fenceSignaled then 1 else 0) ≤ 1

instance (d : Device) : Decidable d.atMostOne := by
  unfold Device.atMostOne
  infer_instance

/-- The device agrees with the waiting flag: at most one submission is
outstanding, and none is when `m_waitingComputeShaderFence` is clear. -/
def fenceAccounted (s : Loop) : Prop :=
  s.world.dev.atMostOne ∧
  (s.helloVk.m_waitingComputeShaderFence = false → s.world.dev.idle)

instance (s : Loop) : Decidable (fenceAccounted s) := by
  unfold fenceAccounted
  infer_instance

/-- The loop invariant of the one-job protocol: the flags are exclusive and
the device agrees with the waiting flag. -/
def oneInFlight (s : Loop) : Prop :=
  flagsExclusive s ∧ fenceAccounted s

instance (s : Loop) : Decidable (oneInFlight s) := by
  unfold oneInFlight
  infer_instance

/-- Number of polls that answered `true` in an iteration. -/
def Iteration.reports (it : Iteration) : Nat :=
  it.events.count (.isComputeShaderExecutionDone true)

/-- Number of calls of `printCounter` in an iteration. -/
def Iteration.prints (it : Iteration) : Nat :=
  it.events.count .printCounter

/-- Number of polls that answered `true` in a run. -/
def pollTrueCount (its : List Iteration) : Nat :=
  (its.map Iteration.reports).sum

/-- Number of calls of `printCounter` in a run. -/
def printCounterCount (its : List Iteration) : Nat :=
  (its.map Iteration.prints).sum

/-- The iteration reaches its poll block with the job fence signaled. -/
def Iteration.signaledAtPoll (it : Iteration) : Bool :=
  reachesPollBlock it.input it.start &&
    (atPollBlock it.input it.start).world.dev.fenceSignaled

/-- Nothing is reported in the iteration: no poll answers `true`,
`printCounter` is not called, and the poll block is not reached with the
fence signaled. -/
def Iteration.quiet (it : Iteration) : Prop :=
  it.reports = 0 ∧ it.prints = 0 ∧ it.signaledAtPoll = false

/-- The IDLE state of the loop: flags clear, nothing outstanding on the
fence. -/
def phaseIdle (s : Loop) : Prop :=
  flagsClear s ∧ s.world.dev.idle

/-- The state between a trigger and its dispatch: the process is alive, the
running flag is set, nothing is outstanding on the fence, and two-queue mode
is selected. -/
def phaseRunning (jobs : List computeData) (s : Loop) : Prop :=
  s.halted = none ∧ s.helloVk.m_compDataList = jobs ∧
  s.m_runTestComputeShader = false ∧
  s.helloVk.m_isTestComputeShaderRunning = true ∧
  s.helloVk.m_waitingComputeShaderFence = false ∧
  s.world.dev.idle ∧ s.m_numberOfUsedQueues = 2

/-- The state while a dedicated-queue dispatch is waited for: the process is
alive, only the waiting flag is set, at most one submission is outstanding
on the fence. -/
def phaseWaiting (jobs : List computeData) (s : Loop) : Prop :=
  s.halted = none ∧ s.helloVk.m_compDataList = jobs ∧
  s.m_runTestComputeShader = false ∧
  s.helloVk.m_isTestComputeShaderRunning = false ∧
  s.helloVk.m_waitingComputeShaderFence = true ∧
  s.world.dev.atMostOne

/-- A run reports at most one completion, prints the counter as often as it
reports, has all flags clear in every iteration after a report and at the
end, and does report when some iteration finds the fence signaled at its
poll block. -/
def settles (its : List Iteration) (final : Loop) : Prop :=
  pollTrueCount its ≤ 1 ∧
  printCounterCount its = pollTrueCount its ∧
  its.Pairwise (fun a b => 0 < a.reports → flagsClear b.start) ∧
  (0 < pollTrueCount its → flagsClear final) ∧
  ((∃ it ∈ its, it.signaledAtPoll = true) → pollTrueCount its = 1)

/-- Whether an event is a call of `isComputeShaderExecutionDone`. -/
def Event.isPoll : Event → Bool
  | .isComputeShaderExecutionDone _ => true
  | _ => false

/-! ## Start-up: the helpers of `VulkanHelper.cpp` -/

namespace VulkanHelper

/-- Source function `VulkanHelper::createCommandBuffer` (`VulkanHelper.cpp:8-35`)
with its default arguments: one primary command buffer is allocated from the
pool and recording is begun with `ONE_TIME_SUBMIT`; neither result is looked
at. -/
def createCommandBuffer (r : Responses) : Handle × List Call :=
  let cmd := r.newCmdBuf
  (cmd, [.createCommandBuffer cmd, .beginCommandBuffer cmd true r.beginResult])

/-- Source function `VulkanHelper::submit` (`VulkanHelper.cpp:49-63`). `cmds` is
the array behind the pointer and `count` a `size_t`; reading `cmds[i]` past
the array is undefined. Recording of each of the `count` buffers is ended,
then one `vkQueueSubmit` with one `VkSubmitInfo` is made, whose
`commandBufferCount` is `(uint32_t)count`; no result is looked at. The
header gives `fence` the default `VK_NULL_HANDLE`, here `none`. -/
def submit (count : Nat) (cmds : List Handle) (queue : QueueRef) (fence : Option Handle)
    (r : Responses) : List Call × Outcome :=
  if count ≤ cmds.length then
    ((cmds.take count).map (fun c => Call.endCommandBuffer c r.endResult) ++
      [.queueSubmit queue (cmds.take (count % 2 ^ 32)) fence r.queueSubmitResult],
     .returned)
  else ([], .undefined)

/-- Source function `VulkanHelper::submitAndWait` (`VulkanHelper.cpp:36-48`):
`submit` without a fence, `vkQueueWaitIdle`, `exit(-1)` when
`nvvk::checkResult` flags the result of the wait, else
`vkFreeCommandBuffers` of `(uint32_t)count` buffers. The function
`nvvk::checkResult` is not part of the sources and is a parameter: it tells
whether a result is an error. -/
def submitAndWait (checkResult : VkResult → Bool) (count : Nat) (cmds : List Handle)
    (queue : QueueRef) (r : Responses) : List Call × Outcome :=
  match submit count cmds queue none r with
  | (cs, .returned) =>
    let result := r.queueWaitIdleResult
    let cs := cs ++ [.queueWaitIdle queue result]
    if checkResult result then (cs, .exited (-1))
    else (cs ++ [.freeCommandBuffers (cmds.take (count % 2 ^ 32))], .returned)
  | res => res

end VulkanHelper

/-- The command buffers a trace frees, in order. -/
def freed : List Call → List (List Handle)
  | [] => []
  | .freeCommandBuffers cmdBufs :: cs => cmdBufs :: freed cs
  | _ :: cs => freed cs

/-- The queue submissions of a trace, in order: the command buffers and the
fence of each. -/
def submissions : List Call → List (List Handle × Option Handle)
  | [] => []
  | .queueSubmit _ cmdBufs fence _ :: cs => (cmdBufs, fence) :: submissions cs
  | _ :: cs => submissions cs

/-! ## Start-up: `setup` -/

/-- How a start-up function ends: as a host function does (`Outcome`, with
`threw` the `vk::SystemError` of a failed `vulkan.hpp` call), or with a
`std::runtime_error` raised by a `throw` statement of the sources. -/
inductive Startup
  | ended (o : Outcome)
  | runtime_error (what : String)
  deriving DecidableEq, Repr

/-- The members `AppBase::setup` leaves for `HelloVulkan::setup`: the two
queue handles and the compute command pool. `AppBase` is not part of the
sources, so what it produced is an input. Handle 0 is `VK_NULL_HANDLE`. -/
structure AppBase where
  m_queue : Handle
  m_queue_comp : Handle
  m_cmdPool_comp : Handle
  deriving DecidableEq, Repr

/-- The allocator the build is configured with (`hello_vulkan.cpp:76-90`). -/
inductive AllocatorBuild
  | NVVK_ALLOC_DEDICATED
  | NVVK_ALLOC_DMA
  | NVVK_ALLOC_VMA
  | unset
  deriving DecidableEq, Repr

/-- Calls made by `HelloVulkan::setup` after the queue checks. -/
inductive SetupCall
  | memAllocatorInit
  | setAllocateFlags
  | vmaCreateAllocator
  | allocInit
  | debugSetup
  | findDepthFormat
  | allocateCommandBuffers (commandPool : Handle) (count : Nat) (result : VkResult)
  deriving DecidableEq, Repr

/-- Whether a call of `setup` allocates a command buffer. -/
def SetupCall.isAllocate : SetupCall → Bool
  | .allocateCommandBuffers _ _ _ => true
  | _ => false

/-- The allocator initialisation of `setup` for each build
(`hello_vulkan.cpp:76-90`). -/
def allocatorSetup : AllocatorBuild → List SetupCall
  | .NVVK_ALLOC_DEDICATED => [.allocInit]
  | .NVVK_ALLOC_DMA => [.memAllocatorInit, .setAllocateFlags, .allocInit]
  | .NVVK_ALLOC_VMA => [.vmaCreateAllocator, .allocInit]
  | .unset => []

/-- What `setup` leaves: the application object, the calls made and how the
function ended. -/
structure SetupResult where
  helloVk : HelloVulkan
  calls : List SetupCall
  ending : Startup
  deriving DecidableEq, Repr

/-- Source function `HelloVulkan::setup` (`hello_vulkan.cpp:66-107`), from the
point where `AppBase::setup` has returned. The graphics queue is checked
first, then the compute queue; after the allocator and debug set-up
`use_atomic` is cleared and one primary command buffer is allocated from
the compute pool with the `vulkan.hpp` call, which throws on a result other
than success. -/
def HelloVulkan.setup (hv : HelloVulkan) (base : AppBase) (build : AllocatorBuild)
    (allocateResult : VkResult) (newCmdBuf : Handle) : SetupResult :=
  if base.m_queue = 0 then
    { helloVk := hv, calls := []
      ending := .runtime_error "Missing needed graphics/compute VkQueue" }
  else if base.m_queue_comp = 0 then
    { helloVk := hv, calls := []
      ending := .runtime_error "Missing needed dedicated compute VkQueue" }
  else
    let calls := allocatorSetup build ++ [.debugSetup, .findDepthFormat]
    let hv := { hv with m_PushConstant := { hv.m_PushConstant with use_atomic := 0 } }
    let calls := calls ++ [.allocateCommandBuffers base.m_cmdPool_comp 1 allocateResult]
    if allocateResult = .VK_SUCCESS then
      { helloVk := { hv with m_commandBuffer_comp := newCmdBuf }, calls := calls
        ending := .ended .returned }
    else { helloVk := hv, calls := calls, ending := .ended (.threw allocateResult) }

/-! ## Start-up: the job builder `createComputeShaderPipline` -/

/-- Buffer usages that occur for the job buffer (`vk::BufferUsageFlagBits`). -/
inductive BufferUsage
  | eUniformBuffer
  | eStorageBuffer
  deriving DecidableEq, Repr

/-- Memory properties a buffer is asked with (`vk::MemoryPropertyFlagBits`). -/
inductive MemoryProperty
  | eDeviceLocal
  | eHostVisible
  deriving DecidableEq, Repr

/-- Descriptor types (`vk::DescriptorType`). -/
inductive DescriptorType
  | eUniformBuffer
  | eStorageBuffer
  | eStorageImage
  deriving DecidableEq, Repr

/-- One `vk::DescriptorSetLayoutBinding`. -/
structure LayoutBinding where
  binding : Nat
  descriptorType : DescriptorType
  descriptorCount : Nat
  stageFlags : ShaderStage
  deriving DecidableEq, Repr

/-- Calls made while a job is built. `host` wraps the calls of
`VulkanHelper`. -/
inductive BuildCall
  | host (c : Call)
  | createBuffer (cmdBuf : Handle) (data : List Nat) (usage : BufferUsage)
      (memProps : MemoryProperty) (created : Buffer)
  | finalizeAndReleaseStaging
  | createLayout (bindings : List LayoutBinding) (created : Handle)
  | createPool (bindings : List LayoutBinding) (maxSets : Nat) (created : Handle)
  | allocateDescriptorSet (pool : Handle) (layout : Handle) (created : Handle)
  | createPipelineLayout (setLayouts : List Handle) (pushStage : ShaderStage)
      (pushOffset : Nat) (result : VkResult)
  | loadFile (filename : String)
  | createComputePipeline (layout : Handle) (result : VkResult)
  | destroyShaderModule
  | createFence (flags : Nat) (result : VkResult)
  deriving DecidableEq, Repr

/-- What the device and the allocator answer while a job is built: the
results of the fallible calls and the handles of the new objects. `fence k`
is the answer to the `k`-th call of `vkCreateFence`. -/
structure BuildResponses where
  vk : Responses
  buffer : Buffer
  descSetLayout : Handle
  descPool : Handle
  descSet : Handle
  pipelineLayoutResult : VkResult
  pipelineLayout : Handle
  pipelineResult : VkResult
  pipeline : Handle
  fence : Nat → VkResult × Handle

/-- Every call succeeds; the handles are those of `computeA`. -/
def BuildResponses.ok : BuildResponses :=
  { vk := Responses.ok
    buffer := { buffer := 6, data := 7 }
    descSetLayout := 3
    descPool := 4
    descSet := 5
    pipelineLayoutResult := .VK_SUCCESS
    pipelineLayout := 2
    pipelineResult := .VK_SUCCESS
    pipeline := 1
    fence := fun _ => (.VK_SUCCESS, 8) }

/-- The buffers a build trace creates: initial contents, usage, memory
properties and the buffer handed back. -/
def createdBuffers : List BuildCall → List (List Nat × BufferUsage × MemoryProperty × Buffer)
  | [] => []
  | .createBuffer _ data usage memProps created :: cs =>
    (data, usage, memProps, created) :: createdBuffers cs
  | _ :: cs => createdBuffers cs

/-- The fence creations of a build trace: flags and result of each. -/
def createdFences : List BuildCall → List (Nat × VkResult)
  | [] => []
  | .createFence flags result :: cs => (flags, result) :: createdFences cs
  | _ :: cs => createdFences cs

/-- The descriptor set layouts a build trace creates, each with its
bindings. -/
def createdLayouts : List BuildCall → List (List LayoutBinding)
  | [] => []
  | .createLayout bindings _ :: cs => bindings :: createdLayouts cs
  | _ :: cs => createdLayouts cs

/-- The object `new computeData()` yields: null handles, no buffer. -/
def computeData.new : computeData :=
  { pipeline := 0
    pipelineLayout := 0
    descSetLayout := 0
    descPool := 0
    descSet := 0
    buffers := []
    fence := 0 }

/-- Source function `HelloVulkan::createComputeBuffers`
(`hello_vulkan.cpp:1039-1053`): one host-visible storage buffer with
`nbCounters = 1` zero `uint64_t` is created and appended to the job's
buffers, uploaded with `VulkanHelper::submitAndWait` on `m_queue_comp`. -/
def HelloVulkan.createComputeBuffers (checkResult : VkResult → Bool)
    (compData : computeData) (r : BuildResponses) :
    computeData × List BuildCall × Startup :=
  let nbCounters := 1
  let (cmdBuf, cs1) := VulkanHelper.createCommandBuffer r.vk
  let data := (List.replicate nbCounters 0).flatMap uint64Bytes
  let compData := { compData with buffers := compData.buffers ++ [r.buffer] }
  let calls := cs1.map BuildCall.host ++
    [.createBuffer cmdBuf data .eStorageBuffer .eHostVisible r.buffer]
  match VulkanHelper.submitAndWait checkResult 1 [cmdBuf] .m_queue_comp r.vk with
  | (cs2, .returned) =>
    (compData, calls ++ cs2.map BuildCall.host ++ [.finalizeAndReleaseStaging],
      .ended .returned)
  | (cs2, o) => (compData, calls ++ cs2.map BuildCall.host, .ended o)

/-- Source function `HelloVulkan::createCompDescriptors`
(`hello_vulkan.cpp:1054-1065`). `descSetLayoutBind` is the job's binding
collection, a member of `computeData` of a type of `nvvk`; one binding is
added, then layout, pool and set are made from the collection. -/
def HelloVulkan.createCompDescriptors (descSetLayoutBind : List LayoutBinding)
    (compData : computeData) (r : BuildResponses) :
    List LayoutBinding × computeData × List BuildCall :=
  let descSetLayoutBind := descSetLayoutBind ++
    [{ binding := 0, descriptorType := .eStorageBuffer, descriptorCount := 1,
       stageFlags := .eCompute }]
  let compData := { compData with descSetLayout := r.descSetLayout }
  let compData := { compData with descPool := r.descPool }
  let compData := { compData with descSet := r.descSet }
  (descSetLayoutBind, compData,
    [ .createLayout descSetLayoutBind r.descSetLayout,
      .createPool descSetLayoutBind 1 r.descPool,
      .allocateDescriptorSet r.descPool r.descSetLayout r.descSet ])

/-- Source function `HelloVulkan::createCompPipelines`
(`hello_vulkan.cpp:1082-1099`): pipeline layout with the job's set layout
and a compute push constant range at offset 0, then the compute pipeline
from the shader file; both creations are `vulkan.hpp` calls and throw on a
result other than success. -/
def HelloVulkan.createCompPipelines (filename : String) (compData : computeData)
    (r : BuildResponses) : computeData × List BuildCall × Startup :=
  let cs1 := [BuildCall.createPipelineLayout [compData.descSetLayout] .eCompute 0
    r.pipelineLayoutResult]
  if r.pipelineLayoutResult ≠ .VK_SUCCESS then
    (compData, cs1, .ended (.threw r.pipelineLayoutResult))
  else
    let compData := { compData with pipelineLayout := r.pipelineLayout }
    let cs2 := cs1 ++ [.loadFile filename,
      .createComputePipeline compData.pipelineLayout r.pipelineResult]
    if r.pipelineResult ≠ .VK_SUCCESS then (compData, cs2, .ended (.threw r.pipelineResult))
    else
      ({ compData with pipeline := r.pipeline }, cs2 ++ [.destroyShaderModule],
        .ended .returned)

/-- The fence loop of `createComputeShaderPipline`
(`hello_vulkan.cpp:286-300`) over the jobs of `m_compDataList`, `k` fences
having been asked for before: a fence is created with the flags of the
value-initialised `fenceInfo`, and the first result other than `VK_SUCCESS`
throws. -/
def createFences (fence : Nat → VkResult × Handle) :
    Nat → List computeData → List computeData × List BuildCall × Startup
  | _, [] => ([], [], .ended .returned)
  | k, compData :: rest =>
    let call := BuildCall.createFence createComputeShaderPipline_fenceFlags (fence k).1
    if (fence k).1 ≠ .VK_SUCCESS then
      (compData :: rest, [call], .runtime_error "failed to create synchronization objects!")
    else
      let (rest, calls, e) := createFences fence (k + 1) rest
      ({ compData with fence := (fence k).2 } :: rest, call :: calls, e)

/-- What the job builder leaves: the application object, the binding
collection of the job it made, the calls and how it ended. -/
structure BuildResult where
  helloVk : HelloVulkan
  descSetLayoutBind : List LayoutBinding
  calls : List BuildCall
  ending : Startup
  deriving DecidableEq, Repr

/-- Source function `HelloVulkan::createComputeShaderPipline`
(`hello_vulkan.cpp:269-301`): a new job is appended to `m_compDataList`, its
buffer, descriptors and pipeline are built, then a fence is created for
every job of the list. -/
def HelloVulkan.createComputeShaderPipline (checkResult : VkResult → Bool)
    (hv : HelloVulkan) (r : BuildResponses) : BuildResult :=
  let computeA := computeData.new
  let jobs := hv.m_compDataList
  match HelloVulkan.createComputeBuffers checkResult computeA r with
  | (computeA, cs1, .ended .returned) =>
    let (bind, computeA, cs2) := HelloVulkan.createCompDescriptors [] computeA r
    match HelloVulkan.createCompPipelines "spv/parallelTest.comp.spv" computeA r with
    | (computeA, cs3, .ended .returned) =>
      let (jobs, cs4, e) := createFences r.fence 0 (jobs ++ [computeA])
      { helloVk := { hv with m_compDataList := jobs }, descSetLayoutBind := bind
        calls := cs1 ++ cs2 ++ cs3 ++ cs4, ending := e }
    | (computeA, cs3, e) =>
      { helloVk := { hv with m_compDataList := jobs ++ [computeA] }
        descSetLayoutBind := bind, calls := cs1 ++ cs2 ++ cs3, ending := e }
  | (computeA, cs1, e) =>
    { helloVk := { hv with m_compDataList := jobs ++ [computeA] }, descSetLayoutBind := []
      calls := cs1, ending := e }

/-- The application object before any job is built: the job list of a
freshly constructed `HelloVulkan` is empty. -/
def HelloVulkan.fresh : HelloVulkan :=
  { HelloVulkan.atLoopEntry with m_compDataList := [], m_commandBuffer_comp := 0 }

/-! ## The mapped counter -/

/-- A `memcpy` of `bytes` to the start of a mapping with contents `mem`. -/
def writeAt (bytes : List Nat) (mem : List Nat) : List Nat :=
  bytes ++ mem.drop bytes.length

/-- The contents of the mapping at address `data` after the host calls of a
trace, from contents `mem`; the device writes nothing. -/
def mappedAfter (data : Handle) : List Call → List Nat → List Nat
  | [], mem => mem
  | .memcpy dst bytes :: cs, mem =>
    mappedAfter data cs (if dst = data then writeAt bytes mem else mem)
  | _ :: cs, mem => mappedAfter data cs mem

/-- The `uint64_t` at the start of a mapping, little-endian, as
`printCounter` reads it (`hello_vulkan.cpp:1035`). -/
def readUint64 (mem : List Nat) : Nat :=
  ((List.range 8).map (fun k => mem.getD k 0 % 256 * 256 ^ k)).sum

/-- The bytes a trace copies to address `data`, one entry per `memcpy`. -/
def copiedTo (data : Handle) : List Call → List (List Nat)
  | [] => []
  | .memcpy dst bytes :: cs =>
    if dst = data then bytes :: copiedTo data cs else copiedTo data cs
  | _ :: cs => copiedTo data cs

/-- The descriptor writes of a trace: set, binding and buffer of each. -/
def descriptorWrites : List Call → List (Handle × Nat × Handle)
  | [] => []
  | .updateDescriptorSets dstSet binding buffer :: cs =>
    (dstSet, binding, buffer) :: descriptorWrites cs
  | _ :: cs => descriptorWrites cs

/-! ## The scene: models and instances -/

/-- The part of an `ObjModel` that does not depend on the device: the sizes
`loadModel` stores. -/
structure ObjModel where
  nbIndices : Nat
  nbVertices : Nat
  deriving DecidableEq, Repr

/-- An `ObjInstance`: the index of its model, its texture offset and its
transform; the matrix itself plays no part and is a number. -/
structure ObjInstance where
  objIndex : Nat
  txtOffset : Nat
  transform : Nat
  deriving DecidableEq, Repr

/-- What the OBJ loader read from a file. -/
structure ObjLoader where
  m_indices : Nat
  m_vertices : Nat
  m_textures : List String
  deriving DecidableEq, Repr

/-- The scene members of `HelloVulkan`; `m_textures` is the number of
textures created so far. -/
structure Scene where
  m_objModel : List ObjModel
  m_objInstance : List ObjInstance
  m_textures : Nat
  deriving DecidableEq, Repr

/-- The scene of a freshly constructed `HelloVulkan`: empty vectors. -/
def Scene.empty : Scene :=
  { m_objModel := [], m_objInstance := [], m_textures := 0 }

/-- Source function `HelloVulkan::createTextureImages`
(`hello_vulkan.cpp:392-461`), as far as the number of textures goes: one
dummy texture when there is none at all, else one texture per name. -/
def Scene.createTextureImages (textures : List String) (sc : Scene) : Scene :=
  if textures.isEmpty && sc.m_textures = 0 then { sc with m_textures := sc.m_textures + 1 }
  else { sc with m_textures := sc.m_textures + textures.length }

/-- Source function `HelloVulkan::loadModel` (`hello_vulkan.cpp:305-357`), as
far as the scene vectors go. The instance is given the size of `m_objModel`
as a `uint32_t`, then the model and the instance are appended. -/
def Scene.loadModel (loader : ObjLoader) (transform : Nat) (sc : Scene) : Scene :=
  let inst : ObjInstance :=
    { objIndex := sc.m_objModel.length % 2 ^ 32
      transform := transform
      txtOffset := sc.m_textures % 2 ^ 32 }
  let model : ObjModel :=
    { nbIndices := loader.m_indices % 2 ^ 32
      nbVertices := loader.m_vertices % 2 ^ 32 }
  let sc := sc.createTextureImages loader.m_textures
  { sc with
    m_objModel := sc.m_objModel ++ [model]
    m_objInstance := sc.m_objInstance ++ [inst] }

/-- One pass of the duplication loop of `main` (`main.cpp:257-269`): the last
instance is given texture offset 0 and a new transform in place, and a copy
of it is appended. With no instance `back()` is undefined, `none`. -/
def Scene.duplicateLast (mat : Nat) (sc : Scene) : Option Scene :=
  match sc.m_objInstance.getLast? with
  | none => none
  | some inst =>
    let inst := { inst with txtOffset := 0, transform := mat }
    some { sc with m_objInstance := sc.m_objInstance.dropLast ++ [inst, inst] }

/-- The duplication loop of `main`, one pass per transform drawn. -/
def Scene.duplicateCubes : List Nat → Scene → Option Scene
  | [], sc => some sc
  | mat :: mats, sc =>
    match sc.duplicateLast mat with
    | none => none
    | some sc => Scene.duplicateCubes mats sc

/-- The constant `nbCubes` of `main` (`main.cpp:256`). -/
def nbCubes : Nat := 1000

/-- The scene `main` builds (`main.cpp:247-269`): the plane, the cube, and
`nbCubes` passes of the duplication loop with the transforms `mat n`. The
identity transform is number 0. -/
def mainScene (plane : ObjLoader) (cube : ObjLoader) (mat : Nat → Nat) : Option Scene :=
  let sc := Scene.empty.loadModel plane 0
  let sc := sc.loadModel cube 0
  Scene.duplicateCubes ((List.range nbCubes).map mat) sc

/-- The lookups `m_objModel[inst.objIndex]` of `HelloVulkan::rasterize`
(`hello_vulkan.cpp:548-552`), one per instance; `none` is a read past the
vector. -/
def Scene.rasterizeLookups (sc : Scene) : List (Option ObjModel) :=
  sc.m_objInstance.map (fun inst => sc.m_objModel[inst.objIndex]?)

/-- The number of bottom-level structures `createBottomLevelAS` builds
(`hello_vulkan.cpp:783-796`): one per model. -/
def Scene.blasCount (sc : Scene) : Nat := sc.m_objModel.length

/-- The `blasId` of each instance of the top-level structure
(`hello_vulkan.cpp:801-809`). -/
def Scene.blasIds (sc : Scene) : List Nat :=
  sc.m_objInstance.map (fun inst => inst.objIndex)

/-- Every instance names a model of the scene. -/
def Scene.indexValid (sc : Scene) : Prop :=
  ∀ inst ∈ sc.m_objInstance, inst.objIndex < sc.m_objModel.length

instance (sc : Scene) : Decidable sc.indexValid := by
  unfold Scene.indexValid
  infer_instance

/-! ## The shader binding table -/

/-- Library function `nvh::align_up` of `nvh/alignment.hpp`, at `uint32_t`,
for an alignment `a` of at least 1: `(x + (a - 1)) & ~(a - 1)`, the sum
and the complement taken in 32 bits. -/
def align_up (x : Nat) (a : Nat) : Nat :=
  Nat.land ((x + (a - 1)) % 2 ^ 32) (2 ^ 32 - 1 - (a - 1) % 2 ^ 32)

/-- One `memcpy` of the table loop: source offset in `shaderHandleStorage`,
destination offset in the mapped table buffer, and length. -/
structure SbtCopy where
  src : Nat
  dst : Nat
  len : Nat
  deriving DecidableEq, Repr

/-- The copy loop of `createRtShaderBindingTable` (`hello_vulkan.cpp:981-985`)
with `remaining` passes to go, at group `g`, the destination pointer
`pData` bytes into the mapping. The source offset `g * groupHandleSize` is
a `uint32_t` product. -/
def sbtLoop (groupHandleSize groupSizeAligned : Nat) : Nat → Nat → Nat → List SbtCopy
  | 0, _, _ => []
  | remaining + 1, g, pData =>
    { src := g * groupHandleSize % 2 ^ 32, dst := pData, len := groupHandleSize } ::
      sbtLoop groupHandleSize groupSizeAligned remaining (g + 1) (pData + groupSizeAligned)

/-- The sizes and copies of `createRtShaderBindingTable`. -/
structure SbtLayout where
  groupSizeAligned : Nat
  sbtSize : Nat
  copies : List SbtCopy
  deriving DecidableEq, Repr

/-- Source function `HelloVulkan::createRtShaderBindingTable`
(`hello_vulkan.cpp:953-989`), as far as sizes and copies go: `groupCount`
groups, handle size and base alignment from the device properties, all
`uint32_t`. Both the handle storage and the table buffer are `sbtSize`
bytes long. -/
def createRtShaderBindingTable (groupCount : Nat) (shaderGroupHandleSize : Nat)
    (shaderGroupBaseAlignment : Nat) : SbtLayout :=
  let groupHandleSize := shaderGroupHandleSize
  let groupSizeAligned := align_up groupHandleSize shaderGroupBaseAlignment
  let sbtSize := groupCount * groupSizeAligned % 2 ^ 32
  { groupSizeAligned := groupSizeAligned
    sbtSize := sbtSize
    copies := sbtLoop groupHandleSize groupSizeAligned groupCount 0 0 }

/-- Two copies write to disjoint byte ranges. -/
def SbtCopy.disjoint (c d : SbtCopy) : Prop :=
  c.dst + c.len ≤ d.dst ∨ d.dst + d.len ≤ c.dst

instance (c d : SbtCopy) : Decidable (c.disjoint d) := by
  unfold SbtCopy.disjoint
  infer_instance

/-! ## Start-up: what the job builder leaves -/

/-- The job builder up to its fence loop went through: the upload was not
flagged and both pipeline objects were created. -/
def BuildResponses.builds (checkResult : VkResult → Bool) (r : BuildResponses) : Prop :=
  checkResult r.vk.queueWaitIdleResult = false ∧ r.pipelineLayoutResult = .VK_SUCCESS ∧
    r.pipelineResult = .VK_SUCCESS

instance (checkResult : VkResult → Bool) (r : BuildResponses) :
    Decidable (r.builds checkResult) := by
  unfold BuildResponses.builds
  infer_instance

/-- The job as the builder has it when the fence loop starts. -/
def builtJob (r : BuildResponses) : computeData :=
  { pipeline := r.pipeline
    pipelineLayout := r.pipelineLayout
    descSetLayout := r.descSetLayout
    descPool := r.descPool
    descSet := r.descSet
    buffers := [r.buffer]
    fence := 0 }

/-- The binding `createCompDescriptors` adds. -/
def counterBinding : LayoutBinding :=
  { binding := 0, descriptorType := .eStorageBuffer, descriptorCount := 1,
    stageFlags := .eCompute }

/-- The calls of the job builder before its fence loop, when they all go
through. -/
def buildSteps (r : BuildResponses) : List BuildCall :=
  [ .host (.createCommandBuffer r.vk.newCmdBuf),
    .host (.beginCommandBuffer r.vk.newCmdBuf true r.vk.beginResult),
    .createBuffer r.vk.newCmdBuf (HelloVulkan.uint64Bytes 0) .eStorageBuffer .eHostVisible
      r.buffer,
    .host (.endCommandBuffer r.vk.newCmdBuf r.vk.endResult),
    .host (.queueSubmit .m_queue_comp [r.vk.newCmdBuf] none r.vk.queueSubmitResult),
    .host (.queueWaitIdle .m_queue_comp r.vk.queueWaitIdleResult),
    .host (.freeCommandBuffers [r.vk.newCmdBuf]),
    .finalizeAndReleaseStaging,
    .createLayout [counterBinding] r.descSetLayout,
    .createPool [counterBinding] 1 r.descPool,
    .allocateDescriptorSet r.descPool r.descSetLayout r.descSet,
    .createPipelineLayout [r.descSetLayout] .eCompute 0 .VK_SUCCESS,
    .loadFile "spv/parallelTest.comp.spv",
    .createComputePipeline r.pipelineLayout .VK_SUCCESS,
    .destroyShaderModule ]

/-- The error codes of `VkResult`: the codes with a negative value. -/
def VkResult.isError : VkResult → Bool
  | .VK_SUCCESS => false
  | .VK_NOT_READY => false
  | _ => true

/-! ## Properties of the dispatch and poll functions -/

theorem issued_emit (w : World) (dev : Device) (cs : List Call) (o : Outcome) :
    issued w ({ dev := dev, calls := w.calls ++ cs }, o) = cs := by
  simp [issued]

/-- C3. The dedicated-queue dispatch is non-blocking. When `cmdBuf.begin`
and `cmdBuf.end` succeed, the calls of `executeComputeShaderPipline` are the
recording of the command buffer followed by one `vkQueueSubmit` to
`m_queue_comp` that carries the fence of job 0, and that is the only
submission; and whatever the device answers, none of its calls is a wait
(queue-idle, fence or device-idle wait). -/
theorem executeComputeShaderPipline_nonblocking (hv : HelloVulkan) (cmdBuf : Handle)
    (r : Responses) (w : World) (compData : computeData) (rest : List computeData)
    (hjob : hv.m_compDataList = compData :: rest) :
    (r.beginResult = .VK_SUCCESS → r.endResult = .VK_SUCCESS →
      issued w (hv.executeComputeShaderPipline cmdBuf r w) =
        [ .cmd cmdBuf (.beginLabel "Compute Shader :)"),
          .beginCommandBuffer cmdBuf true .VK_SUCCESS,
          .cmd cmdBuf (.bindPipeline .eCompute compData.pipeline),
          .cmd cmdBuf
            (.bindDescriptorSets .eCompute compData.pipelineLayout 0 [compData.descSet] []),
          .cmd cmdBuf (.pushConstants compData.pipelineLayout .eCompute 0 hv.m_PushConstant),
          .cmd cmdBuf (.dispatch (toUint32 (numOfBlocks hv.m_PushConstant.m_threads)) 1 1),
          .endCommandBuffer cmdBuf .VK_SUCCESS,
          .queueSubmit .m_queue_comp [cmdBuf] (some compData.fence) r.queueSubmitResult,
          .cmd cmdBuf .endLabel ] ∧
      (issued w (hv.executeComputeShaderPipline cmdBuf r w)).filter Call.isSubmit =
        [ .queueSubmit .m_queue_comp [cmdBuf] (some compData.fence) r.queueSubmitResult ]) ∧
    (issued w (hv.executeComputeShaderPipline cmdBuf r w)).filter Call.isWait = [] := by
  refine ⟨?_, ?_⟩
  · intro hb he
    simp [HelloVulkan.executeComputeShaderPipline, HelloVulkan.submitComputeCommand, hjob, hb,
      he, World.emit, issued, Call.isSubmit]
  · by_cases hb : r.beginResult = .VK_SUCCESS <;> by_cases he : r.endResult = .VK_SUCCESS <;>
      simp [HelloVulkan.executeComputeShaderPipline, HelloVulkan.submitComputeCommand, hjob, hb,
        he, World.emit, issued, Call.isWait]

theorem executeComputeShaderPipline_nonblocking_witness :
    HelloVulkan.atLoopEntry.m_compDataList = [computeA] ∧
    (issued World.init
        (HelloVulkan.atLoopEntry.executeComputeShaderPipline 9 Responses.ok World.init)).filter
      Call.isWait = [] :=
  ⟨rfl, (executeComputeShaderPipline_nonblocking HelloVulkan.atLoopEntry 9 Responses.ok
    World.init computeA [] rfl).2⟩

/-- C4. Poll postcondition. `isComputeShaderExecutionDone` answers `true`
exactly when the fence of job 0 is signaled at the call; after a `true`
answer the fence is unsignaled (and what is pending on it is untouched),
after a `false` answer the device state is unchanged; the only calls are one
immediate status query and, on `true`, the reset: no wait. -/
theorem isComputeShaderExecutionDone_postcondition (hv : HelloVulkan) (w : World)
    (compData : computeData) (rest : List computeData)
    (hjob : hv.m_compDataList = compData :: rest) :
    ((hv.isComputeShaderExecutionDone w).2 = some true ↔ w.dev.fenceSignaled = true) ∧
    ((hv.isComputeShaderExecutionDone w).2 = some false ↔ w.dev.fenceSignaled = false) ∧
    ((hv.isComputeShaderExecutionDone w).2 = some true →
      (hv.isComputeShaderExecutionDone w).1.dev.fenceSignaled = false ∧
      (hv.isComputeShaderExecutionDone w).1.dev.pending = w.dev.pending ∧
      polled w (hv.isComputeShaderExecutionDone w) =
        [.getFenceStatus compData.fence .VK_SUCCESS, .resetFences compData.fence]) ∧
    ((hv.isComputeShaderExecutionDone w).2 = some false →
      (hv.isComputeShaderExecutionDone w).1.dev = w.dev ∧
      polled w (hv.isComputeShaderExecutionDone w) =
        [.getFenceStatus compData.fence .VK_NOT_READY]) ∧
    (polled w (hv.isComputeShaderExecutionDone w)).filter Call.isWait = [] := by
  cases hs : w.dev.fenceSignaled <;>
    simp [HelloVulkan.isComputeShaderExecutionDone, hjob, hs, Device.vkGetFenceStatus,
      Device.vkResetFences, World.emit, polled, Call.isWait]

theorem isComputeShaderExecutionDone_postcondition_witness :
    HelloVulkan.atLoopEntry.m_compDataList = [computeA] ∧
    (polled { dev := { fenceSignaled := true, pending := 1 }, calls := [] }
        (HelloVulkan.atLoopEntry.isComputeShaderExecutionDone
          { dev := { fenceSignaled := true, pending := 1 }, calls := [] })).filter
      Call.isWait = [] :=
  ⟨rfl, (isComputeShaderExecutionDone_postcondition HelloVulkan.atLoopEntry
    { dev := { fenceSignaled := true, pending := 1 }, calls := [] } computeA [] rfl).2.2.2.2⟩

theorem retireN_of_pending_zero (k : Nat) (d : Device) (h : d.pending = 0) :
    d.retireN k = d := by
  induction k with
  | zero => rfl
  | succ k ih =>
    have hr : d.retire = d := by simp [Device.retire, h]
    simp [Device.retireN, hr, ih]

/-- C6. Fence reset correctness. When `isComputeShaderExecutionDone` has
answered `true`, a second call made right after it, with no dispatch in
between, answers `false`; and when no other submission is pending on the
fence this also holds after any amount of GPU progress between the two
calls. -/
theorem isComputeShaderExecutionDone_twice (hv : HelloVulkan) (w : World)
    (h : (hv.isComputeShaderExecutionDone w).2 = some true) :
    (hv.isComputeShaderExecutionDone (hv.isComputeShaderExecutionDone w).1).2 = some false ∧
    (w.dev.pending = 0 → ∀ k : Nat,
      (hv.isComputeShaderExecutionDone
        { (hv.isComputeShaderExecutionDone w).1 with
          dev := (hv.isComputeShaderExecutionDone w).1.dev.retireN k }).2 = some false) := by
  cases hl : hv.m_compDataList with
  | nil => simp [HelloVulkan.isComputeShaderExecutionDone, hl] at h
  | cons compData rest =>
    cases hs : w.dev.fenceSignaled
    · simp [HelloVulkan.isComputeShaderExecutionDone, hl, hs, Device.vkGetFenceStatus] at h
    · refine ⟨?_, ?_⟩
      · simp [HelloVulkan.isComputeShaderExecutionDone, hl, hs, Device.vkGetFenceStatus,
          Device.vkResetFences, World.emit]
      · intro hp k
        have hd : (hv.isComputeShaderExecutionDone w).1.dev.pending = 0 := by
          simp [HelloVulkan.isComputeShaderExecutionDone, hl, hs, Device.vkGetFenceStatus,
            Device.vkResetFences, World.emit, hp]
        rw [retireN_of_pending_zero k _ hd]
        simp [HelloVulkan.isComputeShaderExecutionDone, hl, hs, Device.vkGetFenceStatus,
          Device.vkResetFences, World.emit]

theorem isComputeShaderExecutionDone_twice_witness :
    (HelloVulkan.atLoopEntry.isComputeShaderExecutionDone
      { dev := { fenceSignaled := true, pending := 0 }, calls := [] }).2 = some true ∧
    (HelloVulkan.atLoopEntry.isComputeShaderExecutionDone
      (HelloVulkan.atLoopEntry.isComputeShaderExecutionDone
        { dev := { fenceSignaled := true, pending := 0 }, calls := [] }).1).2 = some false :=
  ⟨by decide, (isComputeShaderExecutionDone_twice HelloVulkan.atLoopEntry
    { dev := { fenceSignaled := true, pending := 0 }, calls := [] } (by decide)).1⟩

/-- C9. The recorded workload is the same in both modes. For every push
constant block, when `begin` succeeds, the commands recorded into the
command buffer by `executeComputeShaderPipline` and by
`executeComputeShaderPipline_graphicsQueue` are the same four: bind the
job's pipeline, bind its descriptor set at set 0, push `m_PushConstant` at
offset 0, and one dispatch of `(workgroups, 1, 1)` with the same workgroup
count. (The two debug-label calls of the dedicated path are made outside
`begin`/`end`, when the buffer is not recording.) -/
theorem recorded_workload_same (hv : HelloVulkan) (cmdBuf : Handle) (r r' : Responses)
    (w w' : World) (compData : computeData) (rest : List computeData)
    (hjob : hv.m_compDataList = compData :: rest)
    (hb : r.beginResult = .VK_SUCCESS) (hb' : r'.beginResult = .VK_SUCCESS) :
    recorded cmdBuf (issued w (hv.executeComputeShaderPipline cmdBuf r w)) =
      [ .bindPipeline .eCompute compData.pipeline,
        .bindDescriptorSets .eCompute compData.pipelineLayout 0 [compData.descSet] [],
        .pushConstants compData.pipelineLayout .eCompute 0 hv.m_PushConstant,
        .dispatch (toUint32 (numOfBlocks hv.m_PushConstant.m_threads)) 1 1 ] ∧
    recorded r'.newCmdBuf (issued w' (hv.executeComputeShaderPipline_graphicsQueue r' w')) =
      recorded cmdBuf (issued w (hv.executeComputeShaderPipline cmdBuf r w)) := by
  have h1 : recorded cmdBuf (issued w (hv.executeComputeShaderPipline cmdBuf r w)) =
      [ .bindPipeline .eCompute compData.pipeline,
        .bindDescriptorSets .eCompute compData.pipelineLayout 0 [compData.descSet] [],
        .pushConstants compData.pipelineLayout .eCompute 0 hv.m_PushConstant,
        .dispatch (toUint32 (numOfBlocks hv.m_PushConstant.m_threads)) 1 1 ] := by
    by_cases he : r.endResult = .VK_SUCCESS <;>
      simp [HelloVulkan.executeComputeShaderPipline, HelloVulkan.submitComputeCommand, hjob, hb,
        he, World.emit, issued, recorded, recordedFrom]
  refine ⟨h1, ?_⟩
  rw [h1]
  by_cases hq : r'.queueWaitIdleResult = .VK_SUCCESS <;>
    simp [HelloVulkan.executeComputeShaderPipline_graphicsQueue,
      HelloVulkan.CommandPool_submitAndWait, hjob, hb', hq, World.emit, issued, recorded,
      recordedFrom]

theorem recorded_workload_same_witness :
    HelloVulkan.atLoopEntry.m_compDataList = [computeA] ∧
    recorded Responses.ok.newCmdBuf (issued World.init
        (HelloVulkan.atLoopEntry.executeComputeShaderPipline_graphicsQueue Responses.ok
          World.init)) =
      recorded 9 (issued World.init
        (HelloVulkan.atLoopEntry.executeComputeShaderPipline 9 Responses.ok World.init)) :=
  ⟨rfl, (recorded_workload_same HelloVulkan.atLoopEntry 9 Responses.ok Responses.ok World.init
    World.init computeA [] rfl rfl rfl).2⟩

/-- C10. The shared-queue dispatch is synchronous. When `begin` succeeds,
`executeComputeShaderPipline_graphicsQueue` makes exactly one submission,
to the queue of the pool of family `m_graphicsQueueIndex`, not to
`m_queue_comp` and with no fence; the call that follows the submission is a
wait for that queue to be idle; the state of the job fence is untouched; and
the function returns only after a successful wait. -/
theorem executeComputeShaderPipline_graphicsQueue_synchronous (hv : HelloVulkan)
    (r : Responses) (w : World) (compData : computeData) (rest : List computeData)
    (hjob : hv.m_compDataList = compData :: rest) (hb : r.beginResult = .VK_SUCCESS) :
    (issued w (hv.executeComputeShaderPipline_graphicsQueue r w)).filter Call.isSubmit =
      [ .queueSubmit (.poolQueue hv.m_graphicsQueueIndex) [r.newCmdBuf] none
          r.queueSubmitResult ] ∧
    (∃ post, issued w (hv.executeComputeShaderPipline_graphicsQueue r w) =
      [ .createCommandPool hv.m_graphicsQueueIndex,
        .createCommandBuffer r.newCmdBuf,
        .beginCommandBuffer r.newCmdBuf true .VK_SUCCESS,
        .cmd r.newCmdBuf (.bindPipeline .eCompute compData.pipeline),
        .cmd r.newCmdBuf
          (.bindDescriptorSets .eCompute compData.pipelineLayout 0 [compData.descSet] []),
        .cmd r.newCmdBuf (.pushConstants compData.pipelineLayout .eCompute 0 hv.m_PushConstant),
        .cmd r.newCmdBuf
          (.dispatch (toUint32 (numOfBlocks hv.m_PushConstant.m_threads)) 1 1),
        .endCommandBuffer r.newCmdBuf r.endResult,
        .queueSubmit (.poolQueue hv.m_graphicsQueueIndex) [r.newCmdBuf] none
          r.queueSubmitResult,
        .queueWaitIdle (.poolQueue hv.m_graphicsQueueIndex) r.queueWaitIdleResult ] ++ post ∧
      post.filter Call.isSubmit = []) ∧
    (hv.executeComputeShaderPipline_graphicsQueue r w).1.dev = w.dev ∧
    ((hv.executeComputeShaderPipline_graphicsQueue r w).2 = .returned ↔
      r.queueWaitIdleResult = .VK_SUCCESS) := by
  by_cases hq : r.queueWaitIdleResult = .VK_SUCCESS <;>
    simp [HelloVulkan.executeComputeShaderPipline_graphicsQueue,
      HelloVulkan.CommandPool_submitAndWait, hjob, hb, hq, World.emit, issued, Call.isSubmit]

theorem executeComputeShaderPipline_graphicsQueue_synchronous_witness :
    HelloVulkan.atLoopEntry.m_compDataList = [computeA] ∧
    (issued World.init
        (HelloVulkan.atLoopEntry.executeComputeShaderPipline_graphicsQueue Responses.ok
          World.init)).filter Call.isSubmit =
      [ .queueSubmit (.poolQueue 0) [100] none .VK_SUCCESS ] :=
  ⟨rfl, (executeComputeShaderPipline_graphicsQueue_synchronous HelloVulkan.atLoopEntry
    Responses.ok World.init computeA [] rfl rfl).1⟩

/-- C2, as the code has it. `executeComputeShaderPipline` makes no
in-flight check. Whatever the flag `m_waitingComputeShaderFence` and
whatever is already pending on the fence, when `begin` and `end` succeed it
returns normally, has made its one submission with the fence of job 0, and
an accepted submission is one more outstanding on that fence. -/
theorem executeComputeShaderPipline_no_inflight_check (hv : HelloVulkan) (cmdBuf : Handle)
    (r : Responses) (w : World) (compData : computeData) (rest : List computeData)
    (hjob : hv.m_compDataList = compData :: rest)
    (hb : r.beginResult = .VK_SUCCESS) (he : r.endResult = .VK_SUCCESS) :
    (hv.executeComputeShaderPipline cmdBuf r w).2 = .returned ∧
    Call.queueSubmit .m_queue_comp [cmdBuf] (some compData.fence) r.queueSubmitResult ∈
      issued w (hv.executeComputeShaderPipline cmdBuf r w) ∧
    (hv.executeComputeShaderPipline cmdBuf r w).1.dev.fenceSignaled = w.dev.fenceSignaled ∧
    (hv.executeComputeShaderPipline cmdBuf r w).1.dev.pending =
      w.dev.pending + (if r.queueSubmitResult = .VK_SUCCESS then 1 else 0) := by
  by_cases hq : r.queueSubmitResult = .VK_SUCCESS <;>
    simp [HelloVulkan.executeComputeShaderPipline, HelloVulkan.submitComputeCommand, hjob, hb,
      he, hq, World.emit, issued, Device.vkQueueSubmit]

theorem executeComputeShaderPipline_no_inflight_check_witness :
    HelloVulkan.inFlight.m_waitingComputeShaderFence = true ∧
    World.inFlight.dev.pending = 1 ∧
    (HelloVulkan.inFlight.executeComputeShaderPipline 9 Responses.ok World.inFlight).2 =
      .returned :=
  ⟨rfl, rfl, (executeComputeShaderPipline_no_inflight_check HelloVulkan.inFlight 9
    Responses.ok World.inFlight computeA [] rfl rfl rfl).1⟩

/-- C2, counterexample. A job is in flight (one submission pending on its
fence, `m_waitingComputeShaderFence` set) and the dispatcher is invoked
again. It does not refuse: it returns normally, its trace holds a queue
submission with the fence, and two submissions are now pending on the
fence. -/
theorem executeComputeShaderPipline_double_submission :
    HelloVulkan.inFlight.m_waitingComputeShaderFence = true ∧
    World.inFlight.dev = { fenceSignaled := false, pending := 1 } ∧
    (HelloVulkan.inFlight.executeComputeShaderPipline 9 Responses.ok World.inFlight).2 =
      .returned ∧
    (HelloVulkan.inFlight.executeComputeShaderPipline 9 Responses.ok
        World.inFlight).1.calls.filter Call.isSubmit =
      [ .queueSubmit .m_queue_comp [9] (some 8) .VK_SUCCESS ] ∧
    (HelloVulkan.inFlight.executeComputeShaderPipline 9 Responses.ok
        World.inFlight).1.dev = { fenceSignaled := false, pending := 2 } := by
  decide

/-! ## Workgroup count -/

theorem ulpExponent_small (fuel n : Nat) (h : n < 2 ^ 24) : ulpExponent fuel n = 0 := by
  cases fuel with
  | zero => rfl
  | succ k =>
    have h' : n < 16777216 := by omega
    simp [ulpExponent, h']

theorem roundToFloat_small (n : Nat) (h : n < 2 ^ 24) : roundToFloat n = n := by
  have hm : n % 1 = 0 := Nat.mod_one n
  simp [roundToFloat, ulpExponent_small n n h, hm]

theorem numOfBlocks_small (t : Int) (h0 : 0 ≤ t) (h1 : t < 2 ^ 24) :
    numOfBlocks t = exactWorkgroups t := by
  have hn : t.natAbs < 2 ^ 24 := by omega
  have hr : (roundToFloat t.natAbs : Int) = t := by
    rw [roundToFloat_small _ hn]
    omega
  have hneg : ¬ t < 0 := by omega
  simp [numOfBlocks, exactWorkgroups, floatOfInt, hneg, hr, LOCAL_WORKGROUP_SIZE]

theorem dispatches_executeComputeShaderPipline (hv : HelloVulkan) (cmdBuf : Handle)
    (r : Responses) (w : World) (compData : computeData) (rest : List computeData)
    (hjob : hv.m_compDataList = compData :: rest) (hb : r.beginResult = .VK_SUCCESS) :
    dispatches (issued w (hv.executeComputeShaderPipline cmdBuf r w)) =
      [(toUint32 (numOfBlocks hv.m_PushConstant.m_threads), 1, 1)] := by
  by_cases he : r.endResult = .VK_SUCCESS <;>
    simp [HelloVulkan.executeComputeShaderPipline, HelloVulkan.submitComputeCommand, hjob, hb,
      he, World.emit, issued, dispatches]

theorem dispatches_executeComputeShaderPipline_graphicsQueue (hv : HelloVulkan)
    (r : Responses) (w : World) (compData : computeData) (rest : List computeData)
    (hjob : hv.m_compDataList = compData :: rest) (hb : r.beginResult = .VK_SUCCESS) :
    dispatches (issued w (hv.executeComputeShaderPipline_graphicsQueue r w)) =
      [(toUint32 (numOfBlocks hv.m_PushConstant.m_threads), 1, 1)] := by
  by_cases hq : r.queueWaitIdleResult = .VK_SUCCESS <;>
    simp [HelloVulkan.executeComputeShaderPipline_graphicsQueue,
      HelloVulkan.CommandPool_submitAndWait, hjob, hb, hq, World.emit, issued, dispatches]

theorem toUint32_exactWorkgroups_small (t : Int) (g : Nat) (h0 : 0 ≤ t) (h1 : t ≤ 128)
    (hg : exactWorkgroups t = g) : toUint32 (numOfBlocks t) = g := by
  have h24 : t < 2 ^ 24 := by omega
  rw [numOfBlocks_small t h0 h24, hg]
  have hlt : exactWorkgroups t ≤ 2 := by
    unfold exactWorkgroups
    omega
  have hg2 : (g : Int) ≤ 2 := by omega
  unfold toUint32
  omega

/-- C8. Workgroup small cases. In both dispatch paths the one dispatch that
is recorded has workgroup count 0 for `m_threads = 0`, 1 for every
`m_threads` in 1..64 and 2 for every `m_threads` in 65..128 (with y and z
counts 1). -/
theorem workgroups_small_cases (hv : HelloVulkan) (cmdBuf : Handle) (r r' : Responses)
    (w w' : World) (compData : computeData) (rest : List computeData)
    (hjob : hv.m_compDataList = compData :: rest)
    (hb : r.beginResult = .VK_SUCCESS) (hb' : r'.beginResult = .VK_SUCCESS) :
    (hv.m_PushConstant.m_threads = 0 →
      dispatches (issued w (hv.executeComputeShaderPipline cmdBuf r w)) = [(0, 1, 1)] ∧
      dispatches (issued w' (hv.executeComputeShaderPipline_graphicsQueue r' w')) =
        [(0, 1, 1)]) ∧
    (1 ≤ hv.m_PushConstant.m_threads → hv.m_PushConstant.m_threads ≤ 64 →
      dispatches (issued w (hv.executeComputeShaderPipline cmdBuf r w)) = [(1, 1, 1)] ∧
      dispatches (issued w' (hv.executeComputeShaderPipline_graphicsQueue r' w')) =
        [(1, 1, 1)]) ∧
    (65 ≤ hv.m_PushConstant.m_threads → hv.m_PushConstant.m_threads ≤ 128 →
      dispatches (issued w (hv.executeComputeShaderPipline cmdBuf r w)) = [(2, 1, 1)] ∧
      dispatches (issued w' (hv.executeComputeShaderPipline_graphicsQueue r' w')) =
        [(2, 1, 1)]) := by
  rw [dispatches_executeComputeShaderPipline hv cmdBuf r w compData rest hjob hb,
    dispatches_executeComputeShaderPipline_graphicsQueue hv r' w' compData rest hjob hb']
  refine ⟨?_, ?_, ?_⟩
  · intro h
    have hg : toUint32 (numOfBlocks hv.m_PushConstant.m_threads) = 0 :=
      toUint32_exactWorkgroups_small _ 0 (by omega) (by omega)
        (by unfold exactWorkgroups; omega)
    simp [hg]
  · intro h1 h2
    have hg : toUint32 (numOfBlocks hv.m_PushConstant.m_threads) = 1 :=
      toUint32_exactWorkgroups_small _ 1 (by omega) (by omega)
        (by unfold exactWorkgroups; omega)
    simp [hg]
  · intro h1 h2
    have hg : toUint32 (numOfBlocks hv.m_PushConstant.m_threads) = 2 :=
      toUint32_exactWorkgroups_small _ 2 (by omega) (by omega)
        (by unfold exactWorkgroups; omega)
    simp [hg]

theorem workgroups_small_cases_witness :
    HelloVulkan.atLoopEntry.m_compDataList = [computeA] ∧
    dispatches (issued World.init
      ({ HelloVulkan.atLoopEntry with
          m_PushConstant := { m_threads := 128, use_atomic := 0 } }.executeComputeShaderPipline
        9 Responses.ok World.init)) = [(2, 1, 1)] ∧
    dispatches (issued World.init
      ({ HelloVulkan.atLoopEntry with
          m_PushConstant :=
            { m_threads := 128,
              use_atomic := 0 } }.executeComputeShaderPipline_graphicsQueue
        Responses.ok World.init)) = [(2, 1, 1)] :=
  ⟨rfl, (workgroups_small_cases
    { HelloVulkan.atLoopEntry with m_PushConstant := { m_threads := 128, use_atomic := 0 } }
    9 Responses.ok Responses.ok World.init World.init computeA [] rfl rfl rfl).2.2
    (by decide) (by decide)⟩

/-- C7, the failing input. For `m_threads = 16777217 = 2^24 + 1`, which the
sliders reach with t1 = 1 and t3 = 16777216, `float(m_threads)` is
16777216, so both dispatch paths record 262144 workgroups, while the exact
ceiling of 16777217 / 64 is 262145: the last thread gets no invocation. The
same happens at the top of the slider range, 1000001100. -/
theorem numOfBlocks_loses_a_workgroup :
    (renderPanel { FrameInput.idle with t1 := some 1, t3 := some 16777216 }
        Loop.init).helloVk.m_PushConstant.m_threads = 16777217 ∧
    numOfBlocks 16777217 = 262144 ∧
    exactWorkgroups 16777217 = 262145 ∧
    dispatches (issued World.init
      ({ HelloVulkan.atLoopEntry with
          m_PushConstant := { m_threads := 16777217, use_atomic := 0 } }.executeComputeShaderPipline
        9 Responses.ok World.init)) = [(262144, 1, 1)] ∧
    dispatches (issued World.init
      ({ HelloVulkan.atLoopEntry with
          m_PushConstant :=
            { m_threads := 16777217,
              use_atomic := 0 } }.executeComputeShaderPipline_graphicsQueue
        Responses.ok World.init)) = [(262144, 1, 1)] ∧
    numOfBlocks 1000001100 = 15625017 ∧
    exactWorkgroups 1000001100 = 15625018 := by
  decide

/-! ## Histories of the job fence -/

theorem submittedCount_append (cs ds : List Call) :
    submittedCount (cs ++ ds) = submittedCount cs + submittedCount ds := by
  simp [submittedCount]

theorem reportedCount_append (cs ds : List Call) :
    reportedCount (cs ++ ds) = reportedCount cs + reportedCount ds := by
  simp [reportedCount]

theorem fenceBalance_prepareComputeShader (hv : HelloVulkan) (w : World)
    (h : fenceBalance w) : fenceBalance (hv.prepareComputeShader w).1 := by
  unfold HelloVulkan.prepareComputeShader HelloVulkan.updateCompDescriptorSet
  split
  · exact h
  · split
    · exact h
    · simpa [fenceBalance, World.emit, submittedCount_append, reportedCount_append,
        submittedCount, reportedCount] using h

theorem fenceBalance_printCounter (hv : HelloVulkan) (w : World)
    (h : fenceBalance w) : fenceBalance (hv.printCounter w).1 := by
  unfold HelloVulkan.printCounter
  split
  · exact h
  · split
    · exact h
    · simpa [fenceBalance, World.emit, submittedCount_append, reportedCount_append,
        submittedCount, reportedCount] using h

theorem fenceBalance_executeComputeShaderPipline (hv : HelloVulkan) (cmdBuf : Handle)
    (r : Responses) (w : World) (h : fenceBalance w) :
    fenceBalance (hv.executeComputeShaderPipline cmdBuf r w).1 := by
  unfold fenceBalance at h ⊢
  cases hl : hv.m_compDataList with
  | nil =>
    simpa [HelloVulkan.executeComputeShaderPipline, hl, World.emit, submittedCount_append,
      reportedCount_append, submittedCount, reportedCount] using h
  | cons compData rest =>
    by_cases hb : r.beginResult = .VK_SUCCESS
    · by_cases he : r.endResult = .VK_SUCCESS
      · cases hq : r.queueSubmitResult <;>
          simp [HelloVulkan.executeComputeShaderPipline, HelloVulkan.submitComputeCommand, hl,
            hb, he, hq, World.emit, submittedCount_append, reportedCount_append,
            submittedCount, reportedCount, Device.vkQueueSubmit] at h ⊢ <;> omega
      · simpa [HelloVulkan.executeComputeShaderPipline, hl, hb, he, World.emit,
          submittedCount_append, reportedCount_append, submittedCount, reportedCount] using h
    · simpa [HelloVulkan.executeComputeShaderPipline, hl, hb, World.emit,
        submittedCount_append, reportedCount_append, submittedCount, reportedCount] using h

theorem fenceBalance_executeComputeShaderPipline_graphicsQueue (hv : HelloVulkan)
    (r : Responses) (w : World) (h : fenceBalance w) :
    fenceBalance (hv.executeComputeShaderPipline_graphicsQueue r w).1 := by
  unfold fenceBalance at h ⊢
  cases hl : hv.m_compDataList with
  | nil => simpa [HelloVulkan.executeComputeShaderPipline_graphicsQueue, hl] using h
  | cons compData rest =>
    by_cases hb : r.beginResult = .VK_SUCCESS <;>
      by_cases hq : r.queueWaitIdleResult = .VK_SUCCESS <;>
      simpa [HelloVulkan.executeComputeShaderPipline_graphicsQueue,
        HelloVulkan.CommandPool_submitAndWait, hl, hb, hq, World.emit, submittedCount_append,
        reportedCount_append, submittedCount, reportedCount] using h

theorem fenceBalance_isComputeShaderExecutionDone (hv : HelloVulkan) (w : World)
    (h : fenceBalance w) : fenceBalance (hv.isComputeShaderExecutionDone w).1 := by
  unfold fenceBalance at h ⊢
  cases hl : hv.m_compDataList with
  | nil => simpa [HelloVulkan.isComputeShaderExecutionDone, hl] using h
  | cons compData rest =>
    cases hs : w.dev.fenceSignaled <;>
      simp [HelloVulkan.isComputeShaderExecutionDone, hl, hs, Device.vkGetFenceStatus,
        Device.vkResetFences, World.emit, submittedCount_append, reportedCount_append,
        submittedCount, reportedCount] at h ⊢ <;> omega

theorem fenceBalance_retire (w : World) (h : fenceBalance w) :
    fenceBalance { w with dev := w.dev.retire } := by
  unfold fenceBalance at h ⊢
  cases hp : w.dev.pending with
  | zero => simpa [Device.retire, hp] using h
  | succ n =>
    cases hs : w.dev.fenceSignaled <;>
      simp [Device.retire, hp, hs] at h ⊢ <;> omega

theorem fenceBalance_run (step : HostStep) (w : World) (h : fenceBalance w) :
    fenceBalance (step.run w) := by
  cases step with
  | prepareComputeShader hv => exact fenceBalance_prepareComputeShader hv w h
  | executeComputeShaderPipline hv cmdBuf r =>
    exact fenceBalance_executeComputeShaderPipline hv cmdBuf r w h
  | executeComputeShaderPipline_graphicsQueue hv r =>
    exact fenceBalance_executeComputeShaderPipline_graphicsQueue hv r w h
  | isComputeShaderExecutionDone hv => exact fenceBalance_isComputeShaderExecutionDone hv w h
  | printCounter hv => exact fenceBalance_printCounter hv w h
  | gpuRetire => exact fenceBalance_retire w h

theorem fenceBalance_runSteps (steps : List HostStep) (w : World) (h : fenceBalance w) :
    fenceBalance (runSteps steps w) := by
  induction steps generalizing w with
  | nil => exact h
  | cons step rest ih => exact ih (step.run w) (fenceBalance_run step w h)

theorem fenceBalance_init : fenceBalance World.init := by
  simp [fenceBalance, World.init, Device.vkCreateFence, createComputeShaderPipline_fenceFlags,
    VK_FENCE_CREATE_SIGNALED_BIT, submittedCount, reportedCount]

theorem pollTimes_unsignaled (hv : HelloVulkan) (compData : computeData)
    (rest : List computeData) (hjob : hv.m_compDataList = compData :: rest) (n : Nat)
    (w : World) (hs : w.dev.fenceSignaled = false) :
    pollTimes hv n w = List.replicate n (some false) := by
  induction n generalizing w with
  | zero => rfl
  | succ n ih =>
    have h1 : (hv.isComputeShaderExecutionDone w).2 = some false := by
      simp [HelloVulkan.isComputeShaderExecutionDone, hjob, hs, Device.vkGetFenceStatus]
    have h2 : (hv.isComputeShaderExecutionDone w).1.dev.fenceSignaled = false := by
      simp [HelloVulkan.isComputeShaderExecutionDone, hjob, hs, Device.vkGetFenceStatus,
        World.emit]
    simp [pollTimes, h1, ih _ h2, List.replicate_succ]

/-- C5. Poll idempotence. Take any history of the device since
`createComputeShaderPipline`: calls of the compute functions in any order
and with any device answers, interleaved with GPU completions. The polls that
answered `true` never outnumber the accepted dispatches; and in a state where
no dispatch is outstanding (none was submitted, or every submitted one has
been reported complete by a poll), `isComputeShaderExecutionDone` answers
`false`, however many times it is called in a row. -/
theorem poll_idempotent (steps : List HostStep) (hv : HelloVulkan) (compData : computeData)
    (rest : List computeData) (hjob : hv.m_compDataList = compData :: rest) :
    reportedCount (runSteps steps World.init).calls ≤
      submittedCount (runSteps steps World.init).calls ∧
    (submittedCount (runSteps steps World.init).calls =
        reportedCount (runSteps steps World.init).calls →
      ∀ n : Nat, pollTimes hv n (runSteps steps World.init) = List.replicate n (some false)) := by
  have hbal := fenceBalance_runSteps steps World.init fenceBalance_init
  unfold fenceBalance at hbal
  refine ⟨by omega, ?_⟩
  intro hidle n
  have hs : (runSteps steps World.init).dev.fenceSignaled = false := by
    cases hsig : (runSteps steps World.init).dev.fenceSignaled with
    | false => rfl
    | true =>
      rw [hsig] at hbal
      simp at hbal
      omega
  exact pollTimes_unsignaled hv compData rest hjob n _ hs

theorem poll_idempotent_witness :
    HelloVulkan.atLoopEntry.m_compDataList = [computeA] ∧
    submittedCount (runSteps
        [ .executeComputeShaderPipline HelloVulkan.atLoopEntry 9 Responses.ok,
          .gpuRetire,
          .isComputeShaderExecutionDone HelloVulkan.atLoopEntry ] World.init).calls =
      reportedCount (runSteps
        [ .executeComputeShaderPipline HelloVulkan.atLoopEntry 9 Responses.ok,
          .gpuRetire,
          .isComputeShaderExecutionDone HelloVulkan.atLoopEntry ] World.init).calls ∧
    pollTimes HelloVulkan.atLoopEntry 3 (runSteps
        [ .executeComputeShaderPipline HelloVulkan.atLoopEntry 9 Responses.ok,
          .gpuRetire,
          .isComputeShaderExecutionDone HelloVulkan.atLoopEntry ] World.init) =
      [some false, some false, some false] :=
  ⟨rfl, by decide,
    (poll_idempotent
      [ .executeComputeShaderPipline HelloVulkan.atLoopEntry 9 Responses.ok,
        .gpuRetire,
        .isComputeShaderExecutionDone HelloVulkan.atLoopEntry ] HelloVulkan.atLoopEntry
      computeA [] rfl).2 (by decide) 3⟩

/-! ## The frame loop -/

theorem renderPanel_flags (i : FrameInput) (s : Loop) :
    (renderPanel i s).helloVk.m_isTestComputeShaderRunning =
      s.helloVk.m_isTestComputeShaderRunning ∧
    (renderPanel i s).helloVk.m_waitingComputeShaderFence =
      s.helloVk.m_waitingComputeShaderFence ∧
    (renderPanel i s).m_runTestComputeShader =
      (s.m_runTestComputeShader || (i.showGui && i.headerOpen && i.runButton)) := by
  unfold renderPanel
  cases i.showGui <;> cases i.colorEdited <;> cases i.rayTracerClicked <;>
    cases i.headerOpen <;> cases i.oneQueue <;> cases i.twoQueues <;> cases i.runButton <;>
    simp

theorem gpuProgress_flags (k : Nat) (s : Loop) :
    (gpuProgress k s).helloVk = s.helloVk ∧
    (gpuProgress k s).m_runTestComputeShader = s.m_runTestComputeShader ∧
    (gpuProgress k s).halted = s.halted := by
  simp [gpuProgress]

theorem pollBlock_flags (s : Loop) :
    (pollBlock s).1.helloVk.m_isTestComputeShaderRunning =
      s.helloVk.m_isTestComputeShaderRunning ∧
    (pollBlock s).1.m_runTestComputeShader = s.m_runTestComputeShader ∧
    ((pollBlock s).1.helloVk.m_waitingComputeShaderFence = true →
      s.helloVk.m_waitingComputeShaderFence = true) ∧
    Event.executeComputeShaderPipline ∉ (pollBlock s).2 := by
  unfold pollBlock haltWith
  repeat' split
  all_goals simp_all

theorem computeStateBlock_idle (i : FrameInput) (s : Loop)
    (hrun : s.m_runTestComputeShader = false)
    (hr : s.helloVk.m_isTestComputeShaderRunning = false) :
    computeStateBlock i s = (s, []) := by
  simp [computeStateBlock, hrun, hr]

theorem computeStateBlock_trigger (i : FrameInput) (s : Loop)
    (hrun : s.m_runTestComputeShader = true) :
    (computeStateBlock i s).1.m_runTestComputeShader = false ∧
    (computeStateBlock i s).1.helloVk.m_waitingComputeShaderFence =
      s.helloVk.m_waitingComputeShaderFence ∧
    (computeStateBlock i s).2 = [] := by
  simp [computeStateBlock, hrun]

theorem computeStateBlock_dispatch (i : FrameInput) (s : Loop)
    (hrun : s.m_runTestComputeShader = false) :
    (computeStateBlock i s).1.m_runTestComputeShader = false ∧
    (computeStateBlock i s).1.helloVk.m_isTestComputeShaderRunning = false := by
  unfold computeStateBlock haltWith
  simp only [hrun]
  repeat' split
  all_goals simp_all

theorem frame_halted (i : FrameInput) (s : Loop) (hh : s.halted.isSome = true) :
    frame i s = (s, []) := by
  simp [frame, hh]

theorem frame_minimized (i : FrameInput) (s : Loop) (hh : s.halted.isSome = false)
    (hm : i.isMinimized = true) :
    frame i s =
      (gpuProgress i.retiredBeforePoll (gpuProgress i.retiredBeforeDispatch s), []) := by
  simp [frame, hh, hm]

theorem frame_body (i : FrameInput) (s : Loop) (hh : s.halted.isSome = false)
    (hm : i.isMinimized = false) :
    frame i s =
      if (computeStateBlock i
          (renderPanel i (gpuProgress i.retiredBeforeDispatch s))).1.halted.isSome then
        ((computeStateBlock i (renderPanel i (gpuProgress i.retiredBeforeDispatch s))).1,
          renderFrame (renderPanel i (gpuProgress i.retiredBeforeDispatch s)) ++
            (computeStateBlock i (renderPanel i (gpuProgress i.retiredBeforeDispatch s))).2)
      else
        ((pollBlock (gpuProgress i.retiredBeforePoll
            (computeStateBlock i
              (renderPanel i (gpuProgress i.retiredBeforeDispatch s))).1)).1,
          renderFrame (renderPanel i (gpuProgress i.retiredBeforeDispatch s)) ++
            (computeStateBlock i (renderPanel i (gpuProgress i.retiredBeforeDispatch s))).2 ++
            (pollBlock (gpuProgress i.retiredBeforePoll
              (computeStateBlock i
                (renderPanel i (gpuProgress i.retiredBeforeDispatch s))).1)).2) := by
  simp only [frame, hh, hm]
  simp

theorem renderFrame_no_dispatch (s : Loop) :
    Event.executeComputeShaderPipline ∉ renderFrame s := by
  unfold renderFrame
  cases s.useRaytracer <;> simp

theorem panel_run (i : FrameInput) (s : Loop) (hm : i.isMinimized = false)
    (hrun : s.m_runTestComputeShader = false) :
    (renderPanel i (gpuProgress i.retiredBeforeDispatch s)).m_runTestComputeShader =
      i.triggers := by
  rw [(renderPanel_flags i _).2.2, (gpuProgress_flags _ s).2.1, hrun]
  simp [FrameInput.triggers, hm]

theorem frame_flagsExclusive (i : FrameInput) (s : Loop) (hinv : flagsExclusive s)
    (hpress : s.helloVk.m_waitingComputeShaderFence = true → i.triggers = false) :
    flagsExclusive (frame i s).1 := by
  cases hh : s.halted.isSome with
  | true => rw [frame_halted i s hh]; exact hinv
  | false =>
    cases hm : i.isMinimized with
    | true =>
      rw [frame_minimized i s hh hm]
      simpa [flagsExclusive, gpuProgress] using hinv
    | false =>
      rw [frame_body i s hh hm]
      have hpanel := renderPanel_flags i (gpuProgress i.retiredBeforeDispatch s)
      have hgp := gpuProgress_flags i.retiredBeforeDispatch s
      have hrun1 := panel_run i s hm hinv.1
      cases ht : i.triggers with
      | true =>
        have hw : s.helloVk.m_waitingComputeShaderFence = false := by
          cases hw : s.helloVk.m_waitingComputeShaderFence with
          | false => rfl
          | true => rw [hpress hw] at ht; cases ht
        rw [ht] at hrun1
        have hblock := computeStateBlock_trigger i _ hrun1
        have hw2 : (computeStateBlock i (renderPanel i
            (gpuProgress i.retiredBeforeDispatch s))).1.helloVk.m_waitingComputeShaderFence
            = false := by
          rw [hblock.2.1, hpanel.2.1, hgp.1, hw]
        split
        · exact ⟨hblock.1, by simp [hw2]⟩
        · have hpoll := pollBlock_flags (gpuProgress i.retiredBeforePoll
            (computeStateBlock i (renderPanel i (gpuProgress i.retiredBeforeDispatch s))).1)
          have hgp2 := gpuProgress_flags i.retiredBeforePoll
            (computeStateBlock i (renderPanel i (gpuProgress i.retiredBeforeDispatch s))).1
          refine ⟨?_, ?_⟩
          · rw [hpoll.2.1, hgp2.2.1]; exact hblock.1
          · intro hc
            have := hpoll.2.2.1 hc.2
            rw [hgp2.1, hw2] at this
            cases this
      | false =>
        rw [ht] at hrun1
        have hblock := computeStateBlock_dispatch i _ hrun1
        split
        · exact ⟨hblock.1, by simp [hblock.2]⟩
        · have hpoll := pollBlock_flags (gpuProgress i.retiredBeforePoll
            (computeStateBlock i (renderPanel i (gpuProgress i.retiredBeforeDispatch s))).1)
          have hgp2 := gpuProgress_flags i.retiredBeforePoll
            (computeStateBlock i (renderPanel i (gpuProgress i.retiredBeforeDispatch s))).1
          refine ⟨?_, ?_⟩
          · rw [hpoll.2.1, hgp2.2.1]; exact hblock.1
          · intro hc
            have h1 := hc.1
            rw [hpoll.1, hgp2.1, hblock.2] at h1
            cases h1

theorem frame_no_dispatch_while_waiting (i : FrameInput) (s : Loop)
    (hinv : flagsExclusive s) (hw : s.helloVk.m_waitingComputeShaderFence = true)
    (ht : i.triggers = false) :
    Event.executeComputeShaderPipline ∉ (frame i s).2 := by
  cases hh : s.halted.isSome with
  | true => rw [frame_halted i s hh]; simp
  | false =>
    cases hm : i.isMinimized with
    | true => rw [frame_minimized i s hh hm]; simp
    | false =>
      rw [frame_body i s hh hm]
      have hpanel := renderPanel_flags i (gpuProgress i.retiredBeforeDispatch s)
      have hgp := gpuProgress_flags i.retiredBeforeDispatch s
      have hrun1 := panel_run i s hm hinv.1
      rw [ht] at hrun1
      have hr : s.helloVk.m_isTestComputeShaderRunning = false := by
        cases hr : s.helloVk.m_isTestComputeShaderRunning with
        | false => rfl
        | true => exact absurd ⟨hr, hw⟩ hinv.2
      have hr1 : (renderPanel i
          (gpuProgress i.retiredBeforeDispatch s)).helloVk.m_isTestComputeShaderRunning
          = false := by
        rw [hpanel.1, hgp.1, hr]
      rw [computeStateBlock_idle i _ hrun1 hr1]
      have hrf := renderFrame_no_dispatch (renderPanel i (gpuProgress i.retiredBeforeDispatch s))
      have hpoll := (pollBlock_flags (gpuProgress i.retiredBeforePoll
        (renderPanel i (gpuProgress i.retiredBeforeDispatch s)))).2.2.2
      split <;> simp [hrf, hpoll]

/-- C1, as the code has it. Take any run of the loop that starts with the
trigger flag clear and the running and waiting flags not both set, with any
device answers and GPU timing, in which the "Run Compute Shader" button is
not pressed during an iteration that starts with
`m_waitingComputeShaderFence == true`. Then `executeComputeShaderPipline` is
not invoked in any iteration that starts with that flag set. -/
theorem no_dispatch_while_waiting (inputs : List FrameInput) (s0 : Loop)
    (hinv : flagsExclusive s0)
    (hpress : ∀ it ∈ iterations inputs s0,
      it.start.helloVk.m_waitingComputeShaderFence = true → it.input.triggers = false) :
    ∀ it ∈ iterations inputs s0,
      it.start.helloVk.m_waitingComputeShaderFence = true →
        Event.executeComputeShaderPipline ∉ it.events := by
  induction inputs generalizing s0 with
  | nil => intro it hit; simp [iterations] at hit
  | cons i rest ih =>
    intro it hit hw
    simp only [iterations, List.mem_cons] at hit hpress
    have hhead := hpress { start := s0, input := i, events := (frame i s0).2 } (Or.inl rfl)
    rcases hit with rfl | hit
    · exact frame_no_dispatch_while_waiting i s0 hinv hw (hhead hw)
    · exact ih (frame i s0).1 (frame_flagsExclusive i s0 hinv hhead)
        (fun it' hit' => hpress it' (Or.inr hit')) it hit hw

theorem no_dispatch_while_waiting_witness :
    flagsExclusive Loop.init ∧
    (∀ it ∈ iterations
        [ FrameInput.press, FrameInput.idle, FrameInput.idle,
          { FrameInput.idle with retiredBeforeDispatch := 1 }, FrameInput.press,
          FrameInput.idle ] Loop.init,
      it.start.helloVk.m_waitingComputeShaderFence = true → it.input.triggers = false) ∧
    (∀ it ∈ iterations
        [ FrameInput.press, FrameInput.idle, FrameInput.idle,
          { FrameInput.idle with retiredBeforeDispatch := 1 }, FrameInput.press,
          FrameInput.idle ] Loop.init,
      it.start.helloVk.m_waitingComputeShaderFence = true →
        Event.executeComputeShaderPipline ∉ it.events) :=
  ⟨by decide, by decide,
    no_dispatch_while_waiting
      [ FrameInput.press, FrameInput.idle, FrameInput.idle,
        { FrameInput.idle with retiredBeforeDispatch := 1 }, FrameInput.press,
        FrameInput.idle ] Loop.init (by decide) (by decide)⟩

/-- C1, counterexample. The button is pressed, the job is dispatched on the
next frame, the button is pressed again while the job is still running on
the GPU, and one frame later the fourth iteration, which starts with
`m_waitingComputeShaderFence == true`, with one submission pending and the
fence never yet signaled, calls `executeComputeShaderPipline` again. -/
theorem dispatch_while_waiting :
    ∃ it ∈ iterations
        [FrameInput.press, FrameInput.idle, FrameInput.press, FrameInput.idle] Loop.init,
      it.start.helloVk.m_waitingComputeShaderFence = true ∧
      it.start.world.dev = { fenceSignaled := false, pending := 1 } ∧
      reportedCount it.start.world.calls = 0 ∧
      Event.executeComputeShaderPipline ∈ it.events := by
  decide

/-! ## Steps of the frame loop -/

theorem frame_steps (i : FrameInput) (s : Loop) (hh : s.halted.isSome = false)
    (hm : i.isMinimized = false) :
    frame i s =
      if (afterComputeState i s).halted.isSome then
        (afterComputeState i s,
          renderFrame (atComputeState i s) ++ (computeStateBlock i (atComputeState i s)).2)
      else
        ((pollBlock (atPollBlock i s)).1,
          renderFrame (atComputeState i s) ++ (computeStateBlock i (atComputeState i s)).2 ++
            (pollBlock (atPollBlock i s)).2) := by
  rw [frame_body i s hh hm]
  rfl

theorem atComputeState_facts (i : FrameInput) (s : Loop) :
    (atComputeState i s).helloVk.m_isTestComputeShaderRunning =
      s.helloVk.m_isTestComputeShaderRunning ∧
    (atComputeState i s).helloVk.m_waitingComputeShaderFence =
      s.helloVk.m_waitingComputeShaderFence ∧
    (atComputeState i s).helloVk.m_compDataList = s.helloVk.m_compDataList ∧
    (atComputeState i s).halted = s.halted ∧
    (atComputeState i s).world.dev = s.world.dev.retireN i.retiredBeforeDispatch ∧
    (atComputeState i s).m_runTestComputeShader =
      (s.m_runTestComputeShader || (i.showGui && i.headerOpen && i.runButton)) := by
  unfold atComputeState renderPanel gpuProgress
  cases i.showGui <;> cases i.colorEdited <;> cases i.rayTracerClicked <;>
    cases i.headerOpen <;> cases i.oneQueue <;> cases i.twoQueues <;> cases i.runButton <;>
    simp

theorem computeStateBlock_of_trigger (i : FrameInput) (s : Loop)
    (hrun : s.m_runTestComputeShader = true) :
    computeStateBlock i s = ({ midTrigger s with m_runTestComputeShader := false }, []) := by
  simp [computeStateBlock, hrun, midTrigger]

theorem pollBlock_of_not_waiting (s : Loop)
    (hw : s.helloVk.m_waitingComputeShaderFence = false) : pollBlock s = (s, []) := by
  simp [pollBlock, hw]

theorem pollBlock_of_signaled (s : Loop) (compData : computeData) (rest : List computeData)
    (b : Buffer) (bs : List Buffer) (hjob : s.helloVk.m_compDataList = compData :: rest)
    (hbuf : compData.buffers = b :: bs)
    (hw : s.helloVk.m_waitingComputeShaderFence = true)
    (hs : s.world.dev.fenceSignaled = true) :
    pollBlock s =
      ({ s with
          clearColor := .white
          helloVk := { s.helloVk with m_waitingComputeShaderFence := false }
          world :=
            { dev := s.world.dev.vkResetFences
              calls := s.world.calls ++
                [.getFenceStatus compData.fence .VK_SUCCESS, .resetFences compData.fence,
                 .printCounter b.data] } },
       [.isComputeShaderExecutionDone true, .printCounter]) := by
  simp [pollBlock, hw, HelloVulkan.isComputeShaderExecutionDone, HelloVulkan.printCounter, hjob,
    hbuf, hs, Device.vkGetFenceStatus, World.emit]

theorem pollBlock_of_unsignaled (s : Loop) (compData : computeData) (rest : List computeData)
    (hjob : s.helloVk.m_compDataList = compData :: rest)
    (hw : s.helloVk.m_waitingComputeShaderFence = true)
    (hs : s.world.dev.fenceSignaled = false) :
    pollBlock s =
      ({ s with
          world :=
            { dev := s.world.dev
              calls := s.world.calls ++ [.getFenceStatus compData.fence .VK_NOT_READY] } },
       [.isComputeShaderExecutionDone false]) := by
  simp [pollBlock, hw, HelloVulkan.isComputeShaderExecutionDone, hjob, hs,
    Device.vkGetFenceStatus, World.emit]

theorem computeStateBlock_dispatch_two (i : FrameInput) (s : Loop) (compData : computeData)
    (rest : List computeData) (b : Buffer) (bs : List Buffer)
    (hjob : s.helloVk.m_compDataList = compData :: rest) (hbuf : compData.buffers = b :: bs)
    (hrun : s.m_runTestComputeShader = false)
    (hr : s.helloVk.m_isTestComputeShaderRunning = true)
    (hq : s.m_numberOfUsedQueues = 2) :
    (computeStateBlock i s).1.m_runTestComputeShader = false ∧
    (computeStateBlock i s).1.helloVk.m_isTestComputeShaderRunning = false ∧
    (computeStateBlock i s).1.helloVk.m_compDataList = s.helloVk.m_compDataList ∧
    (computeStateBlock i s).1.m_numberOfUsedQueues = s.m_numberOfUsedQueues ∧
    ((i.vk.beginResult = .VK_SUCCESS ∧ i.vk.endResult = .VK_SUCCESS ∧
        (computeStateBlock i s).1.halted = s.halted ∧
        (computeStateBlock i s).1.helloVk.m_waitingComputeShaderFence = true ∧
        (computeStateBlock i s).1.world.dev =
          s.world.dev.vkQueueSubmit i.vk.queueSubmitResult ∧
        (computeStateBlock i s).2 = [.prepareComputeShader, .executeComputeShaderPipline]) ∨
      ((i.vk.beginResult ≠ .VK_SUCCESS ∨ i.vk.endResult ≠ .VK_SUCCESS) ∧
        (computeStateBlock i s).1.halted = some (.exited 1) ∧
        (computeStateBlock i s).1.helloVk.m_waitingComputeShaderFence = false ∧
        (computeStateBlock i s).1.world.dev = s.world.dev ∧
        (computeStateBlock i s).2 =
          [.prepareComputeShader, .executeComputeShaderPipline, .exit 1])) := by
  by_cases hb : i.vk.beginResult = .VK_SUCCESS <;>
    by_cases he : i.vk.endResult = .VK_SUCCESS <;>
    simp [computeStateBlock, hrun, hr, hq, HelloVulkan.prepareComputeShader,
      HelloVulkan.updateCompDescriptorSet, HelloVulkan.executeComputeShaderPipline,
      HelloVulkan.submitComputeCommand, HelloVulkan.getCompCommandBuffer, hjob, hbuf, hb, he,
      haltWith, World.emit]

theorem computeStateBlock_dispatch_one (i : FrameInput) (s : Loop) (compData : computeData)
    (rest : List computeData) (b : Buffer) (bs : List Buffer)
    (hjob : s.helloVk.m_compDataList = compData :: rest) (hbuf : compData.buffers = b :: bs)
    (hrun : s.m_runTestComputeShader = false)
    (hr : s.helloVk.m_isTestComputeShaderRunning = true)
    (hq : s.m_numberOfUsedQueues ≠ 2) :
    (computeStateBlock i s).1.m_runTestComputeShader = false ∧
    (computeStateBlock i s).1.helloVk.m_isTestComputeShaderRunning = false ∧
    (computeStateBlock i s).1.helloVk.m_waitingComputeShaderFence = false ∧
    (computeStateBlock i s).1.helloVk.m_compDataList = s.helloVk.m_compDataList ∧
    (computeStateBlock i s).1.world.dev = s.world.dev ∧
    ((i.vk.beginResult = .VK_SUCCESS ∧ i.vk.queueWaitIdleResult = .VK_SUCCESS ∧
        (computeStateBlock i s).1.halted = s.halted ∧
        (computeStateBlock i s).2 =
          [.prepareComputeShader, .executeComputeShaderPipline_graphicsQueue,
           .printCounter]) ∨
      (i.vk.beginResult ≠ .VK_SUCCESS ∧
        (computeStateBlock i s).1.halted = some (.exited 1) ∧
        (computeStateBlock i s).2 =
          [.prepareComputeShader, .executeComputeShaderPipline_graphicsQueue, .exit 1]) ∨
      (i.vk.beginResult = .VK_SUCCESS ∧ i.vk.queueWaitIdleResult ≠ .VK_SUCCESS ∧
        (computeStateBlock i s).1.halted = some (.exited (-1)) ∧
        (computeStateBlock i s).2 =
          [.prepareComputeShader, .executeComputeShaderPipline_graphicsQueue,
           .exit (-1)])) := by
  by_cases hb : i.vk.beginResult = .VK_SUCCESS <;>
    by_cases hwt : i.vk.queueWaitIdleResult = .VK_SUCCESS <;>
    simp [computeStateBlock, hrun, hr, hq, HelloVulkan.prepareComputeShader,
      HelloVulkan.updateCompDescriptorSet, HelloVulkan.executeComputeShaderPipline_graphicsQueue,
      HelloVulkan.CommandPool_submitAndWait, HelloVulkan.printCounter, hjob, hbuf, hb, hwt,
      haltWith, World.emit]

/-- C11. The in-flight flag is set in dedicated-queue mode only. Whenever the
dispatch branch of the compute-state block runs (trigger clear, running flag
set) and does not end the process, whatever `m_waitingComputeShaderFence` was
before, it is afterwards true exactly when `m_numberOfUsedQueues == 2`. In
the other case the branch has called `prepareComputeShader`, the
shared-queue dispatch and `printCounter`, in this order, and the poll block
of the same iteration calls nothing: no poll is made for that dispatch. -/
theorem waiting_flag_set_in_two_queue_mode_only (i : FrameInput) (s : Loop)
    (hrun : s.m_runTestComputeShader = false)
    (hr : s.helloVk.m_isTestComputeShaderRunning = true)
    (hok : (computeStateBlock i s).1.halted = none) :
    ((computeStateBlock i s).1.helloVk.m_waitingComputeShaderFence = true ↔
      s.m_numberOfUsedQueues = 2) ∧
    (s.m_numberOfUsedQueues ≠ 2 →
      (computeStateBlock i s).2 =
        [.prepareComputeShader, .executeComputeShaderPipline_graphicsQueue, .printCounter] ∧
      pollBlock (gpuProgress i.retiredBeforePoll (computeStateBlock i s).1) =
        (gpuProgress i.retiredBeforePoll (computeStateBlock i s).1, [])) := by
  have key : ((computeStateBlock i s).1.helloVk.m_waitingComputeShaderFence = true ↔
        s.m_numberOfUsedQueues = 2) ∧
      (s.m_numberOfUsedQueues ≠ 2 →
        (computeStateBlock i s).2 =
          [.prepareComputeShader, .executeComputeShaderPipline_graphicsQueue,
           .printCounter]) := by
    revert hok
    unfold computeStateBlock haltWith
    simp only [hrun, hr]
    repeat' split
    all_goals simp_all
  refine ⟨key.1, fun hq => ⟨key.2 hq, ?_⟩⟩
  apply pollBlock_of_not_waiting
  have hw : (computeStateBlock i s).1.helloVk.m_waitingComputeShaderFence ≠ true :=
    fun h => hq (key.1.mp h)
  simpa [gpuProgress] using hw

theorem waiting_flag_set_in_two_queue_mode_only_witness :
    (computeStateBlock FrameInput.idle
        { Loop.init with
          m_numberOfUsedQueues := 1
          helloVk := { HelloVulkan.inFlight with m_isTestComputeShaderRunning := true }
        }).2 =
      [.prepareComputeShader, .executeComputeShaderPipline_graphicsQueue, .printCounter] :=
  ((waiting_flag_set_in_two_queue_mode_only FrameInput.idle
    { Loop.init with
      m_numberOfUsedQueues := 1
      helloVk := { HelloVulkan.inFlight with m_isTestComputeShaderRunning := true } }
    rfl rfl (by decide)).2 (by decide)).1

theorem renderFrame_events (s : Loop) (e : Event) (he : e ∈ renderFrame s) :
    e = .prepareFrame ∨ e = .raytrace ∨ e = .rasterize ∨ e = .drawPost ∨ e = .submitFrame := by
  unfold renderFrame at he
  cases hu : s.useRaytracer <;> simp [hu] at he <;> rcases he with h | h | h | h <;>
    simp [h]

theorem pollBlock_events (s : Loop) (e : Event) (he : e ∈ (pollBlock s).2) :
    e.isPoll = true ∨ e = .printCounter ∨ ∃ c, e = .exit c := by
  revert he
  unfold pollBlock haltWith
  repeat' split
  all_goals simp [Event.isPoll]
  all_goals aesop

theorem computeStateBlock_events (i : FrameInput) (s : Loop) (e : Event)
    (he : e ∈ (computeStateBlock i s).2) :
    e = .prepareComputeShader ∨ e = .executeComputeShaderPipline ∨
      e = .executeComputeShaderPipline_graphicsQueue ∨ e = .printCounter ∨
      ∃ c, e = .exit c := by
  revert he
  unfold computeStateBlock haltWith
  repeat' split
  all_goals simp
  all_goals aesop

theorem computeStateBlock_events_waiting (i : FrameInput) (s : Loop)
    (hh : s.halted = none) (hok : (computeStateBlock i s).1.halted = none)
    (hw : (computeStateBlock i s).1.helloVk.m_waitingComputeShaderFence = true) :
    (computeStateBlock i s).2 = [] ∨
      (computeStateBlock i s).2 = [.prepareComputeShader, .executeComputeShaderPipline] := by
  cases hrun : s.m_runTestComputeShader with
  | true => left; rw [computeStateBlock_of_trigger i s hrun]
  | false =>
    cases hr : s.helloVk.m_isTestComputeShaderRunning with
    | false => left; rw [computeStateBlock_idle i s hrun hr]
    | true =>
      revert hok hw
      unfold computeStateBlock haltWith
      simp only [hrun, hr]
      repeat' split
      all_goals simp_all

/-- C13. No dispatch in the trigger's own iteration. In an iteration that
reaches the compute-state block with `m_runTestComputeShader` true, the
block only sets `m_isTestComputeShaderRunning` and clears the trigger, and
calls nothing; in the whole iteration neither `prepareComputeShader` nor
either dispatch function is called. -/
theorem no_dispatch_in_trigger_iteration (i : FrameInput) (s : Loop)
    (hh : s.halted = none) (hm : i.isMinimized = false)
    (htrig : (atComputeState i s).m_runTestComputeShader = true) :
    computeStateBlock i (atComputeState i s) =
      ({ atComputeState i s with
          helloVk :=
            { (atComputeState i s).helloVk with m_isTestComputeShaderRunning := true }
          m_runTestComputeShader := false }, []) ∧
    Event.prepareComputeShader ∉ (frame i s).2 ∧
    Event.executeComputeShaderPipline ∉ (frame i s).2 ∧
    Event.executeComputeShaderPipline_graphicsQueue ∉ (frame i s).2 := by
  have hblock := computeStateBlock_of_trigger i (atComputeState i s) htrig
  have hh' : s.halted.isSome = false := by simp [hh]
  have hev : ∀ e ∈ (frame i s).2,
      (e = .prepareFrame ∨ e = .raytrace ∨ e = .rasterize ∨ e = .drawPost ∨
        e = .submitFrame) ∨ (e.isPoll = true ∨ e = .printCounter ∨ ∃ c, e = .exit c) := by
    intro e he
    rw [frame_steps i s hh' hm, hblock] at he
    split at he
    · simp only [List.append_nil] at he
      exact Or.inl (renderFrame_events _ e he)
    · simp only [List.append_nil, List.mem_append] at he
      rcases he with he | he
      · exact Or.inl (renderFrame_events _ e he)
      · exact Or.inr (pollBlock_events _ e he)
  refine ⟨by simpa [midTrigger] using hblock, ?_, ?_, ?_⟩ <;>
    intro hmem <;> have := hev _ hmem <;> simp [Event.isPoll] at this

theorem no_dispatch_in_trigger_iteration_witness :
    (atComputeState FrameInput.press Loop.init).m_runTestComputeShader = true ∧
    Event.prepareComputeShader ∉ (frame FrameInput.press Loop.init).2 :=
  ⟨by decide, (no_dispatch_in_trigger_iteration FrameInput.press Loop.init rfl rfl
    (by decide)).2.1⟩

/-- C16. The RUNNING step. With a job in the list, a poll block reached with
`m_waitingComputeShaderFence == true` calls `isComputeShaderExecutionDone`
once; when the answer is `true` (the fence is signaled) it then calls
`printCounter` once and clears the flag, when the answer is `false` it calls
nothing else and the flag stays set. Reached with the flag false, the poll
block calls nothing. In a whole iteration that reaches the poll block with
the flag set there is exactly one poll, and `printCounter` is called once
or not at all according to the answer. -/
theorem running_step (i : FrameInput) (s : Loop) (compData : computeData)
    (rest : List computeData) (b : Buffer) (bs : List Buffer)
    (hjob : (atPollBlock i s).helloVk.m_compDataList = compData :: rest)
    (hbuf : compData.buffers = b :: bs) :
    ((atPollBlock i s).helloVk.m_waitingComputeShaderFence = true →
      (atPollBlock i s).world.dev.fenceSignaled = true →
        (pollBlock (atPollBlock i s)).2 = [.isComputeShaderExecutionDone true, .printCounter] ∧
        (pollBlock (atPollBlock i s)).1.helloVk.m_waitingComputeShaderFence = false) ∧
    ((atPollBlock i s).helloVk.m_waitingComputeShaderFence = true →
      (atPollBlock i s).world.dev.fenceSignaled = false →
        (pollBlock (atPollBlock i s)).2 = [.isComputeShaderExecutionDone false] ∧
        (pollBlock (atPollBlock i s)).1.helloVk.m_waitingComputeShaderFence = true) ∧
    ((atPollBlock i s).helloVk.m_waitingComputeShaderFence = false →
      pollBlock (atPollBlock i s) = (atPollBlock i s, [])) ∧
    (s.halted = none → reachesPollBlock i s = true →
      (atPollBlock i s).helloVk.m_waitingComputeShaderFence = true →
        (frame i s).2.filter Event.isPoll =
          [.isComputeShaderExecutionDone (atPollBlock i s).world.dev.fenceSignaled] ∧
        (frame i s).2.count .printCounter =
          if (atPollBlock i s).world.dev.fenceSignaled then 1 else 0) := by
  refine ⟨?_, ?_, ?_, ?_⟩
  · intro hw hs
    rw [pollBlock_of_signaled _ compData rest b bs hjob hbuf hw hs]
    simp
  · intro hw hs
    rw [pollBlock_of_unsignaled _ compData rest hjob hw hs]
    simp [hw]
  · exact pollBlock_of_not_waiting _
  · intro hh hreach hw
    have hh' : s.halted.isSome = false := by simp [hh]
    have hm : i.isMinimized = false := by
      simp [reachesPollBlock] at hreach
      exact hreach.1.2
    have hok : (afterComputeState i s).halted = none := by
      simp [reachesPollBlock] at hreach
      exact hreach.2
    have hok' : (afterComputeState i s).halted.isSome = false := by simp [hok]
    have hwb : (afterComputeState i s).helloVk.m_waitingComputeShaderFence = true := by
      simpa [atPollBlock, gpuProgress] using hw
    have hhc : (atComputeState i s).halted = none := by
      rw [(atComputeState_facts i s).2.2.2.1, hh]
    have hbev := computeStateBlock_events_waiting i (atComputeState i s) hhc hok hwb
    have hrf : (renderFrame (atComputeState i s)).filter Event.isPoll = [] ∧
        (renderFrame (atComputeState i s)).count .printCounter = 0 := by
      unfold renderFrame
      cases (atComputeState i s).useRaytracer <;> simp [Event.isPoll]
    rw [frame_steps i s hh' hm]
    simp only [hok', Bool.false_eq_true, if_false]
    cases hs : (atPollBlock i s).world.dev.fenceSignaled
    · rw [pollBlock_of_unsignaled _ compData rest hjob hw hs]
      rcases hbev with hb | hb <;>
        simp [hb, hrf.1, hrf.2, List.filter_append, List.count_append, Event.isPoll]
    · rw [pollBlock_of_signaled _ compData rest b bs hjob hbuf hw hs]
      rcases hbev with hb | hb <;>
        simp [hb, hrf.1, hrf.2, List.filter_append, List.count_append, Event.isPoll]

theorem running_step_witness :
    (atPollBlock { FrameInput.idle with retiredBeforePoll := 1 }
      (frame FrameInput.press Loop.init).1).helloVk.m_compDataList = [computeA] ∧
    (frame { FrameInput.idle with retiredBeforePoll := 1 }
        (frame FrameInput.press Loop.init).1).2.filter Event.isPoll =
      [.isComputeShaderExecutionDone true] :=
  ⟨by decide, by
    have h := (running_step { FrameInput.idle with retiredBeforePoll := 1 }
      (frame FrameInput.press Loop.init).1 computeA [] { buffer := 6, data := 7 } []
      (by decide) rfl).2.2.2 (by decide) (by decide) (by decide)
    exact h.1⟩

/-- C18. Presentation does not depend on the compute state. In every
iteration in which the process is alive and the window is not minimized, the
events of the iteration start with the graphics frame (`prepareFrame`, ray
trace or raster pass, post pass) and `submitFrame`, and the events of the
compute-state block and of the poll block come after them; which pass is
drawn depends on the ray tracer checkbox only, not on the three flags nor on
the fence. -/
theorem presentation_independent (i : FrameInput) (s : Loop) (hh : s.halted = none)
    (hm : i.isMinimized = false) :
    (frame i s).2 =
      [ .prepareFrame,
        if (s.useRaytracer != (i.showGui && i.rayTracerClicked)) then .raytrace
        else .rasterize,
        .drawPost, .submitFrame ] ++
      ((computeStateBlock i (atComputeState i s)).2 ++
        if reachesPollBlock i s then (pollBlock (atPollBlock i s)).2 else []) := by
  have hh' : s.halted.isSome = false := by simp [hh]
  have hu : (atComputeState i s).useRaytracer =
      (s.useRaytracer != (i.showGui && i.rayTracerClicked)) := by
    unfold atComputeState renderPanel gpuProgress
    cases i.showGui <;> cases i.colorEdited <;> cases i.rayTracerClicked <;>
      cases i.headerOpen <;> cases i.oneQueue <;> cases i.twoQueues <;>
      cases i.runButton <;> cases s.useRaytracer <;> simp
  rw [frame_steps i s hh' hm]
  cases hok : (afterComputeState i s).halted.isSome <;>
    simp [reachesPollBlock, hh, hm, hok, renderFrame, hu]

theorem presentation_independent_witness :
    Loop.init.halted = none ∧
    (frame FrameInput.idle
        { Loop.init with helloVk := HelloVulkan.inFlight, world := World.inFlight }).2 =
      [.prepareFrame, .raytrace, .drawPost, .submitFrame, .isComputeShaderExecutionDone false] :=
  ⟨rfl, by
    have h := presentation_independent FrameInput.idle
      { Loop.init with helloVk := HelloVulkan.inFlight, world := World.inFlight } rfl rfl
    rw [h]
    decide⟩

/-! ## Trigger, dispatch and poll across iterations -/

theorem computeStateBlock_run_cleared (i : FrameInput) (s : Loop) :
    (computeStateBlock i s).1.m_runTestComputeShader = false := by
  cases hrun : s.m_runTestComputeShader with
  | true => rw [computeStateBlock_of_trigger i s hrun]
  | false => exact (computeStateBlock_dispatch i s hrun).1

theorem frame_run_cleared (i : FrameInput) (s : Loop)
    (hrun : s.m_runTestComputeShader = false) :
    (frame i s).1.m_runTestComputeShader = false := by
  cases hh : s.halted.isSome with
  | true => rw [frame_halted i s hh]; exact hrun
  | false =>
    cases hm : i.isMinimized with
    | true => rw [frame_minimized i s hh hm]; simpa [gpuProgress] using hrun
    | false =>
      rw [frame_steps i s hh hm]
      split
      · exact computeStateBlock_run_cleared i _
      · rw [(pollBlock_flags _).2.1]
        simpa [atPollBlock, gpuProgress, afterComputeState] using
          computeStateBlock_run_cleared i (atComputeState i s)

/-- C12, as the code has it. For every sequence of UI inputs, from a state
with the trigger flag clear, `m_runTestComputeShader` is false when an
iteration starts, when its compute-state block has run, and when it ends, so
the trigger and running flags are not both true at these points. When the
compute-state block is reached in an iteration they are both true exactly if
the iteration started with `m_isTestComputeShaderRunning` set and the button
was pressed in it. -/
theorem trigger_running_exclusive_at_boundaries (inputs : List FrameInput) (s0 : Loop)
    (hrun : s0.m_runTestComputeShader = false) :
    ∀ it ∈ iterations inputs s0,
      it.start.m_runTestComputeShader = false ∧
      (afterComputeState it.input it.start).m_runTestComputeShader = false ∧
      (frame it.input it.start).1.m_runTestComputeShader = false ∧
      (it.input.isMinimized = false →
        (((atComputeState it.input it.start).m_runTestComputeShader = true ∧
            (atComputeState it.input it.start).helloVk.m_isTestComputeShaderRunning = true) ↔
          (it.start.helloVk.m_isTestComputeShaderRunning = true ∧
            it.input.triggers = true))) := by
  induction inputs generalizing s0 with
  | nil => intro it hit; simp [iterations] at hit
  | cons i rest ih =>
    intro it hit
    simp only [iterations, List.mem_cons] at hit
    rcases hit with rfl | hit
    · refine ⟨hrun, computeStateBlock_run_cleared _ _, frame_run_cleared _ _ hrun, ?_⟩
      intro hm
      have hf := atComputeState_facts i s0
      simp only [] at hm ⊢
      rw [hf.1, hf.2.2.2.2.2, hrun]
      simp [FrameInput.triggers, hm, and_comm]
    · exact ih (frame i s0).1 (frame_run_cleared i s0 hrun) it hit

theorem trigger_running_exclusive_at_boundaries_witness :
    Loop.init.m_runTestComputeShader = false ∧
    ∀ it ∈ iterations [FrameInput.press, FrameInput.press, FrameInput.idle] Loop.init,
      it.start.m_runTestComputeShader = false ∧
      (afterComputeState it.input it.start).m_runTestComputeShader = false ∧
      (frame it.input it.start).1.m_runTestComputeShader = false ∧
      (it.input.isMinimized = false →
        (((atComputeState it.input it.start).m_runTestComputeShader = true ∧
            (atComputeState it.input it.start).helloVk.m_isTestComputeShaderRunning = true) ↔
          (it.start.helloVk.m_isTestComputeShaderRunning = true ∧
            it.input.triggers = true))) :=
  ⟨rfl, trigger_running_exclusive_at_boundaries
    [FrameInput.press, FrameInput.press, FrameInput.idle] Loop.init rfl⟩

/-- C12, counterexample. One press of the button: in that iteration, between
the two assignments of the trigger branch (`main.cpp:412` and `:413`), the
trigger flag and the running flag are both true. Two presses in consecutive
iterations: the second iteration reaches its compute-state block with both
flags true, and they have been so during the whole graphics part of that
iteration. -/
theorem trigger_and_running_both_true :
    ((midTrigger (atComputeState FrameInput.press Loop.init)).m_runTestComputeShader = true ∧
      (midTrigger (atComputeState FrameInput.press
        Loop.init)).helloVk.m_isTestComputeShaderRunning = true ∧
      computeStateBlock FrameInput.press (atComputeState FrameInput.press Loop.init) =
        ({ midTrigger (atComputeState FrameInput.press Loop.init) with
            m_runTestComputeShader := false }, [])) ∧
    ((atComputeState FrameInput.press
        (frame FrameInput.press Loop.init).1).m_runTestComputeShader = true ∧
      (atComputeState FrameInput.press
        (frame FrameInput.press Loop.init).1).helloVk.m_isTestComputeShaderRunning = true) := by
  decide

theorem pollBlock_job_facts (s : Loop) (compData : computeData) (rest : List computeData)
    (b : Buffer) (bs : List Buffer) (hjob : s.helloVk.m_compDataList = compData :: rest)
    (hbuf : compData.buffers = b :: bs) :
    (pollBlock s).1.halted = s.halted ∧
    (pollBlock s).1.helloVk.m_compDataList = s.helloVk.m_compDataList ∧
    (pollBlock s).1.m_numberOfUsedQueues = s.m_numberOfUsedQueues := by
  cases hw : s.helloVk.m_waitingComputeShaderFence with
  | false => rw [pollBlock_of_not_waiting s hw]; simp
  | true =>
    cases hs : s.world.dev.fenceSignaled with
    | false => rw [pollBlock_of_unsignaled s compData rest hjob hw hs]; simp
    | true => rw [pollBlock_of_signaled s compData rest b bs hjob hbuf hw hs]; simp

theorem frame_of_trigger (i : FrameInput) (s : Loop) (compData : computeData)
    (rest : List computeData) (b : Buffer) (bs : List Buffer)
    (hjob : s.helloVk.m_compDataList = compData :: rest) (hbuf : compData.buffers = b :: bs)
    (hh : s.halted = none) (hm : i.isMinimized = false)
    (htrig : (atComputeState i s).m_runTestComputeShader = true) :
    (frame i s).1.halted = none ∧
    (frame i s).1.m_runTestComputeShader = false ∧
    (frame i s).1.helloVk.m_isTestComputeShaderRunning = true ∧
    (frame i s).1.helloVk.m_compDataList = compData :: rest := by
  have hh' : s.halted.isSome = false := by simp [hh]
  have hf := atComputeState_facts i s
  have hblock := computeStateBlock_of_trigger i (atComputeState i s) htrig
  have hafter : afterComputeState i s =
      { midTrigger (atComputeState i s) with m_runTestComputeShader := false } := by
    unfold afterComputeState
    rw [hblock]
  have hok : (afterComputeState i s).halted = none := by
    rw [hafter]
    simp [midTrigger, hf.2.2.2.1, hh]
  have hjob' : (atPollBlock i s).helloVk.m_compDataList = compData :: rest := by
    unfold atPollBlock
    rw [hafter]
    simp [gpuProgress, midTrigger, hf.2.2.1, hjob]
  have hpoll := pollBlock_job_facts (atPollBlock i s) compData rest b bs hjob' hbuf
  have hflags := pollBlock_flags (atPollBlock i s)
  rw [frame_steps i s hh' hm]
  simp only [hok, Option.isSome_none, Bool.false_eq_true, if_false]
  refine ⟨?_, ?_, ?_, ?_⟩
  · rw [hpoll.1]
    simpa [atPollBlock, gpuProgress] using hok
  · rw [hflags.2.1]
    simp [atPollBlock, gpuProgress, hafter]
  · rw [hflags.1]
    simp [atPollBlock, gpuProgress, hafter, midTrigger]
  · rw [hpoll.2.1, hjob']

theorem runLoop_minimized (skipped : List FrameInput) (s : Loop)
    (hskip : ∀ i ∈ skipped, i.isMinimized = true) :
    (runLoop skipped s).halted = s.halted ∧
    (runLoop skipped s).m_runTestComputeShader = s.m_runTestComputeShader ∧
    (runLoop skipped s).helloVk = s.helloVk ∧
    (runLoop skipped s).m_numberOfUsedQueues = s.m_numberOfUsedQueues := by
  induction skipped generalizing s with
  | nil => simp [runLoop]
  | cons i rest ih =>
    have hm : i.isMinimized = true := hskip i (List.mem_cons_self _ _)
    have hrest := ih (frame i s).1 (fun j hj => hskip j (List.mem_cons_of_mem _ hj))
    have hstep : (frame i s).1.halted = s.halted ∧
        (frame i s).1.m_runTestComputeShader = s.m_runTestComputeShader ∧
        (frame i s).1.helloVk = s.helloVk ∧
        (frame i s).1.m_numberOfUsedQueues = s.m_numberOfUsedQueues := by
      cases hh : s.halted.isSome with
      | true => rw [frame_halted i s hh]; simp
      | false => rw [frame_minimized i s hh hm]; simp [gpuProgress]
    simp only [runLoop]
    rw [hrest.1, hrest.2.1, hrest.2.2.1, hrest.2.2.2]
    exact hstep

theorem frame_dispatch_events (i : FrameInput) (s : Loop) (compData : computeData)
    (rest : List computeData) (b : Buffer) (bs : List Buffer)
    (hjob : s.helloVk.m_compDataList = compData :: rest) (hbuf : compData.buffers = b :: bs)
    (hh : s.halted = none) (hm : i.isMinimized = false)
    (hrun : s.m_runTestComputeShader = false)
    (hr : s.helloVk.m_isTestComputeShaderRunning = true) (hno : i.triggers = false) :
    ∃ post, (frame i s).2 =
      renderFrame (atComputeState i s) ++
        [ .prepareComputeShader,
          if (atComputeState i s).m_numberOfUsedQueues = 2 then .executeComputeShaderPipline
          else .executeComputeShaderPipline_graphicsQueue ] ++ post := by
  have hh' : s.halted.isSome = false := by simp [hh]
  have hf := atComputeState_facts i s
  have hrun1 : (atComputeState i s).m_runTestComputeShader = false := by
    have := panel_run i s hm hrun
    rw [hno] at this
    exact this
  have hr1 : (atComputeState i s).helloVk.m_isTestComputeShaderRunning = true := by
    rw [hf.1, hr]
  have hjob1 : (atComputeState i s).helloVk.m_compDataList = compData :: rest := by
    rw [hf.2.2.1, hjob]
  rw [frame_steps i s hh' hm]
  by_cases hq : (atComputeState i s).m_numberOfUsedQueues = 2
  · have hb := computeStateBlock_dispatch_two i (atComputeState i s) compData rest b bs hjob1
      hbuf hrun1 hr1 hq
    rcases hb.2.2.2.2 with hc | hc
    · rw [hc.2.2.2.2.2]
      split
      · exact ⟨[], by simp [hq]⟩
      · exact ⟨(pollBlock (atPollBlock i s)).2, by simp [hq]⟩
    · rw [hc.2.2.2.2]
      split
      · exact ⟨[.exit 1], by simp [hq]⟩
      · exact ⟨.exit 1 :: (pollBlock (atPollBlock i s)).2, by simp [hq]⟩
  · have hb := computeStateBlock_dispatch_one i (atComputeState i s) compData rest b bs hjob1
      hbuf hrun1 hr1 hq
    rcases hb.2.2.2.2.2 with hc | hc | hc
    · rw [hc.2.2.2]
      split
      · exact ⟨[.printCounter], by simp [hq]⟩
      · exact ⟨.printCounter :: (pollBlock (atPollBlock i s)).2, by simp [hq]⟩
    · rw [hc.2.2]
      split
      · exact ⟨[.exit 1], by simp [hq]⟩
      · exact ⟨.exit 1 :: (pollBlock (atPollBlock i s)).2, by simp [hq]⟩
    · rw [hc.2.2.2]
      split
      · exact ⟨[.exit (-1)], by simp [hq]⟩
      · exact ⟨.exit (-1) :: (pollBlock (atPollBlock i s)).2, by simp [hq]⟩

/-- C14, as the code has it. Let an iteration observe a trigger (it reaches
the compute-state block with `m_runTestComputeShader` true). Skip any
iterations in which the window is minimized. In the next iteration that is
not minimized, provided the button is not pressed again in it, the
orchestrator calls `prepareComputeShader` and then the dispatch function of
the queue mode current at that moment: `executeComputeShaderPipline` when
`m_numberOfUsedQueues == 2`, `executeComputeShaderPipline_graphicsQueue`
otherwise. -/
theorem dispatch_after_trigger (i1 : FrameInput) (skipped : List FrameInput)
    (i2 : FrameInput) (s : Loop) (compData : computeData) (rest : List computeData)
    (b : Buffer) (bs : List Buffer)
    (hjob : s.helloVk.m_compDataList = compData :: rest) (hbuf : compData.buffers = b :: bs)
    (hh : s.halted = none) (hm1 : i1.isMinimized = false)
    (htrig : (atComputeState i1 s).m_runTestComputeShader = true)
    (hskip : ∀ i ∈ skipped, i.isMinimized = true)
    (hm2 : i2.isMinimized = false) (hno : i2.triggers = false) :
    ∃ post, (frame i2 (runLoop skipped (frame i1 s).1)).2 =
      renderFrame (atComputeState i2 (runLoop skipped (frame i1 s).1)) ++
        [ .prepareComputeShader,
          if (atComputeState i2 (runLoop skipped (frame i1 s).1)).m_numberOfUsedQueues = 2
          then .executeComputeShaderPipline
          else .executeComputeShaderPipline_graphicsQueue ] ++ post := by
  have h1 := frame_of_trigger i1 s compData rest b bs hjob hbuf hh hm1 htrig
  have h2 := runLoop_minimized skipped (frame i1 s).1 hskip
  apply frame_dispatch_events i2 _ compData rest b bs _ hbuf _ hm2 _ _ hno
  · rw [h2.2.2.1, h1.2.2.2]
  · rw [h2.1, h1.1]
  · rw [h2.2.1, h1.2.1]
  · rw [h2.2.2.1, h1.2.2.1]

theorem dispatch_after_trigger_witness :
    (atComputeState FrameInput.press Loop.init).m_runTestComputeShader = true ∧
    ∃ post, (frame { FrameInput.idle with oneQueue := true }
        (runLoop [{ FrameInput.idle with isMinimized := true }]
          (frame FrameInput.press Loop.init).1)).2 =
      renderFrame (atComputeState { FrameInput.idle with oneQueue := true }
          (runLoop [{ FrameInput.idle with isMinimized := true }]
            (frame FrameInput.press Loop.init).1)) ++
        [ .prepareComputeShader,
          if (atComputeState { FrameInput.idle with oneQueue := true }
              (runLoop [{ FrameInput.idle with isMinimized := true }]
                (frame FrameInput.press Loop.init).1)).m_numberOfUsedQueues = 2
          then .executeComputeShaderPipline
          else .executeComputeShaderPipline_graphicsQueue ] ++ post :=
  ⟨by decide, dispatch_after_trigger FrameInput.press
    [{ FrameInput.idle with isMinimized := true }] { FrameInput.idle with oneQueue := true }
    Loop.init computeA [] { buffer := 6, data := 7 } [] rfl rfl rfl rfl (by decide)
    (by decide) rfl (by decide)⟩

/-- C14, counterexample. After a trigger, an iteration in which the window
is minimized calls nothing at all, and an iteration in which the button is
pressed again takes the trigger branch once more: in neither is
`prepareComputeShader` or a dispatch function called, although it is the
iteration immediately following the trigger. -/
theorem no_dispatch_right_after_trigger :
    (atComputeState FrameInput.press Loop.init).m_runTestComputeShader = true ∧
    (frame { FrameInput.idle with isMinimized := true }
      (frame FrameInput.press Loop.init).1).2 = [] ∧
    (frame FrameInput.press (frame FrameInput.press Loop.init).1).2 =
      [.prepareFrame, .raytrace, .drawPost, .submitFrame] := by
  decide

/-- C15, as the code has it. In the iteration in which the dispatch branch
submits a dedicated-queue dispatch (two-queue mode, `begin` and `end`
succeed), `isComputeShaderExecutionDone` is called once in that same
iteration, after the submission and not before it; when the fence is already
signaled at that moment the result is consumed by `printCounter` in that same
iteration, otherwise nothing more is called and the later polls belong to
later iterations. -/
theorem poll_in_dispatch_iteration (i : FrameInput) (s : Loop) (compData : computeData)
    (rest : List computeData) (b : Buffer) (bs : List Buffer)
    (hjob : s.helloVk.m_compDataList = compData :: rest) (hbuf : compData.buffers = b :: bs)
    (hh : s.halted = none) (hm : i.isMinimized = false)
    (hrun : s.m_runTestComputeShader = false)
    (hr : s.helloVk.m_isTestComputeShaderRunning = true) (hno : i.triggers = false)
    (hq : (atComputeState i s).m_numberOfUsedQueues = 2)
    (hb : i.vk.beginResult = .VK_SUCCESS) (he : i.vk.endResult = .VK_SUCCESS) :
    (frame i s).2 =
      renderFrame (atComputeState i s) ++
        [ .prepareComputeShader, .executeComputeShaderPipline,
          .isComputeShaderExecutionDone (atPollBlock i s).world.dev.fenceSignaled ] ++
        (if (atPollBlock i s).world.dev.fenceSignaled then [.printCounter] else []) := by
  have hh' : s.halted.isSome = false := by simp [hh]
  have hf := atComputeState_facts i s
  have hrun1 : (atComputeState i s).m_runTestComputeShader = false := by
    have := panel_run i s hm hrun
    rw [hno] at this
    exact this
  have hr1 : (atComputeState i s).helloVk.m_isTestComputeShaderRunning = true := by
    rw [hf.1, hr]
  have hjob1 : (atComputeState i s).helloVk.m_compDataList = compData :: rest := by
    rw [hf.2.2.1, hjob]
  have hblock := computeStateBlock_dispatch_two i (atComputeState i s) compData rest b bs
    hjob1 hbuf hrun1 hr1 hq
  rcases hblock.2.2.2.2 with hc | hc
  · have hok : (afterComputeState i s).halted = none := by
      unfold afterComputeState
      rw [hc.2.2.1, hf.2.2.2.1, hh]
    have hw : (atPollBlock i s).helloVk.m_waitingComputeShaderFence = true := by
      simpa [atPollBlock, gpuProgress, afterComputeState] using hc.2.2.2.1
    have hjob2 : (atPollBlock i s).helloVk.m_compDataList = compData :: rest := by
      have := hblock.2.2.1
      simp only [atPollBlock, gpuProgress, afterComputeState]
      rw [this, hjob1]
    rw [frame_steps i s hh' hm]
    simp only [hok, Option.isSome_none, Bool.false_eq_true, if_false]
    rw [hc.2.2.2.2.2]
    cases hs : (atPollBlock i s).world.dev.fenceSignaled
    · rw [pollBlock_of_unsignaled _ compData rest hjob2 hw hs]
      simp
    · rw [pollBlock_of_signaled _ compData rest b bs hjob2 hbuf hw hs]
      simp
  · rcases hc.1 with h | h
    · exact absurd hb h
    · exact absurd he h

theorem poll_in_dispatch_iteration_witness :
    (frame FrameInput.press Loop.init).1.helloVk.m_isTestComputeShaderRunning = true ∧
    (frame FrameInput.idle (frame FrameInput.press Loop.init).1).2 =
      renderFrame (atComputeState FrameInput.idle (frame FrameInput.press Loop.init).1) ++
        [ .prepareComputeShader, .executeComputeShaderPipline,
          .isComputeShaderExecutionDone
            (atPollBlock FrameInput.idle
              (frame FrameInput.press Loop.init).1).world.dev.fenceSignaled ] ++
        (if (atPollBlock FrameInput.idle
              (frame FrameInput.press Loop.init).1).world.dev.fenceSignaled
          then [.printCounter] else []) :=
  ⟨by decide, poll_in_dispatch_iteration FrameInput.idle (frame FrameInput.press Loop.init).1
    computeA [] { buffer := 6, data := 7 } [] (by decide) rfl (by decide) rfl (by decide)
    (by decide) rfl (by decide) rfl rfl⟩

/-- C15, counterexample. The button is pressed; the next iteration submits
the dedicated-queue dispatch and polls in the same iteration. When the GPU
has not finished, that poll answers `false`; when the GPU finishes between
the submission and the poll, the poll answers `true` and the result is
consumed by `printCounter`, all in the iteration that submitted. -/
theorem submit_and_poll_in_one_iteration :
    (frame FrameInput.idle (frame FrameInput.press Loop.init).1).2 =
      [ .prepareFrame, .raytrace, .drawPost, .submitFrame, .prepareComputeShader,
        .executeComputeShaderPipline, .isComputeShaderExecutionDone false ] ∧
    (frame { FrameInput.idle with retiredBeforePoll := 1 }
        (frame FrameInput.press Loop.init).1).2 =
      [ .prepareFrame, .raytrace, .drawPost, .submitFrame, .prepareComputeShader,
        .executeComputeShaderPipline, .isComputeShaderExecutionDone true, .printCounter ] := by
  decide

/-- C20, the failing input. The button is pressed and in the next iteration
the device rejects the submission of the dedicated-queue dispatch with
`VK_ERROR_DEVICE_LOST`. `submitComputeCommand` does not look at the result:
`executeComputeShaderPipline` returns normally, the loop does not exit and
sets `m_waitingComputeShaderFence`, and it goes on polling a fence on which
nothing is pending. -/
theorem rejected_submission_goes_unnoticed :
    (HelloVulkan.atLoopEntry.executeComputeShaderPipline 9
        { Responses.ok with queueSubmitResult := .VK_ERROR_DEVICE_LOST } World.init).2 =
      .returned ∧
    (frame { FrameInput.idle with
          vk := { Responses.ok with queueSubmitResult := .VK_ERROR_DEVICE_LOST } }
        (frame FrameInput.press Loop.init).1).2 =
      [ .prepareFrame, .raytrace, .drawPost, .submitFrame, .prepareComputeShader,
        .executeComputeShaderPipline, .isComputeShaderExecutionDone false ] ∧
    (frame { FrameInput.idle with
          vk := { Responses.ok with queueSubmitResult := .VK_ERROR_DEVICE_LOST } }
        (frame FrameInput.press Loop.init).1).1.helloVk.m_waitingComputeShaderFence = true ∧
    (frame { FrameInput.idle with
          vk := { Responses.ok with queueSubmitResult := .VK_ERROR_DEVICE_LOST } }
        (frame FrameInput.press Loop.init).1).1.halted = none ∧
    (frame { FrameInput.idle with
          vk := { Responses.ok with queueSubmitResult := .VK_ERROR_DEVICE_LOST } }
        (frame FrameInput.press Loop.init).1).1.world.dev =
      { fenceSignaled := false, pending := 0 } ∧
    (frame { FrameInput.idle with
          vk := { Responses.ok with beginResult := .VK_ERROR_DEVICE_LOST } }
        (frame FrameInput.press Loop.init).1).1.halted = some (.exited 1) := by
  decide

/-! ## The one-job protocol -/

theorem retire_atMostOne (d : Device) (h : d.atMostOne) : d.retire.atMostOne := by
  unfold Device.atMostOne Device.retire at *
  cases hp : d.pending with
  | zero => simpa [hp] using h
  | succ n =>
    cases hs : d.fenceSignaled with
    | false => simp [hp, hs] at h ⊢; omega
    | true => simp [hp, hs] at h

theorem retireN_atMostOne (k : Nat) (d : Device) (h : d.atMostOne) :
    (d.retireN k).atMostOne := by
  induction k generalizing d with
  | zero => exact h
  | succ k ih => exact ih d.retire (retire_atMostOne d h)

theorem retireN_idle (k : Nat) (d : Device) (h : d.idle) : d.retireN k = d :=
  retireN_of_pending_zero k d h.1

theorem fenceAccounted_gpuProgress (k : Nat) (s : Loop) (h : fenceAccounted s) :
    fenceAccounted (gpuProgress k s) := by
  refine ⟨?_, ?_⟩
  · simpa [gpuProgress] using retireN_atMostOne k _ h.1
  · intro hw
    have hidle := h.2 (by simpa [gpuProgress] using hw)
    simpa [gpuProgress, retireN_idle k _ hidle] using hidle

theorem fenceAccounted_atComputeState (i : FrameInput) (s : Loop) (h : fenceAccounted s) :
    fenceAccounted (atComputeState i s) := by
  have hf := atComputeState_facts i s
  have hg := fenceAccounted_gpuProgress i.retiredBeforeDispatch s h
  refine ⟨?_, ?_⟩
  · rw [hf.2.2.2.2.1]
    simpa [gpuProgress] using hg.1
  · intro hw
    rw [hf.2.1] at hw
    rw [hf.2.2.2.2.1]
    simpa [gpuProgress] using hg.2 (by simpa [gpuProgress] using hw)

theorem computeStateBlock_job (i : FrameInput) (s : Loop) :
    (computeStateBlock i s).1.helloVk.m_compDataList = s.helloVk.m_compDataList := by
  cases hrun : s.m_runTestComputeShader with
  | true => rw [computeStateBlock_of_trigger i s hrun]; simp [midTrigger]
  | false =>
    cases hr : s.helloVk.m_isTestComputeShaderRunning with
    | false => rw [computeStateBlock_idle i s hrun hr]
    | true =>
      unfold computeStateBlock haltWith
      simp only [hrun, hr]
      repeat' split
      all_goals simp_all

theorem pollBlock_job (s : Loop) :
    (pollBlock s).1.helloVk.m_compDataList = s.helloVk.m_compDataList := by
  unfold pollBlock haltWith
  repeat' split
  all_goals simp_all

theorem frame_job (i : FrameInput) (s : Loop) :
    (frame i s).1.helloVk.m_compDataList = s.helloVk.m_compDataList := by
  cases hh : s.halted.isSome with
  | true => rw [frame_halted i s hh]
  | false =>
    cases hm : i.isMinimized with
    | true => rw [frame_minimized i s hh hm]; simp [gpuProgress]
    | false =>
      have h1 : (afterComputeState i s).helloVk.m_compDataList = s.helloVk.m_compDataList := by
        unfold afterComputeState
        rw [computeStateBlock_job, (atComputeState_facts i s).2.2.1]
      rw [frame_steps i s hh hm]
      split
      · exact h1
      · rw [pollBlock_job]
        simpa [atPollBlock, gpuProgress] using h1

theorem fenceAccounted_pollBlock (s : Loop) (compData : computeData)
    (rest : List computeData) (b : Buffer) (bs : List Buffer)
    (hjob : s.helloVk.m_compDataList = compData :: rest) (hbuf : compData.buffers = b :: bs)
    (h : fenceAccounted s) : fenceAccounted (pollBlock s).1 := by
  cases hw : s.helloVk.m_waitingComputeShaderFence with
  | false => rw [pollBlock_of_not_waiting s hw]; exact h
  | true =>
    cases hs : s.world.dev.fenceSignaled with
    | false =>
      rw [pollBlock_of_unsignaled s compData rest hjob hw hs]
      refine ⟨h.1, ?_⟩
      intro hc
      simp [hw] at hc
    | true =>
      rw [pollBlock_of_signaled s compData rest b bs hjob hbuf hw hs]
      have hp : s.world.dev.pending = 0 := by
        have := h.1
        unfold Device.atMostOne at this
        simp [hs] at this
        exact this
      refine ⟨?_, ?_⟩
      · simp [Device.atMostOne, Device.vkResetFences, hp]
      · intro _
        simp [Device.idle, Device.vkResetFences, hp]

theorem fenceAccounted_computeStateBlock (i : FrameInput) (s : Loop) (compData : computeData)
    (rest : List computeData) (b : Buffer) (bs : List Buffer)
    (hjob : s.helloVk.m_compDataList = compData :: rest) (hbuf : compData.buffers = b :: bs)
    (hex : ¬(s.helloVk.m_isTestComputeShaderRunning = true ∧
      s.helloVk.m_waitingComputeShaderFence = true))
    (h : fenceAccounted s) : fenceAccounted (computeStateBlock i s).1 := by
  cases hrun : s.m_runTestComputeShader with
  | true =>
    rw [computeStateBlock_of_trigger i s hrun]
    exact h
  | false =>
    cases hr : s.helloVk.m_isTestComputeShaderRunning with
    | false => rw [computeStateBlock_idle i s hrun hr]; exact h
    | true =>
      have hw : s.helloVk.m_waitingComputeShaderFence = false := by
        cases hw : s.helloVk.m_waitingComputeShaderFence with
        | false => rfl
        | true => exact absurd ⟨hr, hw⟩ hex
      have hidle := h.2 hw
      by_cases hq : s.m_numberOfUsedQueues = 2
      · have hb := computeStateBlock_dispatch_two i s compData rest b bs hjob hbuf hrun hr hq
        rcases hb.2.2.2.2 with hc | hc
        · refine ⟨?_, ?_⟩
          · rw [hc.2.2.2.2.1]
            unfold Device.vkQueueSubmit Device.atMostOne
            split
            · simp [hidle.1, hidle.2]
            · simp [hidle.1, hidle.2]
          · intro hcw
            rw [hc.2.2.2.1] at hcw
            cases hcw
        · refine ⟨?_, ?_⟩
          · rw [hc.2.2.2.1]; exact h.1
          · intro _
            rw [hc.2.2.2.1]; exact hidle
      · have hb := computeStateBlock_dispatch_one i s compData rest b bs hjob hbuf hrun hr hq
        refine ⟨?_, ?_⟩
        · rw [hb.2.2.2.2.1]; exact h.1
        · intro _
          rw [hb.2.2.2.2.1]; exact hidle

theorem frame_fenceAccounted (i : FrameInput) (s : Loop) (compData : computeData)
    (rest : List computeData) (b : Buffer) (bs : List Buffer)
    (hjob : s.helloVk.m_compDataList = compData :: rest) (hbuf : compData.buffers = b :: bs)
    (hex : ¬(s.helloVk.m_isTestComputeShaderRunning = true ∧
      s.helloVk.m_waitingComputeShaderFence = true))
    (h : fenceAccounted s) : fenceAccounted (frame i s).1 := by
  cases hh : s.halted.isSome with
  | true => rw [frame_halted i s hh]; exact h
  | false =>
    cases hm : i.isMinimized with
    | true =>
      rw [frame_minimized i s hh hm]
      exact fenceAccounted_gpuProgress _ _ (fenceAccounted_gpuProgress _ _ h)
    | false =>
      have hf := atComputeState_facts i s
      have hjob1 : (atComputeState i s).helloVk.m_compDataList = compData :: rest := by
        rw [hf.2.2.1, hjob]
      have hex1 : ¬((atComputeState i s).helloVk.m_isTestComputeShaderRunning = true ∧
          (atComputeState i s).helloVk.m_waitingComputeShaderFence = true) := by
        rw [hf.1, hf.2.1]; exact hex
      have h2 : fenceAccounted (afterComputeState i s) :=
        fenceAccounted_computeStateBlock i _ compData rest b bs hjob1 hbuf hex1
          (fenceAccounted_atComputeState i s h)
      rw [frame_steps i s hh hm]
      split
      · exact h2
      · apply fenceAccounted_pollBlock _ compData rest b bs _ hbuf
          (fenceAccounted_gpuProgress _ _ h2)
        simp only [atPollBlock, gpuProgress, afterComputeState]
        rw [computeStateBlock_job, hjob1]

theorem frame_events_while_waiting (i : FrameInput) (s : Loop)
    (hinv : flagsExclusive s) (hw : s.helloVk.m_waitingComputeShaderFence = true)
    (ht : i.triggers = false) (e : Event) (he : e ∈ (frame i s).2) :
    (e = .prepareFrame ∨ e = .raytrace ∨ e = .rasterize ∨ e = .drawPost ∨
      e = .submitFrame) ∨ (e.isPoll = true ∨ e = .printCounter ∨ ∃ c, e = .exit c) := by
  cases hh : s.halted.isSome with
  | true => rw [frame_halted i s hh] at he; simp at he
  | false =>
    cases hm : i.isMinimized with
    | true => rw [frame_minimized i s hh hm] at he; simp at he
    | false =>
      have hf := atComputeState_facts i s
      have hrun1 := panel_run i s hm hinv.1
      rw [ht] at hrun1
      have hr : s.helloVk.m_isTestComputeShaderRunning = false := by
        cases hr : s.helloVk.m_isTestComputeShaderRunning with
        | false => rfl
        | true => exact absurd ⟨hr, hw⟩ hinv.2
      have hr1 : (atComputeState i s).helloVk.m_isTestComputeShaderRunning = false := by
        rw [hf.1, hr]
      have hblock := computeStateBlock_idle i (atComputeState i s) hrun1 hr1
      rw [frame_steps i s hh hm, hblock] at he
      split at he
      · simp only [List.append_nil] at he
        exact Or.inl (renderFrame_events _ e he)
      · simp only [List.append_nil, List.mem_append] at he
        rcases he with he | he
        · exact Or.inl (renderFrame_events _ e he)
        · exact Or.inr (pollBlock_events _ e he)

/-- C19, as the code has it. Take any run of the loop, with a job in the
list, that starts with the one-job invariant (flags exclusive, nothing
outstanding on the fence unless the waiting flag is set), with any device
answers and GPU timing, in which the "Run Compute Shader" button is not
pressed during an iteration that starts with
`m_waitingComputeShaderFence == true`. Then `prepareComputeShader` is only
executed in iterations that start with the waiting flag clear and with
nothing outstanding on the job fence: no submission pending and no signal
unobserved, also at the moment the compute-state block is reached. -/
theorem prepare_only_when_idle (inputs : List FrameInput) (s0 : Loop)
    (compData : computeData) (rest : List computeData) (b : Buffer) (bs : List Buffer)
    (hjob : s0.helloVk.m_compDataList = compData :: rest) (hbuf : compData.buffers = b :: bs)
    (hinv : oneInFlight s0)
    (hpress : ∀ it ∈ iterations inputs s0,
      it.start.helloVk.m_waitingComputeShaderFence = true → it.input.triggers = false) :
    ∀ it ∈ iterations inputs s0, Event.prepareComputeShader ∈ it.events →
      it.start.helloVk.m_waitingComputeShaderFence = false ∧
      it.start.world.dev.idle ∧
      (atComputeState it.input it.start).world.dev.idle := by
  induction inputs generalizing s0 with
  | nil => intro it hit; simp [iterations] at hit
  | cons i tl ih =>
    intro it hit hprep
    simp only [iterations, List.mem_cons] at hit hpress
    have hhead := hpress { start := s0, input := i, events := (frame i s0).2 } (Or.inl rfl)
    rcases hit with rfl | hit
    · have hw : s0.helloVk.m_waitingComputeShaderFence = false := by
        cases hw : s0.helloVk.m_waitingComputeShaderFence with
        | false => rfl
        | true =>
          have := frame_events_while_waiting i s0 hinv.1 hw (hhead hw) _ hprep
          simp [Event.isPoll] at this
      have hidle := hinv.2.2 hw
      refine ⟨hw, hidle, ?_⟩
      simp only []
      rw [(atComputeState_facts i s0).2.2.2.2.1, retireN_idle _ _ hidle]
      exact hidle
    · exact ih (frame i s0).1 (by rw [frame_job, hjob])
        ⟨frame_flagsExclusive i s0 hinv.1 hhead,
          frame_fenceAccounted i s0 compData rest b bs hjob hbuf hinv.1.2 hinv.2⟩
        (fun it' hit' => hpress it' (Or.inr hit')) it hit hprep

theorem prepare_only_when_idle_witness :
    oneInFlight Loop.init ∧
    (∀ it ∈ iterations
        [ FrameInput.press, FrameInput.idle, FrameInput.idle,
          { FrameInput.idle with retiredBeforeDispatch := 1 }, FrameInput.press,
          FrameInput.idle ] Loop.init,
      it.start.helloVk.m_waitingComputeShaderFence = true → it.input.triggers = false) ∧
    (∀ it ∈ iterations
        [ FrameInput.press, FrameInput.idle, FrameInput.idle,
          { FrameInput.idle with retiredBeforeDispatch := 1 }, FrameInput.press,
          FrameInput.idle ] Loop.init,
      Event.prepareComputeShader ∈ it.events →
        it.start.helloVk.m_waitingComputeShaderFence = false ∧
        it.start.world.dev.idle ∧
        (atComputeState it.input it.start).world.dev.idle) :=
  ⟨by decide, by decide,
    prepare_only_when_idle
      [ FrameInput.press, FrameInput.idle, FrameInput.idle,
        { FrameInput.idle with retiredBeforeDispatch := 1 }, FrameInput.press,
        FrameInput.idle ] Loop.init computeA [] { buffer := 6, data := 7 } [] rfl rfl
      (by decide) (by decide)⟩

/-- C19, counterexample. The button is pressed, the job is dispatched on the
dedicated queue, the button is pressed again while the GPU is still running
the job, and the fourth iteration executes `prepareComputeShader`, which
overwrites the mapped counter, while that submission is pending and its
fence has never been seen signaled. -/
theorem prepare_while_dispatch_outstanding :
    ∃ it ∈ iterations
        [FrameInput.press, FrameInput.idle, FrameInput.press, FrameInput.idle] Loop.init,
      Event.prepareComputeShader ∈ it.events ∧
      (atComputeState it.input it.start).world.dev = { fenceSignaled := false, pending := 1 } ∧
      submittedCount it.start.world.calls = 1 ∧
      reportedCount it.start.world.calls = 0 := by
  decide

/-! ## End to end: one trigger -/

theorem iterations_append (a b : List FrameInput) (s : Loop) :
    iterations (a ++ b) s = iterations a s ++ iterations b (runLoop a s) := by
  induction a generalizing s with
  | nil => rfl
  | cons i rest ih => simp [iterations, runLoop, ih]

theorem runLoop_append (a b : List FrameInput) (s : Loop) :
    runLoop (a ++ b) s = runLoop b (runLoop a s) := by
  induction a generalizing s with
  | nil => rfl
  | cons i rest ih => simp [runLoop, ih]

theorem counts_of_quiet (its : List Iteration) (hq : ∀ it ∈ its, it.quiet) :
    pollTrueCount its = 0 ∧ printCounterCount its = 0 := by
  induction its with
  | nil => simp [pollTrueCount, printCounterCount]
  | cons it rest ih =>
    have h1 := hq it (List.mem_cons_self _ _)
    have h2 := ih (fun a ha => hq a (List.mem_cons_of_mem _ ha))
    unfold pollTrueCount printCounterCount at *
    simp [h1.1, h1.2.1, h2.1, h2.2]

theorem settles_of_quiet (its : List Iteration) (final : Loop)
    (hq : ∀ it ∈ its, it.quiet) : settles its final := by
  have hc := counts_of_quiet its hq
  refine ⟨by omega, by omega, ?_, ?_, ?_⟩
  · apply List.pairwise_of_forall_mem_list
    intro a ha b _ hpos
    have := (hq a ha).1
    omega
  · intro hpos; omega
  · rintro ⟨it, hit, hsig⟩
    have := (hq it hit).2.2
    rw [hsig] at this
    cases this

theorem settles_cons_quiet (it : Iteration) (rest : List Iteration) (final : Loop)
    (hq : it.quiet) (h : settles rest final) : settles (it :: rest) final := by
  obtain ⟨h1, h2, h3, h4, h5⟩ := h
  have hcp : pollTrueCount (it :: rest) = pollTrueCount rest := by
    simp [pollTrueCount, hq.1]
  have hcq : printCounterCount (it :: rest) = printCounterCount rest := by
    simp [printCounterCount, hq.2.1]
  refine ⟨by omega, by omega, ?_, ?_, ?_⟩
  · rw [List.pairwise_cons]
    refine ⟨?_, h3⟩
    intro b _ hpos
    have := hq.1
    omega
  · intro hpos; exact h4 (by omega)
  · rintro ⟨a, ha, hsig⟩
    rw [hcp]
    rcases List.mem_cons.mp ha with rfl | ha
    · have := hq.2.2
      rw [hsig] at this
      cases this
    · exact h5 ⟨a, ha, hsig⟩

theorem settles_cons_report (it : Iteration) (rest : List Iteration) (final : Loop)
    (hr : it.reports = 1) (hp : it.prints = 1)
    (hq : ∀ a ∈ rest, a.quiet ∧ flagsClear a.start) (hf : flagsClear final) :
    settles (it :: rest) final := by
  have hc := counts_of_quiet rest (fun a ha => (hq a ha).1)
  have hcp : pollTrueCount (it :: rest) = 1 := by
    have := hc.1
    unfold pollTrueCount at *
    simp [hr, this]
  have hcq : printCounterCount (it :: rest) = 1 := by
    have := hc.2
    unfold printCounterCount at *
    simp [hp, this]
  refine ⟨by omega, by omega, ?_, fun _ => hf, fun _ => hcp⟩
  rw [List.pairwise_cons]
  refine ⟨fun b hb _ => (hq b hb).2, ?_⟩
  apply List.pairwise_of_forall_mem_list
  intro a ha b _ hpos
  have := (hq a ha).1.1
  omega

theorem settles_append_quiet (a b : List Iteration) (final : Loop)
    (hq : ∀ it ∈ a, it.quiet) (h : settles b final) : settles (a ++ b) final := by
  induction a with
  | nil => simpa using h
  | cons it rest ih =>
    exact settles_cons_quiet it (rest ++ b) final (hq it (List.mem_cons_self _ _))
      (ih (fun x hx => hq x (List.mem_cons_of_mem _ hx)))

theorem renderFrame_counts (s : Loop) :
    (renderFrame s).count (.isComputeShaderExecutionDone true) = 0 ∧
    (renderFrame s).count .printCounter = 0 := by
  unfold renderFrame
  cases s.useRaytracer <;> simp

theorem atComputeState_mode (i : FrameInput) (s : Loop) (hmode : s.m_numberOfUsedQueues = 2)
    (hone : i.oneQueue = false) : (atComputeState i s).m_numberOfUsedQueues = 2 := by
  unfold atComputeState renderPanel gpuProgress
  cases i.showGui <;> cases i.colorEdited <;> cases i.rayTracerClicked <;>
    cases i.headerOpen <;> cases i.twoQueues <;> cases i.runButton <;>
    simp [hone, hmode]

theorem computeStateBlock_mode (i : FrameInput) (s : Loop) :
    (computeStateBlock i s).1.m_numberOfUsedQueues = s.m_numberOfUsedQueues := by
  cases hrun : s.m_runTestComputeShader with
  | true => rw [computeStateBlock_of_trigger i s hrun]; simp [midTrigger]
  | false =>
    cases hr : s.helloVk.m_isTestComputeShaderRunning with
    | false => rw [computeStateBlock_idle i s hrun hr]
    | true =>
      unfold computeStateBlock haltWith
      simp only [hrun, hr]
      repeat' split
      all_goals simp_all

theorem pollBlock_mode (s : Loop) :
    (pollBlock s).1.m_numberOfUsedQueues = s.m_numberOfUsedQueues := by
  unfold pollBlock haltWith
  repeat' split
  all_goals simp_all

theorem frame_mode (i : FrameInput) (s : Loop) (hmode : s.m_numberOfUsedQueues = 2)
    (hone : i.oneQueue = false) : (frame i s).1.m_numberOfUsedQueues = 2 := by
  cases hh : s.halted.isSome with
  | true => rw [frame_halted i s hh]; exact hmode
  | false =>
    cases hm : i.isMinimized with
    | true => rw [frame_minimized i s hh hm]; simpa [gpuProgress] using hmode
    | false =>
      have h1 : (afterComputeState i s).m_numberOfUsedQueues = 2 := by
        unfold afterComputeState
        rw [computeStateBlock_mode, atComputeState_mode i s hmode hone]
      rw [frame_steps i s hh hm]
      split
      · exact h1
      · rw [pollBlock_mode]
        simpa [atPollBlock, gpuProgress] using h1

theorem phaseWaiting_gpuProgress (jobs : List computeData) (k : Nat) (s : Loop)
    (hp : phaseWaiting jobs s) : phaseWaiting jobs (gpuProgress k s) := by
  obtain ⟨h1, h2, h3, h4, h5, h6⟩ := hp
  exact ⟨h1, h2, h3, h4, h5, by simpa [gpuProgress] using retireN_atMostOne k _ h6⟩

theorem phaseIdle_gpuProgress (k : Nat) (s : Loop) (hp : phaseIdle s) :
    phaseIdle (gpuProgress k s) := by
  obtain ⟨h1, h2⟩ := hp
  refine ⟨h1, ?_⟩
  simpa [gpuProgress, retireN_idle k _ h2] using h2

theorem pollBlock_from_waiting (s : Loop) (compData : computeData) (rest : List computeData)
    (b : Buffer) (bs : List Buffer) (hbuf : compData.buffers = b :: bs)
    (hp : phaseWaiting (compData :: rest) s) :
    (s.world.dev.fenceSignaled = false ∧ phaseWaiting (compData :: rest) (pollBlock s).1 ∧
      (pollBlock s).2 = [.isComputeShaderExecutionDone false]) ∨
    (s.world.dev.fenceSignaled = true ∧ phaseIdle (pollBlock s).1 ∧
      (pollBlock s).2 = [.isComputeShaderExecutionDone true, .printCounter]) := by
  obtain ⟨h1, h2, h3, h4, h5, h6⟩ := hp
  cases hs : s.world.dev.fenceSignaled with
  | false =>
    left
    rw [pollBlock_of_unsignaled s compData rest h2 h5 hs]
    exact ⟨rfl, ⟨h1, h2, h3, h4, h5, h6⟩, rfl⟩
  | true =>
    right
    rw [pollBlock_of_signaled s compData rest b bs h2 hbuf h5 hs]
    have hpz : s.world.dev.pending = 0 := by
      unfold Device.atMostOne at h6
      simp [hs] at h6
      exact h6
    refine ⟨rfl, ⟨⟨h3, h4, rfl⟩, ?_⟩, rfl⟩
    simp [Device.idle, Device.vkResetFences, hpz]

theorem frame_from_idle (i : FrameInput) (s : Loop) (hp : phaseIdle s)
    (hno : i.triggers = false) :
    phaseIdle (frame i s).1 ∧ (frame i s).1.halted = s.halted ∧
    Iteration.quiet { start := s, input := i, events := (frame i s).2 } := by
  obtain ⟨⟨h3, h4, h5⟩, h6⟩ := hp
  cases hh : s.halted.isSome with
  | true =>
    rw [frame_halted i s hh]
    exact ⟨⟨⟨h3, h4, h5⟩, h6⟩, rfl, by
      simp [Iteration.quiet, Iteration.reports, Iteration.prints, Iteration.signaledAtPoll,
        reachesPollBlock, hh]⟩
  | false =>
    cases hm : i.isMinimized with
    | true =>
      rw [frame_minimized i s hh hm]
      exact ⟨phaseIdle_gpuProgress _ _ (phaseIdle_gpuProgress _ _ ⟨⟨h3, h4, h5⟩, h6⟩),
        by simp [gpuProgress], by
          simp [Iteration.quiet, Iteration.reports, Iteration.prints,
            Iteration.signaledAtPoll, reachesPollBlock, hm]⟩
    | false =>
      have hf := atComputeState_facts i s
      have hrun1 : (atComputeState i s).m_runTestComputeShader = false := by
        have := panel_run i s hm h3
        rw [hno] at this
        exact this
      have hr1 : (atComputeState i s).helloVk.m_isTestComputeShaderRunning = false := by
        rw [hf.1, h4]
      have hw1 : (atComputeState i s).helloVk.m_waitingComputeShaderFence = false := by
        rw [hf.2.1, h5]
      have hd1 : (atComputeState i s).world.dev.idle := by
        rw [hf.2.2.2.2.1, retireN_idle _ _ h6]; exact h6
      have hblock := computeStateBlock_idle i (atComputeState i s) hrun1 hr1
      have hafter : afterComputeState i s = atComputeState i s := by
        unfold afterComputeState; rw [hblock]
      have hok : (afterComputeState i s).halted.isSome = false := by
        rw [hafter, hf.2.2.2.1]; exact hh
      have hidle2 : phaseIdle (atPollBlock i s) := by
        unfold atPollBlock
        rw [hafter]
        exact phaseIdle_gpuProgress _ _ ⟨⟨hrun1, hr1, hw1⟩, hd1⟩
      have hpoll := pollBlock_of_not_waiting (atPollBlock i s) hidle2.1.2.2
      rw [frame_steps i s hh hm]
      simp only [hok, Bool.false_eq_true, if_false]
      rw [hpoll, hblock]
      refine ⟨hidle2, ?_, ?_⟩
      · simp only [atPollBlock, gpuProgress]
        rw [hafter, hf.2.2.2.1]
      · have hrc := renderFrame_counts (atComputeState i s)
        refine ⟨?_, ?_, ?_⟩
        · simp [Iteration.reports, hrc.1]
        · simp [Iteration.prints, hrc.2]
        · simp [Iteration.signaledAtPoll, hidle2.2.2]

theorem frame_from_waiting (i : FrameInput) (s : Loop) (compData : computeData)
    (rest : List computeData) (b : Buffer) (bs : List Buffer)
    (hbuf : compData.buffers = b :: bs) (hp : phaseWaiting (compData :: rest) s)
    (hno : i.triggers = false) :
    (phaseWaiting (compData :: rest) (frame i s).1 ∧
      Iteration.quiet { start := s, input := i, events := (frame i s).2 }) ∨
    (phaseIdle (frame i s).1 ∧
      Iteration.reports { start := s, input := i, events := (frame i s).2 } = 1 ∧
      Iteration.prints { start := s, input := i, events := (frame i s).2 } = 1) := by
  have hp0 := hp
  obtain ⟨h1, h2, h3, h4, h5, h6⟩ := hp
  have hh : s.halted.isSome = false := by simp [h1]
  cases hm : i.isMinimized with
  | true =>
    left
    rw [frame_minimized i s hh hm]
    exact ⟨phaseWaiting_gpuProgress _ _ _ (phaseWaiting_gpuProgress _ _ _ hp0), by
      simp [Iteration.quiet, Iteration.reports, Iteration.prints, Iteration.signaledAtPoll,
        reachesPollBlock, hm]⟩
  | false =>
    have hf := atComputeState_facts i s
    have hrun1 : (atComputeState i s).m_runTestComputeShader = false := by
      have := panel_run i s hm h3
      rw [hno] at this
      exact this
    have hr1 : (atComputeState i s).helloVk.m_isTestComputeShaderRunning = false := by
      rw [hf.1, h4]
    have hblock := computeStateBlock_idle i (atComputeState i s) hrun1 hr1
    have hafter : afterComputeState i s = atComputeState i s := by
      unfold afterComputeState; rw [hblock]
    have hok : (afterComputeState i s).halted.isSome = false := by
      rw [hafter, hf.2.2.2.1]; exact hh
    have hw2 : phaseWaiting (compData :: rest) (atPollBlock i s) := by
      unfold atPollBlock
      rw [hafter]
      apply phaseWaiting_gpuProgress
      refine ⟨by rw [hf.2.2.2.1, h1], by rw [hf.2.2.1, h2], hrun1, hr1, by rw [hf.2.1, h5], ?_⟩
      rw [hf.2.2.2.2.1]
      exact retireN_atMostOne _ _ h6
    have hrc := renderFrame_counts (atComputeState i s)
    have hreach : reachesPollBlock i s = true := by
      simp [reachesPollBlock, hh, hm, hok]
    rw [frame_steps i s hh hm]
    simp only [hok, Bool.false_eq_true, if_false]
    rw [hblock]
    rcases pollBlock_from_waiting (atPollBlock i s) compData rest b bs hbuf hw2 with
      ⟨hs, hph, hev⟩ | ⟨hs, hph, hev⟩
    · left
      refine ⟨hph, ?_, ?_, ?_⟩
      · simp [Iteration.reports, hev, hrc.1, List.count_append]
      · simp [Iteration.prints, hev, hrc.2, List.count_append]
      · simp [Iteration.signaledAtPoll, hs]
    · right
      refine ⟨hph, ?_, ?_⟩
      · simp [Iteration.reports, hev, hrc.1, List.count_append]
      · simp [Iteration.prints, hev, hrc.2, List.count_append]

theorem frame_trigger_from_idle (i : FrameInput) (s : Loop) (jobs : List computeData)
    (hp : phaseIdle s) (hh : s.halted = none) (hjob : s.helloVk.m_compDataList = jobs)
    (hmode : s.m_numberOfUsedQueues = 2) (hone : i.oneQueue = false)
    (htrig : i.triggers = true) :
    phaseRunning jobs (frame i s).1 ∧
    Iteration.quiet { start := s, input := i, events := (frame i s).2 } := by
  obtain ⟨⟨h3, h4, h5⟩, h6⟩ := hp
  have hh' : s.halted.isSome = false := by simp [hh]
  have hm : i.isMinimized = false := by
    cases hm : i.isMinimized with
    | false => rfl
    | true => simp [FrameInput.triggers, hm] at htrig
  have hf := atComputeState_facts i s
  have hrun1 : (atComputeState i s).m_runTestComputeShader = true := by
    have := panel_run i s hm h3
    rw [htrig] at this
    exact this
  have hd1 : (atComputeState i s).world.dev.idle := by
    rw [hf.2.2.2.2.1, retireN_idle _ _ h6]; exact h6
  have hblock := computeStateBlock_of_trigger i (atComputeState i s) hrun1
  have hafter : afterComputeState i s =
      { midTrigger (atComputeState i s) with m_runTestComputeShader := false } := by
    unfold afterComputeState; rw [hblock]
  have hok : (afterComputeState i s).halted.isSome = false := by
    rw [hafter]
    simp [midTrigger, hf.2.2.2.1, hh]
  have hw2 : (atPollBlock i s).helloVk.m_waitingComputeShaderFence = false := by
    unfold atPollBlock
    rw [hafter]
    simp [gpuProgress, midTrigger, hf.2.1, h5]
  have hd2 : (atPollBlock i s).world.dev.idle := by
    unfold atPollBlock
    rw [hafter]
    simpa [gpuProgress, midTrigger, retireN_idle _ _ hd1] using hd1
  have hpoll := pollBlock_of_not_waiting (atPollBlock i s) hw2
  have hrc := renderFrame_counts (atComputeState i s)
  rw [frame_steps i s hh' hm]
  simp only [hok, Bool.false_eq_true, if_false]
  rw [hpoll, hblock]
  refine ⟨⟨?_, ?_, ?_, ?_, hw2, hd2, ?_⟩, ?_, ?_, ?_⟩
  · unfold atPollBlock; rw [hafter]; simp [gpuProgress, midTrigger, hf.2.2.2.1, hh]
  · unfold atPollBlock; rw [hafter]; simp [gpuProgress, midTrigger, hf.2.2.1, hjob]
  · unfold atPollBlock; rw [hafter]; simp [gpuProgress]
  · unfold atPollBlock; rw [hafter]; simp [gpuProgress, midTrigger]
  · unfold atPollBlock; rw [hafter]
    simpa [gpuProgress, midTrigger] using atComputeState_mode i s hmode hone
  · simp [Iteration.reports, hrc.1]
  · simp [Iteration.prints, hrc.2]
  · simp [Iteration.signaledAtPoll, hd2.2]

theorem frame_from_running (i : FrameInput) (s : Loop) (compData : computeData)
    (rest : List computeData) (b : Buffer) (bs : List Buffer)
    (hbuf : compData.buffers = b :: bs) (hp : phaseRunning (compData :: rest) s)
    (hno : i.triggers = false) (hone : i.oneQueue = false) :
    (phaseRunning (compData :: rest) (frame i s).1 ∧
      Iteration.quiet { start := s, input := i, events := (frame i s).2 }) ∨
    (phaseWaiting (compData :: rest) (frame i s).1 ∧
      Iteration.quiet { start := s, input := i, events := (frame i s).2 }) ∨
    (phaseIdle (frame i s).1 ∧
      Iteration.quiet { start := s, input := i, events := (frame i s).2 }) ∨
    (phaseIdle (frame i s).1 ∧
      Iteration.reports { start := s, input := i, events := (frame i s).2 } = 1 ∧
      Iteration.prints { start := s, input := i, events := (frame i s).2 } = 1) := by
  obtain ⟨h1, h2, h3, h4, h5, h6, h7⟩ := hp
  have hh : s.halted.isSome = false := by simp [h1]
  cases hm : i.isMinimized with
  | true =>
    left
    rw [frame_minimized i s hh hm]
    refine ⟨⟨h1, h2, h3, h4, h5, ?_, h7⟩, ?_⟩
    · have := phaseIdle_gpuProgress i.retiredBeforePoll _
        (phaseIdle_gpuProgress i.retiredBeforeDispatch
          { s with helloVk := { s.helloVk with m_isTestComputeShaderRunning := false } }
          ⟨⟨h3, rfl, h5⟩, h6⟩)
      simpa [gpuProgress] using this.2
    · simp [Iteration.quiet, Iteration.reports, Iteration.prints, Iteration.signaledAtPoll,
        reachesPollBlock, hm]
  | false =>
    right
    have hf := atComputeState_facts i s
    have hrun1 : (atComputeState i s).m_runTestComputeShader = false := by
      have := panel_run i s hm h3
      rw [hno] at this
      exact this
    have hr1 : (atComputeState i s).helloVk.m_isTestComputeShaderRunning = true := by
      rw [hf.1, h4]
    have hjob1 : (atComputeState i s).helloVk.m_compDataList = compData :: rest := by
      rw [hf.2.2.1, h2]
    have hd1 : (atComputeState i s).world.dev.idle := by
      rw [hf.2.2.2.2.1, retireN_idle _ _ h6]; exact h6
    have hq := atComputeState_mode i s h7 hone
    have hblock := computeStateBlock_dispatch_two i (atComputeState i s) compData rest b bs
      hjob1 hbuf hrun1 hr1 hq
    have hrc := renderFrame_counts (atComputeState i s)
    rcases hblock.2.2.2.2 with hc | hc
    · have hok : (afterComputeState i s).halted.isSome = false := by
        unfold afterComputeState
        rw [hc.2.2.1, hf.2.2.2.1]; exact hh
      have hw2 : phaseWaiting (compData :: rest) (atPollBlock i s) := by
        unfold atPollBlock afterComputeState
        apply phaseWaiting_gpuProgress
        refine ⟨by rw [hc.2.2.1, hf.2.2.2.1, h1], by rw [hblock.2.2.1, hjob1], hblock.1,
          hblock.2.1, hc.2.2.2.1, ?_⟩
        rw [hc.2.2.2.2.1]
        unfold Device.vkQueueSubmit Device.atMostOne
        split
        · simp [hd1.1, hd1.2]
        · simp [hd1.1, hd1.2]
      rw [frame_steps i s hh hm]
      simp only [hok, Bool.false_eq_true, if_false]
      rw [hc.2.2.2.2.2]
      rcases pollBlock_from_waiting (atPollBlock i s) compData rest b bs hbuf hw2 with
        ⟨hs, hph, hev⟩ | ⟨hs, hph, hev⟩
      · left
        refine ⟨hph, ?_, ?_, ?_⟩
        · simp [Iteration.reports, hev, hrc.1, List.count_append]
        · simp [Iteration.prints, hev, hrc.2, List.count_append]
        · simp [Iteration.signaledAtPoll, hs]
      · right; right
        refine ⟨hph, ?_, ?_⟩
        · simp [Iteration.reports, hev, hrc.1, List.count_append]
        · simp [Iteration.prints, hev, hrc.2, List.count_append]
    · have hok : (afterComputeState i s).halted.isSome = true := by
        unfold afterComputeState
        rw [hc.2.1]; rfl
      rw [frame_steps i s hh hm]
      simp only [hok, if_true]
      right; left
      refine ⟨⟨⟨?_, ?_, ?_⟩, ?_⟩, ?_, ?_, ?_⟩
      · exact hblock.1
      · exact hblock.2.1
      · exact hc.2.2.1
      · unfold afterComputeState; rw [hc.2.2.2.1]; exact hd1
      · simp [Iteration.reports, hc.2.2.2.2, hrc.1, List.count_append]
      · simp [Iteration.prints, hc.2.2.2.2, hrc.2, List.count_append]
      · simp [Iteration.signaledAtPoll, reachesPollBlock, hok]

theorem run_from_idle (inputs : List FrameInput) (s : Loop) (hp : phaseIdle s)
    (hno : ∀ i ∈ inputs, i.triggers = false) :
    (∀ it ∈ iterations inputs s, it.quiet ∧ flagsClear it.start) ∧
    phaseIdle (runLoop inputs s) := by
  induction inputs generalizing s with
  | nil => exact ⟨by intro it hit; simp [iterations] at hit, hp⟩
  | cons i tl ih =>
    have hstep := frame_from_idle i s hp (hno i (List.mem_cons_self _ _))
    have hrest := ih (frame i s).1 hstep.1 (fun j hj => hno j (List.mem_cons_of_mem _ hj))
    refine ⟨?_, hrest.2⟩
    intro it hit
    simp only [iterations, List.mem_cons] at hit
    rcases hit with rfl | hit
    · exact ⟨hstep.2.2, hp.1⟩
    · exact hrest.1 it hit

theorem run_from_waiting (inputs : List FrameInput) (s : Loop) (compData : computeData)
    (rest : List computeData) (b : Buffer) (bs : List Buffer)
    (hbuf : compData.buffers = b :: bs) (hp : phaseWaiting (compData :: rest) s)
    (hno : ∀ i ∈ inputs, i.triggers = false) :
    settles (iterations inputs s) (runLoop inputs s) := by
  induction inputs generalizing s with
  | nil => exact settles_of_quiet [] _ (by intro it hit; simp at hit)
  | cons i tl ih =>
    have hno' : ∀ j ∈ tl, j.triggers = false := fun j hj => hno j (List.mem_cons_of_mem _ hj)
    simp only [iterations, runLoop]
    rcases frame_from_waiting i s compData rest b bs hbuf hp (hno i (List.mem_cons_self _ _))
      with ⟨hph, hq⟩ | ⟨hph, hr, hpr⟩
    · exact settles_cons_quiet _ _ _ hq (ih (frame i s).1 hph hno')
    · have hrest := run_from_idle tl (frame i s).1 hph hno'
      exact settles_cons_report _ _ _ hr hpr hrest.1 hrest.2.1

theorem run_from_running (inputs : List FrameInput) (s : Loop) (compData : computeData)
    (rest : List computeData) (b : Buffer) (bs : List Buffer)
    (hbuf : compData.buffers = b :: bs) (hp : phaseRunning (compData :: rest) s)
    (hno : ∀ i ∈ inputs, i.triggers = false) (hone : ∀ i ∈ inputs, i.oneQueue = false) :
    settles (iterations inputs s) (runLoop inputs s) := by
  induction inputs generalizing s with
  | nil => exact settles_of_quiet [] _ (by intro it hit; simp at hit)
  | cons i tl ih =>
    have hno' : ∀ j ∈ tl, j.triggers = false := fun j hj => hno j (List.mem_cons_of_mem _ hj)
    have hone' : ∀ j ∈ tl, j.oneQueue = false :=
      fun j hj => hone j (List.mem_cons_of_mem _ hj)
    simp only [iterations, runLoop]
    rcases frame_from_running i s compData rest b bs hbuf hp (hno i (List.mem_cons_self _ _))
      (hone i (List.mem_cons_self _ _)) with
      ⟨hph, hq⟩ | ⟨hph, hq⟩ | ⟨hph, hq⟩ | ⟨hph, hr, hpr⟩
    · exact settles_cons_quiet _ _ _ hq (ih (frame i s).1 hph hno' hone')
    · exact settles_cons_quiet _ _ _ hq
        (run_from_waiting tl (frame i s).1 compData rest b bs hbuf hph hno')
    · have hrest := run_from_idle tl (frame i s).1 hph hno'
      exact settles_cons_quiet _ _ _ hq
        (settles_of_quiet _ _ (fun it hit => (hrest.1 it hit).1))
    · have hrest := run_from_idle tl (frame i s).1 hph hno'
      exact settles_cons_report _ _ _ hr hpr hrest.1 hrest.2.1

theorem run_before_trigger (inputs : List FrameInput) (s : Loop) (jobs : List computeData)
    (hp : phaseIdle s) (hh : s.halted = none) (hjob : s.helloVk.m_compDataList = jobs)
    (hmode : s.m_numberOfUsedQueues = 2)
    (hno : ∀ i ∈ inputs, i.triggers = false) (hone : ∀ i ∈ inputs, i.oneQueue = false) :
    (∀ it ∈ iterations inputs s, it.quiet) ∧
    phaseIdle (runLoop inputs s) ∧ (runLoop inputs s).halted = none ∧
    (runLoop inputs s).helloVk.m_compDataList = jobs ∧
    (runLoop inputs s).m_numberOfUsedQueues = 2 := by
  induction inputs generalizing s with
  | nil => exact ⟨by intro it hit; simp [iterations] at hit, hp, hh, hjob, hmode⟩
  | cons i tl ih =>
    have hstep := frame_from_idle i s hp (hno i (List.mem_cons_self _ _))
    have hrest := ih (frame i s).1 hstep.1 (by rw [hstep.2.1, hh]) (by rw [frame_job, hjob])
      (frame_mode i s hmode (hone i (List.mem_cons_self _ _)))
      (fun j hj => hno j (List.mem_cons_of_mem _ hj))
      (fun j hj => hone j (List.mem_cons_of_mem _ hj))
    refine ⟨?_, hrest.2⟩
    intro it hit
    simp only [iterations, List.mem_cons] at hit
    rcases hit with rfl | hit
    · exact hstep.2.2
    · exact hrest.1 it hit

/-- C17. End to end with a single trigger. The loop starts idle (flags
clear, nothing outstanding on the fence, a job in the list) in two-queue
mode; the button reaches the program in exactly one iteration and one-queue
mode is never selected; device answers and GPU timing are arbitrary; and in
some iteration the poll block is reached with the fence signaled. Then over
the whole run the poll answers `true` exactly once, `printCounter` is called
exactly once, every iteration after the one of the `true` answer starts with
all three flags false, and so does the state the run ends in. -/
theorem single_trigger_end_to_end (pre post : List FrameInput) (trig : FrameInput)
    (s0 : Loop) (compData : computeData) (rest : List computeData) (b : Buffer)
    (bs : List Buffer)
    (hjob : s0.helloVk.m_compDataList = compData :: rest) (hbuf : compData.buffers = b :: bs)
    (hh : s0.halted = none) (hclear : flagsClear s0) (hidle : s0.world.dev.idle)
    (hmode : s0.m_numberOfUsedQueues = 2)
    (htwo : ∀ i ∈ pre ++ trig :: post, i.oneQueue = false)
    (hpre : ∀ i ∈ pre, i.triggers = false) (htrig : trig.triggers = true)
    (hpost : ∀ i ∈ post, i.triggers = false)
    (hsig : ∃ it ∈ iterations (pre ++ trig :: post) s0, it.signaledAtPoll = true) :
    pollTrueCount (iterations (pre ++ trig :: post) s0) = 1 ∧
    printCounterCount (iterations (pre ++ trig :: post) s0) = 1 ∧
    (iterations (pre ++ trig :: post) s0).Pairwise
      (fun a b => Event.isComputeShaderExecutionDone true ∈ a.events → flagsClear b.start) ∧
    flagsClear (runLoop (pre ++ trig :: post) s0) := by
  have hpre_run := run_before_trigger pre s0 (compData :: rest) ⟨hclear, hidle⟩ hh hjob hmode
    hpre (fun i hi => htwo i (List.mem_append_left _ hi))
  obtain ⟨hq1, hp1, hh1, hj1, hm1⟩ := hpre_run
  have htr := frame_trigger_from_idle trig (runLoop pre s0) (compData :: rest) hp1 hh1 hj1 hm1
    (htwo trig (List.mem_append_right _ (List.mem_cons_self _ _))) htrig
  have hpost_run := run_from_running post (frame trig (runLoop pre s0)).1 compData rest b bs
    hbuf htr.1 hpost
    (fun i hi => htwo i (List.mem_append_right _ (List.mem_cons_of_mem _ hi)))
  have hall : settles (iterations (pre ++ trig :: post) s0)
      (runLoop (pre ++ trig :: post) s0) := by
    rw [iterations_append, runLoop_append]
    simp only [iterations, runLoop]
    exact settles_append_quiet _ _ _ hq1 (settles_cons_quiet _ _ _ htr.2 hpost_run)
  obtain ⟨_, h2, h3, h4, h5⟩ := hall
  have hone := h5 hsig
  refine ⟨hone, by omega, ?_, h4 (by omega)⟩
  exact h3.imp (fun {a b} hab hmem => hab (List.count_pos_iff.mpr hmem))

theorem single_trigger_end_to_end_witness :
    (∃ it ∈ iterations
        ([FrameInput.idle] ++ FrameInput.press ::
          [ FrameInput.idle, FrameInput.idle,
            { FrameInput.idle with retiredBeforeDispatch := 1 }, FrameInput.idle ])
        Loop.init, it.signaledAtPoll = true) ∧
    pollTrueCount (iterations
        ([FrameInput.idle] ++ FrameInput.press ::
          [ FrameInput.idle, FrameInput.idle,
            { FrameInput.idle with retiredBeforeDispatch := 1 }, FrameInput.idle ])
        Loop.init) = 1 ∧
    printCounterCount (iterations
        ([FrameInput.idle] ++ FrameInput.press ::
          [ FrameInput.idle, FrameInput.idle,
            { FrameInput.idle with retiredBeforeDispatch := 1 }, FrameInput.idle ])
        Loop.init) = 1 ∧
    flagsClear (runLoop
        ([FrameInput.idle] ++ FrameInput.press ::
          [ FrameInput.idle, FrameInput.idle,
            { FrameInput.idle with retiredBeforeDispatch := 1 }, FrameInput.idle ])
        Loop.init) :=
  have h := single_trigger_end_to_end [FrameInput.idle]
    [ FrameInput.idle, FrameInput.idle,
      { FrameInput.idle with retiredBeforeDispatch := 1 }, FrameInput.idle ]
    FrameInput.press Loop.init computeA [] { buffer := 6, data := 7 } [] rfl rfl rfl
    (by decide) (by decide) rfl (by decide) (by decide) (by decide) (by decide) (by decide)
  ⟨by decide, h.1, h.2.1, h.2.2.2⟩

/-! ## Start-up -/

/-- C21. After `AppBase::setup`, `HelloVulkan::setup` throws one of its two
`std::runtime_error`s exactly when the graphics queue handle or the compute
queue handle is null. The graphics queue is checked first: a null `m_queue`
gives "Missing needed graphics/compute VkQueue", whatever `m_queue_comp`
is; a null `m_queue_comp` with `m_queue` present gives "Missing needed
dedicated compute VkQueue". In both cases no call has been made, so no
compute command buffer is allocated, and the application object is
untouched. With both queues present the function goes on to allocate
exactly one command buffer from the compute pool; it returns normally when
that allocation succeeds, and the only other way it ends is the
`vk::SystemError` of the failed allocation. -/
theorem setup_missing_queue (hv : HelloVulkan) (base : AppBase) (build : AllocatorBuild)
    (allocateResult : VkResult) (newCmdBuf : Handle) :
    ((∃ what, (hv.setup base build allocateResult newCmdBuf).ending = .runtime_error what) ↔
      (base.m_queue = 0 ∨ base.m_queue_comp = 0)) ∧
    (base.m_queue = 0 →
      (hv.setup base build allocateResult newCmdBuf).ending =
        .runtime_error "Missing needed graphics/compute VkQueue") ∧
    (base.m_queue ≠ 0 → base.m_queue_comp = 0 →
      (hv.setup base build allocateResult newCmdBuf).ending =
        .runtime_error "Missing needed dedicated compute VkQueue") ∧
    (base.m_queue = 0 ∨ base.m_queue_comp = 0 →
      (hv.setup base build allocateResult newCmdBuf).calls = [] ∧
      (hv.setup base build allocateResult newCmdBuf).helloVk = hv) ∧
    (base.m_queue ≠ 0 → base.m_queue_comp ≠ 0 →
      (hv.setup base build allocateResult newCmdBuf).calls.filter SetupCall.isAllocate =
        [.allocateCommandBuffers base.m_cmdPool_comp 1 allocateResult] ∧
      (allocateResult = .VK_SUCCESS →
        (hv.setup base build allocateResult newCmdBuf).ending = .ended .returned ∧
        (hv.setup base build allocateResult newCmdBuf).helloVk.m_commandBuffer_comp =
          newCmdBuf ∧
        (hv.setup base build allocateResult newCmdBuf).helloVk.m_PushConstant.use_atomic =
          0) ∧
      (allocateResult ≠ .VK_SUCCESS →
        (hv.setup base build allocateResult newCmdBuf).ending =
          .ended (.threw allocateResult))) := by
  by_cases hq : base.m_queue = 0
  · simp [HelloVulkan.setup, hq]
  · by_cases hc : base.m_queue_comp = 0
    · simp [HelloVulkan.setup, hq, hc]
    · by_cases ha : allocateResult = .VK_SUCCESS
      · cases build <;>
          simp [HelloVulkan.setup, hq, hc, ha, allocatorSetup, SetupCall.isAllocate]
      · cases build <;>
          simp [HelloVulkan.setup, hq, hc, ha, allocatorSetup, SetupCall.isAllocate]

theorem setup_missing_queue_witness :
    (HelloVulkan.fresh.setup { m_queue := 0, m_queue_comp := 0, m_cmdPool_comp := 11 }
        .NVVK_ALLOC_DMA .VK_SUCCESS 9).ending =
      .runtime_error "Missing needed graphics/compute VkQueue" ∧
    (HelloVulkan.fresh.setup { m_queue := 10, m_queue_comp := 0, m_cmdPool_comp := 11 }
        .NVVK_ALLOC_DMA .VK_SUCCESS 9).ending =
      .runtime_error "Missing needed dedicated compute VkQueue" ∧
    (HelloVulkan.fresh.setup { m_queue := 10, m_queue_comp := 0, m_cmdPool_comp := 11 }
        .NVVK_ALLOC_DMA .VK_SUCCESS 9).calls = [] ∧
    (HelloVulkan.fresh.setup { m_queue := 10, m_queue_comp := 12, m_cmdPool_comp := 11 }
        .NVVK_ALLOC_DMA .VK_SUCCESS 9).ending = .ended .returned :=
  ⟨(setup_missing_queue HelloVulkan.fresh
      { m_queue := 0, m_queue_comp := 0, m_cmdPool_comp := 11 } .NVVK_ALLOC_DMA .VK_SUCCESS
      9).2.1 rfl,
   (setup_missing_queue HelloVulkan.fresh
      { m_queue := 10, m_queue_comp := 0, m_cmdPool_comp := 11 } .NVVK_ALLOC_DMA .VK_SUCCESS
      9).2.2.1 (by decide) rfl,
   ((setup_missing_queue HelloVulkan.fresh
      { m_queue := 10, m_queue_comp := 0, m_cmdPool_comp := 11 } .NVVK_ALLOC_DMA .VK_SUCCESS
      9).2.2.2.1 (Or.inr rfl)).1,
   ((setup_missing_queue HelloVulkan.fresh
      { m_queue := 10, m_queue_comp := 12, m_cmdPool_comp := 11 } .NVVK_ALLOC_DMA .VK_SUCCESS
      9).2.2.2.2 (by decide) (by decide)).2.1 rfl |>.1⟩

theorem createdFences_append (cs ds : List BuildCall) :
    createdFences (cs ++ ds) = createdFences cs ++ createdFences ds := by
  induction cs with
  | nil => rfl
  | cons c cs ih => cases c <;> simp [createdFences, ih]

theorem createdFences_host (cs : List Call) : createdFences (cs.map BuildCall.host) = [] := by
  induction cs with
  | nil => rfl
  | cons c cs ih => simp [createdFences, ih]

theorem createdBuffers_append (cs ds : List BuildCall) :
    createdBuffers (cs ++ ds) = createdBuffers cs ++ createdBuffers ds := by
  induction cs with
  | nil => rfl
  | cons c cs ih => cases c <;> simp [createdBuffers, ih]

theorem createdBuffers_host (cs : List Call) : createdBuffers (cs.map BuildCall.host) = [] := by
  induction cs with
  | nil => rfl
  | cons c cs ih => simp [createdBuffers, ih]

theorem createdLayouts_append (cs ds : List BuildCall) :
    createdLayouts (cs ++ ds) = createdLayouts cs ++ createdLayouts ds := by
  induction cs with
  | nil => rfl
  | cons c cs ih => cases c <;> simp [createdLayouts, ih]

theorem createdLayouts_host (cs : List Call) : createdLayouts (cs.map BuildCall.host) = [] := by
  induction cs with
  | nil => rfl
  | cons c cs ih => simp [createdLayouts, ih]

/-- The fence loop makes only fence creations, each with the flags of the
value-initialised `fenceInfo`; it keeps the number of jobs. -/
theorem createFences_calls (fence : Nat → VkResult × Handle) (k : Nat)
    (jobs : List computeData) :
    (∀ p ∈ createdFences (createFences fence k jobs).2.1,
      p.1 = createComputeShaderPipline_fenceFlags) ∧
    createdBuffers (createFences fence k jobs).2.1 = [] ∧
    createdLayouts (createFences fence k jobs).2.1 = [] ∧
    (createFences fence k jobs).1.length = jobs.length := by
  induction jobs generalizing k with
  | nil => simp [createFences, createdFences, createdBuffers, createdLayouts]
  | cons job rest ih =>
    by_cases h : (fence k).1 = .VK_SUCCESS
    · have := ih (k + 1)
      simp only [createFences, h, ne_eq, not_true_eq_false, if_false]
      simp [createdFences, createdBuffers, createdLayouts, this.2.1, this.2.2.1,
        this.2.2.2]
      intro a b hab
      exact this.1 (a, b) hab
    · simp [createFences, h, createdFences, createdBuffers, createdLayouts]

/-- The fence loop returns exactly when every creation it asks for
succeeds; otherwise it throws the synchronization error, a creation in its
trace having failed. -/
theorem createFences_ending (fence : Nat → VkResult × Handle) (k : Nat)
    (jobs : List computeData) :
    ((createFences fence k jobs).2.2 = .ended .returned ↔
      ∀ j < jobs.length, (fence (k + j)).1 = .VK_SUCCESS) ∧
    ((createFences fence k jobs).2.2 = .ended .returned ∨
      (createFences fence k jobs).2.2 =
        .runtime_error "failed to create synchronization objects!") ∧
    ((createFences fence k jobs).2.2 = .ended .returned →
      createdFences (createFences fence k jobs).2.1 =
        List.replicate jobs.length (createComputeShaderPipline_fenceFlags, .VK_SUCCESS)) ∧
    ((createFences fence k jobs).2.2 ≠ .ended .returned ↔
      ∃ p ∈ createdFences (createFences fence k jobs).2.1, p.2 ≠ .VK_SUCCESS) := by
  induction jobs generalizing k with
  | nil => simp [createFences, createdFences]
  | cons job rest ih =>
    by_cases h : (fence k).1 = .VK_SUCCESS
    · obtain ⟨h1, h2, h3, h4⟩ := ih (k + 1)
      simp only [createFences, h, ne_eq, not_true_eq_false, if_false]
      refine ⟨?_, h2, ?_, ?_⟩
      · rw [h1]
        constructor
        · intro hall j hj
          cases j with
          | zero => simpa using h
          | succ j =>
            have := hall j (by simpa using hj)
            rw [show k + (j + 1) = k + 1 + j by omega]
            exact this
        · intro hall j hj
          have := hall (j + 1) (by simpa using hj)
          rw [show k + 1 + j = k + (j + 1) by omega]
          exact this
      · intro hr
        simp [createdFences, h3 hr, List.replicate_succ]
      · have h4' := h4
        simp only [ne_eq] at h4'
        rw [h4']
        simp [createdFences]
    · simp only [createFences, h, ne_eq, not_false_eq_true, if_true]
      refine ⟨?_, ?_, ?_, ?_⟩
      · constructor
        · intro hc; simp at hc
        · intro hall
          exact absurd (by simpa using hall 0 (by simp)) h
      · simp
      · intro hc; simp at hc
      · simp [createdFences, h]

theorem createComputeShaderPipline_of_builds (checkResult : VkResult → Bool)
    (hv : HelloVulkan) (r : BuildResponses) (hb : r.builds checkResult) :
    hv.createComputeShaderPipline checkResult r =
      { helloVk := { hv with
          m_compDataList :=
            (createFences r.fence 0 (hv.m_compDataList ++ [builtJob r])).1 }
        descSetLayoutBind := [counterBinding]
        calls := buildSteps r ++
          (createFences r.fence 0 (hv.m_compDataList ++ [builtJob r])).2.1
        ending := (createFences r.fence 0 (hv.m_compDataList ++ [builtJob r])).2.2 } := by
  obtain ⟨h1, h2, h3⟩ := hb
  simp [HelloVulkan.createComputeShaderPipline, HelloVulkan.createComputeBuffers,
    HelloVulkan.createCompDescriptors, HelloVulkan.createCompPipelines,
    VulkanHelper.submitAndWait, VulkanHelper.submit, VulkanHelper.createCommandBuffer,
    h1, h2, h3, computeData.new, builtJob, buildSteps, counterBinding]

theorem buildSteps_created (r : BuildResponses) :
    createdFences (buildSteps r) = [] ∧
    createdBuffers (buildSteps r) =
      [(HelloVulkan.uint64Bytes 0, .eStorageBuffer, .eHostVisible, r.buffer)] ∧
    createdLayouts (buildSteps r) = [[counterBinding]] := by
  simp [buildSteps, createdFences, createdBuffers, createdLayouts]

theorem createComputeShaderPipline_of_not_builds (checkResult : VkResult → Bool)
    (hv : HelloVulkan) (r : BuildResponses) (hb : ¬r.builds checkResult) :
    createdFences (hv.createComputeShaderPipline checkResult r).calls = [] ∧
    (∃ o, o ≠ .returned ∧
      (hv.createComputeShaderPipline checkResult r).ending = .ended o) := by
  unfold BuildResponses.builds at hb
  by_cases h1 : checkResult r.vk.queueWaitIdleResult = false
  · by_cases h2 : r.pipelineLayoutResult = .VK_SUCCESS
    · have h3 : r.pipelineResult ≠ .VK_SUCCESS := fun h3 => hb ⟨h1, h2, h3⟩
      simp [HelloVulkan.createComputeShaderPipline, HelloVulkan.createComputeBuffers,
        HelloVulkan.createCompDescriptors, HelloVulkan.createCompPipelines,
        VulkanHelper.submitAndWait, VulkanHelper.submit, VulkanHelper.createCommandBuffer,
        h1, h2, h3, createdFences]
    · simp [HelloVulkan.createComputeShaderPipline, HelloVulkan.createComputeBuffers,
        HelloVulkan.createCompDescriptors, HelloVulkan.createCompPipelines,
        VulkanHelper.submitAndWait, VulkanHelper.submit, VulkanHelper.createCommandBuffer,
        h1, h2, createdFences]
  · have h1' : checkResult r.vk.queueWaitIdleResult = true := by simpa using h1
    simp [HelloVulkan.createComputeShaderPipline, HelloVulkan.createComputeBuffers,
      VulkanHelper.submitAndWait, VulkanHelper.submit, VulkanHelper.createCommandBuffer,
      h1', createdFences]

/-- C22. Every fence `createComputeShaderPipline` creates is created with no
creation flag set, in particular without `VK_FENCE_CREATE_SIGNALED_BIT`, so
a fence so created starts unsignaled with nothing pending on it. When the
builder returns it has created one fence per job of the list, which is one
job longer than before, and the device state the loop starts from is that
of such a fence. -/
theorem fences_created_unsignaled (checkResult : VkResult → Bool) (hv : HelloVulkan)
    (r : BuildResponses) :
    (∀ p ∈ createdFences (hv.createComputeShaderPipline checkResult r).calls,
      p.1 = 0 ∧ p.1 / VK_FENCE_CREATE_SIGNALED_BIT % 2 = 0 ∧
      Device.vkCreateFence p.1 = { fenceSignaled := false, pending := 0 }) ∧
    ((hv.createComputeShaderPipline checkResult r).ending = .ended .returned →
      (createdFences (hv.createComputeShaderPipline checkResult r).calls).length =
        (hv.createComputeShaderPipline checkResult r).helloVk.m_compDataList.length ∧
      (hv.createComputeShaderPipline checkResult r).helloVk.m_compDataList.length =
        hv.m_compDataList.length + 1 ∧
      World.init.dev = { fenceSignaled := false, pending := 0 }) := by
  by_cases hb : r.builds checkResult
  · rw [createComputeShaderPipline_of_builds checkResult hv r hb]
    have hc := createFences_calls r.fence 0 (hv.m_compDataList ++ [builtJob r])
    have he := createFences_ending r.fence 0 (hv.m_compDataList ++ [builtJob r])
    simp only [createdFences_append, (buildSteps_created r).1, List.nil_append]
    refine ⟨?_, ?_⟩
    · intro p hp
      have := hc.1 p hp
      rw [this]
      decide
    · intro hret
      refine ⟨?_, ?_, by decide⟩
      · rw [he.2.2.1 hret, hc.2.2.2]
        simp
      · rw [hc.2.2.2]
        simp
  · obtain ⟨h1, o, ho, h2⟩ := createComputeShaderPipline_of_not_builds checkResult hv r hb
    rw [h1, h2]
    simp [ho]

theorem fences_created_unsignaled_witness :
    (createdFences
        (HelloVulkan.fresh.createComputeShaderPipline VkResult.isError
          BuildResponses.ok).calls).length =
      (HelloVulkan.fresh.createComputeShaderPipline VkResult.isError
        BuildResponses.ok).helloVk.m_compDataList.length ∧
    (HelloVulkan.fresh.createComputeShaderPipline VkResult.isError
        BuildResponses.ok).helloVk.m_compDataList.length =
      HelloVulkan.fresh.m_compDataList.length + 1 ∧
    World.init.dev = { fenceSignaled := false, pending := 0 } :=
  (fences_created_unsignaled VkResult.isError HelloVulkan.fresh BuildResponses.ok).2
    (by decide)

/-- C23. The job builder `createComputeShaderPipline` throws a
`std::runtime_error` exactly when a fence creation it made returned a
result other than `VK_SUCCESS`, and the message is then "failed to create
synchronization objects!". When the steps before the fence loop go through
(the upload is not flagged and both pipeline objects are created), the
builder returns normally exactly when the creation succeeds for every job
of the list, the new job included, and otherwise throws that error. -/
theorem createComputeShaderPipline_throws (checkResult : VkResult → Bool) (hv : HelloVulkan)
    (r : BuildResponses) :
    ((∃ what, (hv.createComputeShaderPipline checkResult r).ending = .runtime_error what) ↔
      ∃ p ∈ createdFences (hv.createComputeShaderPipline checkResult r).calls,
        p.2 ≠ .VK_SUCCESS) ∧
    (∀ what, (hv.createComputeShaderPipline checkResult r).ending = .runtime_error what →
      what = "failed to create synchronization objects!") ∧
    (r.builds checkResult →
      ((hv.createComputeShaderPipline checkResult r).ending = .ended .returned ↔
        ∀ k < hv.m_compDataList.length + 1, (r.fence k).1 = .VK_SUCCESS) ∧
      ((hv.createComputeShaderPipline checkResult r).ending ≠ .ended .returned →
        (hv.createComputeShaderPipline checkResult r).ending =
          .runtime_error "failed to create synchronization objects!")) := by
  by_cases hb : r.builds checkResult
  · rw [createComputeShaderPipline_of_builds checkResult hv r hb]
    obtain ⟨h1, h2, _, h4⟩ := createFences_ending r.fence 0 (hv.m_compDataList ++ [builtJob r])
    simp only [createdFences_append, (buildSteps_created r).1, List.nil_append]
    refine ⟨?_, ?_, ?_⟩
    · rw [← h4]
      rcases h2 with h2 | h2 <;> simp [h2]
    · intro what hw
      rcases h2 with h2 | h2
      · rw [h2] at hw; simp at hw
      · rw [h2] at hw; simp at hw; exact hw.symm
    · intro _
      refine ⟨?_, ?_⟩
      · rw [h1]
        simp
      · intro hne
        rcases h2 with h2 | h2
        · exact absurd h2 hne
        · exact h2
  · obtain ⟨h1, o, ho, h2⟩ := createComputeShaderPipline_of_not_builds checkResult hv r hb
    rw [h1, h2]
    simp [hb]

theorem createComputeShaderPipline_throws_witness :
    ((HelloVulkan.fresh.createComputeShaderPipline VkResult.isError
        BuildResponses.ok).ending = .ended .returned ↔
      ∀ k < HelloVulkan.fresh.m_compDataList.length + 1,
        (BuildResponses.ok.fence k).1 = .VK_SUCCESS) ∧
    (HelloVulkan.fresh.createComputeShaderPipline VkResult.isError
        { BuildResponses.ok with fence := fun _ => (.VK_ERROR_OUT_OF_HOST_MEMORY, 0) }).ending =
      .runtime_error "failed to create synchronization objects!" :=
  ⟨((createComputeShaderPipline_throws VkResult.isError HelloVulkan.fresh
      BuildResponses.ok).2.2 (by decide)).1,
   ((createComputeShaderPipline_throws VkResult.isError HelloVulkan.fresh
      { BuildResponses.ok with fence := fun _ => (.VK_ERROR_OUT_OF_HOST_MEMORY, 0) }).2.2
      (by decide)).2 (by decide)⟩

/-- C24. After one call of `createComputeShaderPipline` on a fresh
application object (empty job list) that returns, the job list holds
exactly one job. That job owns exactly one buffer, the one buffer the call
created: a host-visible storage buffer whose initial contents are the 8
zero bytes of a single `uint64_t` counter of value 0. Its binding
collection, from which the descriptor set layout was created, holds exactly
one binding: index 0, storage buffer, count 1, compute stage. So the number
of bindings equals the number of buffers. -/
theorem one_job_one_buffer_one_binding (checkResult : VkResult → Bool) (hv : HelloVulkan)
    (r : BuildResponses) (hfresh : hv.m_compDataList = [])
    (hret : (hv.createComputeShaderPipline checkResult r).ending = .ended .returned) :
    (hv.createComputeShaderPipline checkResult r).helloVk.m_compDataList =
      [{ builtJob r with fence := (r.fence 0).2 }] ∧
    (builtJob r).buffers = [r.buffer] ∧
    createdBuffers (hv.createComputeShaderPipline checkResult r).calls =
      [(List.replicate 8 0, .eStorageBuffer, .eHostVisible, r.buffer)] ∧
    readUint64 (List.replicate 8 0) = 0 ∧
    (hv.createComputeShaderPipline checkResult r).descSetLayoutBind =
      [{ binding := 0, descriptorType := .eStorageBuffer, descriptorCount := 1,
         stageFlags := .eCompute }] ∧
    createdLayouts (hv.createComputeShaderPipline checkResult r).calls =
      [(hv.createComputeShaderPipline checkResult r).descSetLayoutBind] ∧
    (hv.createComputeShaderPipline checkResult r).descSetLayoutBind.length =
      (builtJob r).buffers.length := by
  by_cases hb : r.builds checkResult
  · rw [createComputeShaderPipline_of_builds checkResult hv r hb] at hret ⊢
    rw [hfresh] at hret ⊢
    have hf : (r.fence 0).1 = .VK_SUCCESS := by
      by_contra hf
      simp [createFences, hf] at hret
    have hb8 : HelloVulkan.uint64Bytes 0 = List.replicate 8 0 := by decide
    simp only [createdBuffers_append, createdLayouts_append, (buildSteps_created r).2.1,
      (buildSteps_created r).2.2]
    simp [createFences, hf, createdBuffers, createdLayouts, builtJob, counterBinding, hb8]
    decide
  · obtain ⟨_, o, ho, h2⟩ := createComputeShaderPipline_of_not_builds checkResult hv r hb
    rw [h2] at hret
    simp at hret
    exact absurd hret ho

theorem one_job_one_buffer_one_binding_witness :
    HelloVulkan.fresh.m_compDataList = [] ∧
    (HelloVulkan.fresh.createComputeShaderPipline VkResult.isError
        BuildResponses.ok).helloVk.m_compDataList = [computeA] ∧
    createdBuffers
        (HelloVulkan.fresh.createComputeShaderPipline VkResult.isError
          BuildResponses.ok).calls =
      [(List.replicate 8 0, .eStorageBuffer, .eHostVisible, { buffer := 6, data := 7 })] :=
  ⟨rfl,
   (one_job_one_buffer_one_binding VkResult.isError HelloVulkan.fresh BuildResponses.ok rfl
      (by decide)).1,
   (one_job_one_buffer_one_binding VkResult.isError HelloVulkan.fresh BuildResponses.ok rfl
      (by decide)).2.2.1⟩

/-! ## The counter, the helpers and the sliders -/

/-- C25. Let the job list start with a job that owns a buffer. Then
`prepareComputeShader` returns, and for every prior content `mem` of the
mapping of buffer 0 the `uint64_t` counter that `printCounter` reads from
that mapping afterwards is 0, no device write intervening. The function
makes one `memcpy` to the mapping, of exactly 8 zero bytes, so the bytes past
the first 8 are as before. Every descriptor write it makes puts buffer 0 of
the job at binding 0 of the job's descriptor set, and there is such a
write. `printCounter` reads from the same mapping. -/
theorem prepareComputeShader_zeroes_counter (hv : HelloVulkan) (w : World)
    (compData : computeData) (rest : List computeData) (b : Buffer) (bs : List Buffer)
    (hjob : hv.m_compDataList = compData :: rest) (hbuf : compData.buffers = b :: bs) :
    (hv.prepareComputeShader w).2 = .returned ∧
    (∀ mem, readUint64 (mappedAfter b.data (issued w (hv.prepareComputeShader w)) mem) = 0) ∧
    copiedTo b.data (issued w (hv.prepareComputeShader w)) = [List.replicate 8 0] ∧
    (∀ mem, (mappedAfter b.data (issued w (hv.prepareComputeShader w)) mem).drop 8 =
      mem.drop 8) ∧
    (∀ wr ∈ descriptorWrites (issued w (hv.prepareComputeShader w)),
      wr = (compData.descSet, 0, b.buffer)) ∧
    descriptorWrites (issued w (hv.prepareComputeShader w)) ≠ [] ∧
    issued (hv.prepareComputeShader w).1 (hv.printCounter (hv.prepareComputeShader w).1) =
      [.printCounter b.data] := by
  have hb8 : HelloVulkan.uint64Bytes 0 = List.replicate 8 0 := by decide
  have hprep : hv.prepareComputeShader w =
      ({ dev := w.dev
         calls := w.calls ++
           [.memcpy b.data (List.replicate 8 0),
            .updateDescriptorSets compData.descSet 0 b.buffer,
            .updateDescriptorSets compData.descSet 0 b.buffer] }, .returned) := by
    simp [HelloVulkan.prepareComputeShader, HelloVulkan.updateCompDescriptorSet, hjob, hbuf,
      World.emit, hb8]
  have hprint : ∀ w1 : World, hv.printCounter w1 =
      ({ dev := w1.dev, calls := w1.calls ++ [.printCounter b.data] }, .returned) := by
    intro w1
    simp [HelloVulkan.printCounter, hjob, hbuf, World.emit]
  rw [hprint, hprep, issued_emit, issued_emit]
  refine ⟨rfl, ?_, ?_, ?_, ?_, ?_, rfl⟩
  · intro mem
    simp [mappedAfter, writeAt, readUint64, List.range_succ, List.getD_append]
  · simp [copiedTo]
  · intro mem
    simp [mappedAfter, writeAt]
  · intro wr hwr
    simp [descriptorWrites] at hwr
    exact hwr
  · simp [descriptorWrites]

theorem prepareComputeShader_zeroes_counter_witness :
    (HelloVulkan.atLoopEntry.prepareComputeShader World.init).2 = .returned ∧
    (∀ mem, readUint64
      (mappedAfter 7 (issued World.init (HelloVulkan.atLoopEntry.prepareComputeShader World.init))
        mem) = 0) ∧
    readUint64 [255, 1, 2, 3, 4, 5, 6, 7, 8, 9] = 506097522914230783 :=
  ⟨(prepareComputeShader_zeroes_counter HelloVulkan.atLoopEntry World.init computeA []
      { buffer := 6, data := 7 } [] rfl rfl).1,
   (prepareComputeShader_zeroes_counter HelloVulkan.atLoopEntry World.init computeA []
      { buffer := 6, data := 7 } [] rfl rfl).2.1, by decide⟩

theorem submissions_ended (r : Responses) (cs : List Handle) (rest : List Call) :
    submissions (cs.map (fun c => Call.endCommandBuffer c r.endResult) ++ rest) =
      submissions rest := by
  induction cs with
  | nil => rfl
  | cons c cs ih => simpa [submissions] using ih

theorem freed_ended (r : Responses) (cs : List Handle) (rest : List Call) :
    freed (cs.map (fun c => Call.endCommandBuffer c r.endResult) ++ rest) = freed rest := by
  induction cs with
  | nil => rfl
  | cons c cs ih => simpa [freed] using ih

/-- The trace of `VulkanHelper::submit` for an array of at least `count`
buffers: the submission carries `(uint32_t)count` of them. -/
theorem submit_trace (count : Nat) (cmds : List Handle) (queue : QueueRef)
    (fence : Option Handle) (r : Responses) (hcount : count ≤ cmds.length) :
    VulkanHelper.submit count cmds queue fence r =
      ((cmds.take count).map (fun c => Call.endCommandBuffer c r.endResult) ++
        [.queueSubmit queue (cmds.take (count % 2 ^ 32)) fence r.queueSubmitResult],
       .returned) := by
  unfold VulkanHelper.submit
  rw [if_pos hcount]

/-- The trace of `VulkanHelper::submitAndWait` for an array of at least
`count` buffers. -/
theorem submitAndWait_trace (checkResult : VkResult → Bool) (count : Nat)
    (cmds : List Handle) (queue : QueueRef) (r : Responses) (hcount : count ≤ cmds.length) :
    VulkanHelper.submitAndWait checkResult count cmds queue r =
      ((cmds.take count).map (fun c => Call.endCommandBuffer c r.endResult) ++
        [.queueSubmit queue (cmds.take (count % 2 ^ 32)) none r.queueSubmitResult,
         .queueWaitIdle queue r.queueWaitIdleResult] ++
        (if checkResult r.queueWaitIdleResult then []
         else [.freeCommandBuffers (cmds.take (count % 2 ^ 32))]),
       if checkResult r.queueWaitIdleResult then .exited (-1) else .returned) := by
  unfold VulkanHelper.submitAndWait
  rw [submit_trace count cmds queue none r hcount]
  cases hc : checkResult r.queueWaitIdleResult <;>
    simp only [hc, Bool.false_eq_true, if_true, if_false, List.append_assoc, List.append_nil,
      List.cons_append, List.nil_append]

/-- C26, as the code has it. For every `count` and every array `cmds` of at
least `count` command buffers, `VulkanHelper::submit` ends recording of
each of the first `count` buffers, in order, and then makes exactly one
queue submission, with the fence it was given (none by default), whose
command buffer count is `count` cast to `uint32_t`: it carries the first
`count mod 2^32` buffers, which is all of them exactly when `count` is below
`2^32`. `VulkanHelper::submitAndWait` does the same without a fence and then
waits for the queue to be idle. When the wait is not flagged as an error the
same `count mod 2^32` buffers are freed, after the wait, and the function
returns; when it is, the process exits with status -1 and nothing is
freed. -/
theorem submitAndWait_sequence (checkResult : VkResult → Bool) (count : Nat)
    (cmds : List Handle) (queue : QueueRef) (fence : Option Handle) (r : Responses)
    (hcount : count ≤ cmds.length) :
    VulkanHelper.submit count cmds queue fence r =
      ((cmds.take count).map (fun c => Call.endCommandBuffer c r.endResult) ++
        [.queueSubmit queue (cmds.take (count % 2 ^ 32)) fence r.queueSubmitResult],
       .returned) ∧
    submissions (VulkanHelper.submit count cmds queue fence r).1 =
      [(cmds.take (count % 2 ^ 32), fence)] ∧
    VulkanHelper.submitAndWait checkResult count cmds queue r =
      ((cmds.take count).map (fun c => Call.endCommandBuffer c r.endResult) ++
        [.queueSubmit queue (cmds.take (count % 2 ^ 32)) none r.queueSubmitResult,
         .queueWaitIdle queue r.queueWaitIdleResult] ++
        (if checkResult r.queueWaitIdleResult then []
         else [.freeCommandBuffers (cmds.take (count % 2 ^ 32))]),
       if checkResult r.queueWaitIdleResult then .exited (-1) else .returned) ∧
    submissions (VulkanHelper.submitAndWait checkResult count cmds queue r).1 =
      [(cmds.take (count % 2 ^ 32), none)] ∧
    freed (VulkanHelper.submitAndWait checkResult count cmds queue r).1 =
      (if checkResult r.queueWaitIdleResult then [] else [cmds.take (count % 2 ^ 32)]) ∧
    (cmds.take (count % 2 ^ 32) = cmds.take count ↔ count < 2 ^ 32) := by
  have h1 := submit_trace count cmds queue fence r hcount
  have h2 := submitAndWait_trace checkResult count cmds queue r hcount
  refine ⟨h1, ?_, h2, ?_, ?_, ?_⟩
  · rw [h1, submissions_ended]; rfl
  · rw [h2]
    cases hc : checkResult r.queueWaitIdleResult <;>
      simp only [Bool.false_eq_true, if_true, if_false, List.append_assoc, List.append_nil,
        submissions_ended, submissions, List.cons_append, List.nil_append]
  · rw [h2]
    cases hc : checkResult r.queueWaitIdleResult <;>
      simp only [Bool.false_eq_true, if_true, if_false, List.append_assoc, List.append_nil,
        freed_ended, freed, List.cons_append, List.nil_append]
  · constructor
    · intro heq
      by_contra hge
      have hpos : 0 < 2 ^ 32 := by decide
      have hlt : count % 2 ^ 32 < count :=
        lt_of_lt_of_le (Nat.mod_lt count hpos) (Nat.le_of_not_lt hge)
      have hlen := congrArg List.length heq
      rw [List.length_take, List.length_take, Nat.min_eq_left hcount,
        Nat.min_eq_left (le_trans (Nat.le_of_lt hlt) hcount)] at hlen
      omega
    · intro hlt
      rw [Nat.mod_eq_of_lt hlt]

theorem submitAndWait_sequence_witness :
    VulkanHelper.submitAndWait VkResult.isError 2 [21, 22, 23] .m_queue_comp Responses.ok =
      ([ .endCommandBuffer 21 .VK_SUCCESS, .endCommandBuffer 22 .VK_SUCCESS,
         .queueSubmit .m_queue_comp [21, 22] none .VK_SUCCESS,
         .queueWaitIdle .m_queue_comp .VK_SUCCESS, .freeCommandBuffers [21, 22] ],
       .returned) ∧
    VulkanHelper.submitAndWait VkResult.isError 2 [21, 22, 23] .m_queue_comp
        { Responses.ok with queueWaitIdleResult := .VK_ERROR_DEVICE_LOST } =
      ([ .endCommandBuffer 21 .VK_SUCCESS, .endCommandBuffer 22 .VK_SUCCESS,
         .queueSubmit .m_queue_comp [21, 22] none .VK_SUCCESS,
         .queueWaitIdle .m_queue_comp .VK_ERROR_DEVICE_LOST ], .exited (-1)) :=
  ⟨(submitAndWait_sequence VkResult.isError 2 [21, 22, 23] .m_queue_comp none Responses.ok
      (by decide)).2.2.1,
   (submitAndWait_sequence VkResult.isError 2 [21, 22, 23] .m_queue_comp none
      { Responses.ok with queueWaitIdleResult := .VK_ERROR_DEVICE_LOST }
      (by decide)).2.2.1⟩

/-- C26, counterexample. With `count = 2^32` and an array of `2^32` command
buffers, `VulkanHelper::submitAndWait` ends recording of all `2^32` buffers,
but `(uint32_t)count` is 0: the one queue submission carries no command
buffer, and after the successful wait no command buffer is freed. -/
theorem submitAndWait_count_truncated :
    (List.replicate (2 ^ 32) (21 : Handle)).length = 2 ^ 32 ∧
    VulkanHelper.submitAndWait VkResult.isError (2 ^ 32) (List.replicate (2 ^ 32) 21)
        .m_queue_comp Responses.ok =
      ((List.replicate (2 ^ 32) (21 : Handle)).map
          (fun c => Call.endCommandBuffer c .VK_SUCCESS) ++
        [ .queueSubmit .m_queue_comp [] none .VK_SUCCESS,
          .queueWaitIdle .m_queue_comp .VK_SUCCESS, .freeCommandBuffers [] ],
       .returned) ∧
    submissions
        (VulkanHelper.submitAndWait VkResult.isError (2 ^ 32) (List.replicate (2 ^ 32) 21)
          .m_queue_comp Responses.ok).1 = [([], none)] := by
  have hlen : (List.replicate (2 ^ 32) (21 : Handle)).length = 2 ^ 32 :=
    List.length_replicate _ _
  have htake : (List.replicate (2 ^ 32) (21 : Handle)).take (2 ^ 32) =
      List.replicate (2 ^ 32) 21 := by
    rw [List.take_replicate, Nat.min_self]
  have htrace := submitAndWait_trace VkResult.isError (2 ^ 32)
    (List.replicate (2 ^ 32) (21 : Handle)) .m_queue_comp Responses.ok (le_of_eq hlen.symm)
  rw [Nat.mod_self, List.take_zero, htake] at htrace
  have hres : Responses.ok.queueWaitIdleResult = .VK_SUCCESS := rfl
  have hend : Responses.ok.endResult = .VK_SUCCESS := rfl
  have hsubm : Responses.ok.queueSubmitResult = .VK_SUCCESS := rfl
  have herr : VkResult.isError .VK_SUCCESS = false := rfl
  rw [hres, hend, hsubm, herr] at htrace
  simp only [Bool.false_eq_true, if_false] at htrace
  refine ⟨hlen, ?_, ?_⟩
  · rw [htrace, List.append_assoc]
    rfl
  · rw [htrace, List.append_assoc]
    have := submissions_ended Responses.ok (List.replicate (2 ^ 32) (21 : Handle))
      ([ .queueSubmit .m_queue_comp [] none .VK_SUCCESS,
         .queueWaitIdle .m_queue_comp .VK_SUCCESS ] ++ [.freeCommandBuffers []])
    rw [hend] at this
    rw [this]
    rfl

/-- C28. When the three sliders hold values within their declared ranges
(`t1` in 0..100, `t2` in 0..1000, `t3` in 0..1,000,000,000) after the panel
has read them, the thread count the panel stores is exactly their sum: the
`int` addition does not wrap, and the count lies in 0..1,000,001,100, which
is below `2^31`. -/
theorem m_threads_in_range (i : FrameInput) (s : Loop) (hgui : i.showGui = true)
    (hopen : i.headerOpen = true)
    (h1 : 0 ≤ i.t1.getD s.x ∧ i.t1.getD s.x ≤ 100)
    (h2 : 0 ≤ i.t2.getD s.y ∧ i.t2.getD s.y ≤ 1000)
    (h3 : 0 ≤ i.t3.getD s.z ∧ i.t3.getD s.z ≤ 1000000000) :
    (renderPanel i s).x = i.t1.getD s.x ∧ (renderPanel i s).y = i.t2.getD s.y ∧
    (renderPanel i s).z = i.t3.getD s.z ∧
    (renderPanel i s).helloVk.m_PushConstant.m_threads =
      i.t1.getD s.x + i.t2.getD s.y + i.t3.getD s.z ∧
    0 ≤ (renderPanel i s).helloVk.m_PushConstant.m_threads ∧
    (renderPanel i s).helloVk.m_PushConstant.m_threads ≤ 1000001100 ∧
    (renderPanel i s).helloVk.m_PushConstant.m_threads < 2 ^ 31 ∧
    toInt32 (i.t1.getD s.x + i.t2.getD s.y + i.t3.getD s.z) =
      i.t1.getD s.x + i.t2.getD s.y + i.t3.getD s.z := by
  have hsum : toInt32 (i.t1.getD s.x + i.t2.getD s.y + i.t3.getD s.z) =
      i.t1.getD s.x + i.t2.getD s.y + i.t3.getD s.z := by
    unfold toInt32
    omega
  have hfacts : (renderPanel i s).x = i.t1.getD s.x ∧ (renderPanel i s).y = i.t2.getD s.y ∧
      (renderPanel i s).z = i.t3.getD s.z ∧
      (renderPanel i s).helloVk.m_PushConstant.m_threads =
        toInt32 (i.t1.getD s.x + i.t2.getD s.y + i.t3.getD s.z) := by
    unfold renderPanel
    cases i.colorEdited <;> cases i.rayTracerClicked <;> cases i.oneQueue <;>
      cases i.twoQueues <;> cases i.runButton <;> simp [hgui, hopen]
  obtain ⟨hx, hy, hz, ht⟩ := hfacts
  rw [ht, hsum]
  refine ⟨hx, hy, hz, rfl, ?_, ?_, ?_, rfl⟩ <;> omega

theorem m_threads_in_range_witness :
    (renderPanel { FrameInput.idle with t1 := some 100, t2 := some 1000, t3 := some 1000000000 }
      Loop.init).helloVk.m_PushConstant.m_threads = 1000001100 ∧
    (renderPanel FrameInput.idle Loop.init).helloVk.m_PushConstant.m_threads = 2 :=
  ⟨(m_threads_in_range
      { FrameInput.idle with t1 := some 100, t2 := some 1000, t3 := some 1000000000 }
      Loop.init rfl rfl (by decide) (by decide) (by decide)).2.2.2.1,
   (m_threads_in_range FrameInput.idle Loop.init rfl rfl (by decide) (by decide)
      (by decide)).2.2.2.1⟩

/-! ## Reported completion -/

theorem frame_report_genuine (i : FrameInput) (s : Loop) (compData : computeData)
    (rest : List computeData) (b : Buffer) (bs : List Buffer)
    (hjob : s.helloVk.m_compDataList = compData :: rest) (hbuf : compData.buffers = b :: bs)
    (hinv : oneInFlight s)
    (hrep : Event.isComputeShaderExecutionDone true ∈ (frame i s).2) :
    Event.printCounter ∈ (frame i s).2 ∧
    (atPollBlock i s).world.dev = { fenceSignaled := true, pending := 0 } ∧
    (frame i s).1.world.dev.idle := by
  cases hh : s.halted.isSome with
  | true => rw [frame_halted i s hh] at hrep; simp at hrep
  | false =>
    cases hm : i.isMinimized with
    | true => rw [frame_minimized i s hh hm] at hrep; simp at hrep
    | false =>
      have hf := atComputeState_facts i s
      have hjob1 : (atComputeState i s).helloVk.m_compDataList = compData :: rest := by
        rw [hf.2.2.1, hjob]
      have hex1 : ¬((atComputeState i s).helloVk.m_isTestComputeShaderRunning = true ∧
          (atComputeState i s).helloVk.m_waitingComputeShaderFence = true) := by
        rw [hf.1, hf.2.1]; exact hinv.1.2
      have h2 : fenceAccounted (afterComputeState i s) :=
        fenceAccounted_computeStateBlock i _ compData rest b bs hjob1 hbuf hex1
          (fenceAccounted_atComputeState i s hinv.2)
      have h3 : fenceAccounted (atPollBlock i s) := fenceAccounted_gpuProgress _ _ h2
      have hjob3 : (atPollBlock i s).helloVk.m_compDataList = compData :: rest := by
        simp only [atPollBlock, gpuProgress, afterComputeState]
        rw [computeStateBlock_job, hjob1]
      have hnr : ∀ e ∈ renderFrame (atComputeState i s),
          e ≠ Event.isComputeShaderExecutionDone true := by
        intro e he heq
        have := renderFrame_events _ e he
        rw [heq] at this
        simp at this
      have hnc : ∀ e ∈ (computeStateBlock i (atComputeState i s)).2,
          e ≠ Event.isComputeShaderExecutionDone true := by
        intro e he heq
        have := computeStateBlock_events _ _ e he
        rw [heq] at this
        simp at this
      rw [frame_steps i s hh hm] at hrep ⊢
      split at hrep
      · simp only [List.mem_append] at hrep
        rcases hrep with hrep | hrep
        · exact absurd rfl (hnr _ hrep)
        · exact absurd rfl (hnc _ hrep)
      · rename_i halive
        simp only [halive, Bool.false_eq_true, if_false]
        simp only [List.mem_append] at hrep
        rcases hrep with (hrep | hrep) | hrep
        · exact absurd rfl (hnr _ hrep)
        · exact absurd rfl (hnc _ hrep)
        · cases hw : (atPollBlock i s).helloVk.m_waitingComputeShaderFence with
          | false =>
            rw [pollBlock_of_not_waiting _ hw] at hrep
            simp at hrep
          | true =>
            cases hs : (atPollBlock i s).world.dev.fenceSignaled with
            | false =>
              rw [pollBlock_of_unsignaled _ compData rest hjob3 hw hs] at hrep
              simp at hrep
            | true =>
              have hp : (atPollBlock i s).world.dev.pending = 0 := by
                have := h3.1
                unfold Device.atMostOne at this
                simp [hs] at this
                exact this
              rw [pollBlock_of_signaled _ compData rest b bs hjob3 hbuf hw hs]
              refine ⟨by simp, ?_, ?_⟩
              · cases hd : (atPollBlock i s).world.dev with
                | mk fs pd =>
                  rw [hd] at hs hp
                  simp only at hs hp
                  rw [hs, hp]
              · simp [Device.idle, Device.vkResetFences, hp]

/-- C27, as the code has it. Take any run of the loop, with a job in the
list, that starts with the one-job invariant (flags exclusive, nothing
outstanding on the fence unless the waiting flag is set), with any UI
inputs, device answers and GPU timing, in which the "Run Compute Shader"
button is not pressed during an iteration that starts with
`m_waitingComputeShaderFence == true`. Then whenever the poll of an
iteration returns `true`, the counter is printed in that iteration, and at
the poll the fence is signaled with no submission pending: every dispatch
submitted so far, the most recent one included, has finished. Afterwards
nothing is outstanding on the fence. -/
theorem report_means_finished (inputs : List FrameInput) (s0 : Loop)
    (compData : computeData) (rest : List computeData) (b : Buffer) (bs : List Buffer)
    (hjob : s0.helloVk.m_compDataList = compData :: rest) (hbuf : compData.buffers = b :: bs)
    (hinv : oneInFlight s0)
    (hpress : ∀ it ∈ iterations inputs s0,
      it.start.helloVk.m_waitingComputeShaderFence = true → it.input.triggers = false) :
    ∀ it ∈ iterations inputs s0, Event.isComputeShaderExecutionDone true ∈ it.events →
      Event.printCounter ∈ it.events ∧
      (atPollBlock it.input it.start).world.dev = { fenceSignaled := true, pending := 0 } ∧
      (frame it.input it.start).1.world.dev.idle := by
  induction inputs generalizing s0 with
  | nil => intro it hit; simp [iterations] at hit
  | cons i tl ih =>
    intro it hit hrep
    simp only [iterations, List.mem_cons] at hit hpress
    have hhead := hpress { start := s0, input := i, events := (frame i s0).2 } (Or.inl rfl)
    rcases hit with rfl | hit
    · exact frame_report_genuine i s0 compData rest b bs hjob hbuf hinv hrep
    · exact ih (frame i s0).1 (by rw [frame_job, hjob])
        ⟨frame_flagsExclusive i s0 hinv.1 hhead,
          frame_fenceAccounted i s0 compData rest b bs hjob hbuf hinv.1.2 hinv.2⟩
        (fun it' hit' => hpress it' (Or.inr hit')) it hit hrep

theorem report_means_finished_witness :
    oneInFlight Loop.init ∧
    (∀ it ∈ iterations
        [ FrameInput.press, FrameInput.idle, FrameInput.idle,
          { FrameInput.idle with retiredBeforePoll := 1 }, FrameInput.press,
          FrameInput.idle ] Loop.init,
      it.start.helloVk.m_waitingComputeShaderFence = true → it.input.triggers = false) ∧
    (∃ it ∈ iterations
        [ FrameInput.press, FrameInput.idle, FrameInput.idle,
          { FrameInput.idle with retiredBeforePoll := 1 }, FrameInput.press,
          FrameInput.idle ] Loop.init,
      Event.isComputeShaderExecutionDone true ∈ it.events) ∧
    (∀ it ∈ iterations
        [ FrameInput.press, FrameInput.idle, FrameInput.idle,
          { FrameInput.idle with retiredBeforePoll := 1 }, FrameInput.press,
          FrameInput.idle ] Loop.init,
      Event.isComputeShaderExecutionDone true ∈ it.events →
        Event.printCounter ∈ it.events ∧
        (atPollBlock it.input it.start).world.dev = { fenceSignaled := true, pending := 0 } ∧
        (frame it.input it.start).1.world.dev.idle) :=
  ⟨by decide, by decide, by decide,
    report_means_finished
      [ FrameInput.press, FrameInput.idle, FrameInput.idle,
        { FrameInput.idle with retiredBeforePoll := 1 }, FrameInput.press,
        FrameInput.idle ] Loop.init computeA [] { buffer := 6, data := 7 } [] rfl rfl
      (by decide) (by decide)⟩

/-- C27, counterexample. The button is pressed, the job is dispatched on the
dedicated queue, and the button is pressed again while the GPU is still
running it. The fourth iteration dispatches a second time; the first
submission then finishes and signals the fence the two share; the poll of
that same iteration returns `true` and the counter is printed, while the
most recently submitted dispatch is still pending on the device. -/
theorem report_while_latest_dispatch_runs :
    ∃ it ∈ iterations
        [ FrameInput.press, FrameInput.idle, FrameInput.press,
          { FrameInput.idle with retiredBeforePoll := 1 } ] Loop.init,
      Event.executeComputeShaderPipline ∈ it.events ∧
      Event.isComputeShaderExecutionDone true ∈ it.events ∧
      Event.printCounter ∈ it.events ∧
      (atPollBlock it.input it.start).world.dev = { fenceSignaled := true, pending := 1 } ∧
      submittedCount (frame it.input it.start).1.world.calls = 2 ∧
      (frame it.input it.start).1.world.dev.pending = 1 := by
  decide

/-! ## The scene and the shader binding table -/

theorem loadModel_vectors (loader : ObjLoader) (transform : Nat) (sc : Scene) :
    (sc.loadModel loader transform).m_objModel =
      sc.m_objModel ++
        [{ nbIndices := loader.m_indices % 2 ^ 32, nbVertices := loader.m_vertices % 2 ^ 32 }] ∧
    (sc.loadModel loader transform).m_objInstance =
      sc.m_objInstance ++
        [{ objIndex := sc.m_objModel.length % 2 ^ 32, txtOffset := sc.m_textures % 2 ^ 32,
           transform := transform }] := by
  unfold Scene.loadModel Scene.createTextureImages
  split <;> simp

theorem loadModel_indexValid (loader : ObjLoader) (transform : Nat) (sc : Scene)
    (h : sc.indexValid) : (sc.loadModel loader transform).indexValid := by
  obtain ⟨hm, hi⟩ := loadModel_vectors loader transform sc
  intro inst hinst
  rw [hi] at hinst
  rw [hm]
  simp only [List.mem_append, List.mem_singleton, List.length_append, List.length_singleton]
    at hinst ⊢
  rcases hinst with hinst | rfl
  · exact Nat.lt_succ_of_lt (h inst hinst)
  · exact Nat.lt_succ_of_le (Nat.mod_le _ _)

theorem duplicateLast_some (mat : Nat) (sc : Scene) (hne : sc.m_objInstance ≠ []) :
    ∃ sc', sc.duplicateLast mat = some sc' ∧ sc'.m_objModel = sc.m_objModel ∧
      sc'.m_objInstance.length = sc.m_objInstance.length + 1 ∧ sc'.m_objInstance ≠ [] ∧
      (sc.indexValid → sc'.indexValid) := by
  cases hl : sc.m_objInstance.getLast? with
  | none => exact absurd (List.getLast?_eq_none_iff.mp hl) hne
  | some inst =>
    have hdup : sc.duplicateLast mat =
        some { sc with
          m_objInstance := sc.m_objInstance.dropLast ++
            [{ inst with txtOffset := 0, transform := mat },
             { inst with txtOffset := 0, transform := mat }] } := by
      simp [Scene.duplicateLast, hl]
    refine ⟨_, hdup, rfl, ?_, ?_, ?_⟩
    · have hlen : 0 < sc.m_objInstance.length := List.length_pos.mpr hne
      simp only [List.length_append, List.length_dropLast, List.length_cons, List.length_nil]
      omega
    · simp
    · intro hv x hx
      have hmem : inst ∈ sc.m_objInstance := List.mem_of_getLast?_eq_some hl
      simp only [List.mem_append, List.mem_cons, List.mem_nil_iff, or_false, or_self] at hx
      rcases hx with hx | rfl
      · exact hv x (List.dropLast_subset _ hx)
      · exact hv inst hmem

theorem duplicateCubes_some (mats : List Nat) (sc : Scene) (hne : sc.m_objInstance ≠ []) :
    ∃ sc', Scene.duplicateCubes mats sc = some sc' ∧ sc'.m_objModel = sc.m_objModel ∧
      sc'.m_objInstance.length = sc.m_objInstance.length + mats.length ∧
      (sc.indexValid → sc'.indexValid) := by
  induction mats generalizing sc with
  | nil => exact ⟨sc, rfl, rfl, rfl, id⟩
  | cons mat mats ih =>
    obtain ⟨sc1, h1, hm1, hl1, hne1, hv1⟩ := duplicateLast_some mat sc hne
    obtain ⟨sc2, h2, hm2, hl2, hv2⟩ := ih sc1 hne1
    refine ⟨sc2, by simp [Scene.duplicateCubes, h1, h2], by rw [hm2, hm1], ?_, ?_⟩
    · rw [hl2, hl1, List.length_cons]; omega
    · exact fun hv => hv2 (hv1 hv)

theorem lookups_of_indexValid (sc : Scene) (h : sc.indexValid) :
    (∀ o ∈ sc.rasterizeLookups, o.isSome = true) ∧ (∀ id ∈ sc.blasIds, id < sc.blasCount) := by
  constructor
  · intro o ho
    simp only [Scene.rasterizeLookups, List.mem_map] at ho
    obtain ⟨inst, hinst, rfl⟩ := ho
    rw [List.getElem?_eq_getElem (h inst hinst)]
    rfl
  · intro id hid
    simp only [Scene.blasIds, List.mem_map] at hid
    obtain ⟨inst, hinst, rfl⟩ := hid
    exact h inst hinst

/-- C29. `loadModel` appends one model and one instance whose `objIndex` is
the position of that model (the size of `m_objModel` before the call, as
long as it fits `uint32_t`), and keeps every instance naming a model of the
scene. A pass of the duplication loop of `main` copies the last instance
and keeps its `objIndex`, so it keeps that property too. The scene `main`
builds, two calls of `loadModel` and 1000 passes of the loop from empty
vectors, whatever the files and transforms, has 2 models and 1002
instances, every instance names a model, each lookup
`m_objModel[inst.objIndex]` of `rasterize` is within the vector and each
`blasId` of `createTopLevelAS` is below the number of bottom-level
structures. -/
theorem instances_name_models (plane cube : ObjLoader) (mat : Nat → Nat) :
    (∀ (sc : Scene) (loader : ObjLoader) (transform : Nat),
      (sc.loadModel loader transform).m_objModel.length = sc.m_objModel.length + 1 ∧
      (sc.loadModel loader transform).m_objInstance.length = sc.m_objInstance.length + 1 ∧
      (sc.m_objModel.length < 2 ^ 32 →
        ((sc.loadModel loader transform).m_objInstance.getLast?.map ObjInstance.objIndex =
          some sc.m_objModel.length)) ∧
      (sc.indexValid → (sc.loadModel loader transform).indexValid)) ∧
    (∀ (sc sc' : Scene) (m : Nat), sc.duplicateLast m = some sc' → sc.indexValid →
      sc'.m_objModel = sc.m_objModel ∧ sc'.indexValid) ∧
    (∃ sc, mainScene plane cube mat = some sc ∧ sc.m_objModel.length = 2 ∧
      sc.m_objInstance.length = 1002 ∧ sc.indexValid ∧
      (∀ o ∈ sc.rasterizeLookups, o.isSome = true) ∧
      (∀ id ∈ sc.blasIds, id < sc.blasCount)) := by
  refine ⟨?_, ?_, ?_⟩
  · intro sc loader transform
    obtain ⟨hm, hi⟩ := loadModel_vectors loader transform sc
    refine ⟨by rw [hm]; simp, by rw [hi]; simp, ?_, loadModel_indexValid loader transform sc⟩
    intro hlt
    rw [hi, Nat.mod_eq_of_lt hlt]
    simp
  · intro sc sc' m hdup hv
    have hne : sc.m_objInstance ≠ [] := by
      intro hnil
      simp [Scene.duplicateLast, hnil] at hdup
    obtain ⟨sc1, h1, hm1, _, _, hv1⟩ := duplicateLast_some m sc hne
    rw [h1] at hdup
    cases hdup
    exact ⟨hm1, hv1 hv⟩
  · have hv0 : Scene.empty.indexValid := by intro inst hinst; simp [Scene.empty] at hinst
    have hv1 := loadModel_indexValid plane 0 _ hv0
    have hv2 := loadModel_indexValid cube 0 _ hv1
    obtain ⟨hm1, hi1⟩ := loadModel_vectors plane 0 Scene.empty
    obtain ⟨hm2, hi2⟩ := loadModel_vectors cube 0 (Scene.empty.loadModel plane 0)
    have hne : ((Scene.empty.loadModel plane 0).loadModel cube 0).m_objInstance ≠ [] := by
      rw [hi2]; simp
    obtain ⟨sc, hsc, hm, hl, hv⟩ :=
      duplicateCubes_some ((List.range nbCubes).map mat) _ hne
    have hvalid := hv hv2
    refine ⟨sc, hsc, ?_, ?_, hvalid, lookups_of_indexValid sc hvalid⟩
    · rw [hm, hm2, hm1]; simp [Scene.empty]
    · rw [hl, hi2, hi1]; simp [Scene.empty, nbCubes]

theorem instances_name_models_witness :
    ((Scene.empty.loadModel { m_indices := 6, m_vertices := 4, m_textures := [] }
        0).m_objInstance.getLast?.map ObjInstance.objIndex = some 0) ∧
    (Scene.empty.loadModel { m_indices := 6, m_vertices := 4, m_textures := [] }
        0).indexValid :=
  ⟨((instances_name_models { m_indices := 6, m_vertices := 4, m_textures := [] }
      { m_indices := 36, m_vertices := 24, m_textures := ["a.png"] } id).1 Scene.empty
      { m_indices := 6, m_vertices := 4, m_textures := [] } 0).2.2.1 (by decide),
   ((instances_name_models { m_indices := 6, m_vertices := 4, m_textures := [] }
      { m_indices := 36, m_vertices := 24, m_textures := ["a.png"] } id).1 Scene.empty
      { m_indices := 6, m_vertices := 4, m_textures := [] } 0).2.2.2 (by decide)⟩

theorem sbtLoop_eq (h A : Nat) (k g p : Nat) :
    sbtLoop h A k g p =
      (List.range k).map
        (fun j => ({ src := (g + j) * h % 2 ^ 32, dst := p + j * A, len := h } : SbtCopy)) := by
  induction k generalizing g p with
  | zero => rfl
  | succ k ih =>
    rw [sbtLoop, ih, List.range_succ_eq_map, List.map_cons, List.map_map]
    congr 1
    · simp
    · apply List.map_congr_left
      intro j _
      simp only [Function.comp]
      congr 1
      · congr 2; omega
      · rw [Nat.succ_mul]; omega

theorem land_mask (y k : Nat) (hy : y < 2 ^ 32) (hk : k ≤ 32) :
    Nat.land y (2 ^ 32 - 1 - (2 ^ k - 1)) = y / 2 ^ k * 2 ^ k := by
  have hpos : 0 < 2 ^ k := Nat.pos_pow_of_pos k (by decide)
  have hle : 2 ^ k ≤ 2 ^ 32 := Nat.pow_le_pow_right (by decide) hk
  have hm : 2 ^ 32 - 1 - (2 ^ k - 1) = 2 ^ 32 - ((2 ^ k - 1) + 1) := by omega
  show y &&& (2 ^ 32 - 1 - (2 ^ k - 1)) = y / 2 ^ k * 2 ^ k
  apply Nat.eq_of_testBit_eq
  intro i
  rw [Nat.testBit_and, hm, Nat.testBit_two_pow_sub_succ (by omega), Nat.testBit_two_pow_sub_one,
    ← Nat.shiftRight_eq_div_pow, ← Nat.shiftLeft_eq, Nat.testBit_shiftLeft,
    Nat.testBit_shiftRight]
  by_cases hik : i < k
  · simp [hik]
  · have hki : k ≤ i := Nat.le_of_not_lt hik
    by_cases hi : i < 32
    · simp [hik, hi, hki, Nat.add_sub_cancel' hki]
    · have : y.testBit i = false := by
        apply Nat.testBit_lt_two_pow
        exact lt_of_lt_of_le hy (Nat.pow_le_pow_right (by decide) (Nat.le_of_not_lt hi))
      simp [hik, hi, hki, Nat.add_sub_cancel' hki, this]

/-- For a power of two the mask of `align_up` rounds the sum down to a
multiple of the alignment. -/
theorem align_up_eq (h k : Nat) (hfit : h + (2 ^ k - 1) < 2 ^ 32) :
    align_up h (2 ^ k) = (h + (2 ^ k - 1)) / 2 ^ k * 2 ^ k := by
  have hpos : 0 < 2 ^ k := Nat.pos_pow_of_pos k (by decide)
  have hk : k ≤ 32 := by
    by_contra hk
    have : 2 ^ 33 ≤ 2 ^ k := Nat.pow_le_pow_right (by decide) (by omega)
    omega
  unfold align_up
  rw [Nat.mod_eq_of_lt hfit, Nat.mod_eq_of_lt (by omega), land_mask _ k hfit hk]

theorem le_align_up (h k : Nat) (hfit : h + (2 ^ k - 1) < 2 ^ 32) :
    h ≤ align_up h (2 ^ k) ∧ align_up h (2 ^ k) % 2 ^ k = 0 := by
  have hpos : 0 < 2 ^ k := Nat.pos_pow_of_pos k (by decide)
  rw [align_up_eq h k hfit]
  have h1 := Nat.div_add_mod (h + (2 ^ k - 1)) (2 ^ k)
  have h2 := Nat.mod_lt (h + (2 ^ k - 1)) hpos
  have h3 : (h + (2 ^ k - 1)) / 2 ^ k * 2 ^ k = 2 ^ k * ((h + (2 ^ k - 1)) / 2 ^ k) :=
    Nat.mul_comm _ _
  constructor
  · omega
  · simp

end AsyncCompute
